import Mathlib

/-!
# SalesTracker: filters, queries, services, handlers and the CSV export

A shallow embedding of `internal/domain` (constants, sentinel errors, the two
filter validators, the error classification), of `internal/repository`
(`ItemRepo.GetAll`, `buildAnalyticsWhere`, `Aggregate`, `AggregateGrouped`), of
`internal/service`, of `internal/handler` (request types, filter parsing, the
item, analytics and export handlers) and of `internal/export` (`WriteCSV`),
followed by the properties proved about them.

Conventions of the embedding:
* Go `string` is `String`, Go `int` is `Int`, `*time.Time` is `Option Time`,
  `error` that is one of the package-level sentinels is `Option DomainError`
  (`none` is `nil`).
* `time.Time` is reduced to the instant it denotes: seconds since year 1 and
  the nanosecond within the second; the values handled here come from request
  parsing and carry no monotonic clock reading.
* `fmt.Sprintf` with `%d` / `%s` verbs is string concatenation with the
  decimal rendering of the integer.
* `[]interface{}` holding strings and times is `List Arg`.
* A Go `error` in general is `Option GoError`; a slice that may be nil is an
  `Option (List _)`.
* An interface the code depends on (repository, service) is a record of
  functions over a state type; a function that calls it returns, next to its
  Go results, the state afterwards and the list of calls it made.
* Library functions are either parameters of the functions that call them
  (`time.Parse`, `Time.Format`, `strconv.Atoi`, the clock, the identifier
  parser) or written out from the library (`decimal`, `encoding/csv`,
  `unicode.IsSpace`, the struct tags of the validator).
-/

namespace SalesTracker

/-! ## internal/domain/item.go : constants -/

def TypeIncome : String := "income"
def TypeExpense : String := "expense"

def SortByDate : String := "date"
def SortByAmount : String := "amount"
def SortByCategory : String := "category"
def SortByType : String := "type"

def OrderAsc : String := "asc"
def OrderDesc : String := "desc"

def GroupByDay : String := "day"
def GroupByWeek : String := "week"
def GroupByMonth : String := "month"
def GroupByCategory : String := "category"

/-! ## time.Time, as far as the validators use it -/

/-- An instant: `sec` seconds since January 1, year 1 00:00:00 UTC and `nsec`
nanoseconds within that second. -/
structure Time where
  sec : Int
  nsec : Nat
deriving DecidableEq

/-- Go `t.After(u)`: `ts > us || ts == us && t.nsec() > u.nsec()`. -/
def Time.After (t u : Time) : Bool :=
  decide (t.sec > u.sec) || (decide (t.sec = u.sec) && decide (t.nsec > u.nsec))

/-- Go `t.IsZero()`: `t.sec() == 0 && t.nsec() == 0`. -/
def Time.IsZero (t : Time) : Bool :=
  decide (t.sec = 0) && decide (t.nsec = 0)

/-! ## internal/domain/errors.go : sentinel errors -/

inductive DomainError where
  | ErrInvalidType
  | ErrInvalidAmount
  | ErrEmptyCategory
  | ErrInvalidDate
  | ErrInvalidID
  | ErrItemNotFound
  | ErrInvalidSortBy
  | ErrInvalidOrder
  | ErrInvalidGroupBy
  | ErrInvalidDateRange
  | ErrValidation
deriving DecidableEq

/-! ## internal/domain/filter.go -/

structure ItemFilter where
  From : Option Time
  To : Option Time
  Category : String
  Type_ : String
  SortBy : String
  Order : String
  Limit : Int
  Offset : Int
  NoLimit : Bool
deriving DecidableEq

/-- The method `ItemFilter.Validate` of filter.go, check by check. -/
def ItemFilter.Validate (f : ItemFilter) : Option DomainError :=
  if f.Type_ ≠ "" ∧ f.Type_ ≠ TypeIncome ∧ f.Type_ ≠ TypeExpense then
    some DomainError.ErrInvalidType
  else if f.SortBy ≠ "" ∧
      ¬ (f.SortBy = SortByDate ∨ f.SortBy = SortByAmount ∨
          f.SortBy = SortByCategory ∨ f.SortBy = SortByType) then
    some DomainError.ErrInvalidSortBy
  else if f.Order ≠ "" ∧ f.Order ≠ OrderAsc ∧ f.Order ≠ OrderDesc then
    some DomainError.ErrInvalidOrder
  else
    match f.From, f.To with
    | some a, some b =>
      if a.After b then some DomainError.ErrInvalidDateRange else none
    | _, _ => none

structure AnalyticsFilter where
  From : Time
  To : Time
  GroupBy : String
  Type_ : String
deriving DecidableEq

/-- The method `AnalyticsFilter.Validate` of filter.go, check by check. -/
def AnalyticsFilter.Validate (f : AnalyticsFilter) : Option DomainError :=
  if f.From.IsZero || f.To.IsZero then
    some DomainError.ErrInvalidDate
  else if f.From.After f.To then
    some DomainError.ErrInvalidDateRange
  else if f.GroupBy ≠ "" ∧
      ¬ (f.GroupBy = GroupByDay ∨ f.GroupBy = GroupByWeek ∨
          f.GroupBy = GroupByMonth ∨ f.GroupBy = GroupByCategory) then
    some DomainError.ErrInvalidGroupBy
  else if f.Type_ ≠ "" ∧ f.Type_ ≠ TypeIncome ∧ f.Type_ ≠ TypeExpense then
    some DomainError.ErrInvalidType
  else
    none

/-! ## internal/repository/item_repo.go : query compilation of `GetAll` -/

def defaultLimit : Int := 50
def maxLimit : Int := 1000

/-- A positional query parameter (an element of Go's `[]interface{}`). -/
inductive Arg where
  | str (s : String)
  | time (t : Time)
deriving DecidableEq

/-- The map `allowedSortColumns`: sort key to physical column. -/
def allowedSortColumns : List (String × String) :=
  [(SortByDate, "date"), (SortByAmount, "amount"),
   (SortByCategory, "category"), (SortByType, "type")]

/-- The three locals `whereClauses`, `args`, `argIdx` of `GetAll`. -/
structure WhereState where
  whereClauses : List String
  args : List Arg
  argIdx : Nat
deriving DecidableEq

/-- Lines 94-117 of item_repo.go: the four guarded appends. -/
def GetAll_predicates (filter : ItemFilter) : WhereState :=
  let st : WhereState := { whereClauses := [], args := [], argIdx := 1 }
  let st : WhereState :=
    if filter.Type_ ≠ "" then
      { whereClauses := st.whereClauses ++ ["type = $" ++ toString st.argIdx],
        args := st.args ++ [Arg.str filter.Type_],
        argIdx := st.argIdx + 1 }
    else st
  let st : WhereState :=
    if filter.Category ≠ "" then
      { whereClauses := st.whereClauses ++ ["category = $" ++ toString st.argIdx],
        args := st.args ++ [Arg.str filter.Category],
        argIdx := st.argIdx + 1 }
    else st
  let st : WhereState :=
    match filter.From with
    | some t =>
      { whereClauses := st.whereClauses ++ ["date >= $" ++ toString st.argIdx],
        args := st.args ++ [Arg.time t],
        argIdx := st.argIdx + 1 }
    | none => st
  let st : WhereState :=
    match filter.To with
    | some t =>
      { whereClauses := st.whereClauses ++ ["date <= $" ++ toString st.argIdx],
        args := st.args ++ [Arg.time t],
        argIdx := st.argIdx + 1 }
    | none => st
  st

/-- Lines 119-122: the local `where`. -/
def GetAll_where (filter : ItemFilter) : String :=
  let whereClauses := (GetAll_predicates filter).whereClauses
  if whereClauses.length > 0 then
    "WHERE " ++ String.intercalate " AND " whereClauses
  else ""

/-- The parameter list passed to `QueryWithRetry`. -/
def GetAll_args (filter : ItemFilter) : List Arg :=
  (GetAll_predicates filter).args

/-- Lines 124-127: the local `sortCol`. -/
def GetAll_sortCol (filter : ItemFilter) : String :=
  match allowedSortColumns.lookup filter.SortBy with
  | some col => col
  | none => "date"

/-- Lines 128-131: the local `sortDir`. -/
def GetAll_sortDir (filter : ItemFilter) : String :=
  if filter.Order = OrderAsc then "ASC" else "DESC"

/-- Lines 133-144: the local `limitClause`. -/
def GetAll_limitClause (filter : ItemFilter) : String :=
  if ¬ filter.NoLimit then
    let limit : Int :=
      if filter.Limit > 0 ∧ filter.Limit ≤ maxLimit then filter.Limit else defaultLimit
    let offset : Int :=
      if filter.Offset > 0 then filter.Offset else 0
    "LIMIT " ++ toString limit ++ " OFFSET " ++ toString offset
  else ""

/-- The format string of lines 147-152 applied to its four `%s` arguments. -/
def GetAll_format (where_ sortCol sortDir limitClause : String) : String :=
  "SELECT \n\t\t\t\t\tid, type, amount, category, description, date, created_at, updated_at,\n\t\t\t\t\tCOUNT(*) OVER() AS total_count\n\t\t\t    FROM items "
    ++ where_ ++ "\n\t\t\t    ORDER BY " ++ sortCol ++ " " ++ sortDir
    ++ "\n\t\t\t    " ++ limitClause

/-- Lines 146-154: the query text `GetAll` sends to the store. -/
def GetAll_query (filter : ItemFilter) : String :=
  GetAll_format (GetAll_where filter) (GetAll_sortCol filter)
    (GetAll_sortDir filter) (GetAll_limitClause filter)

/-! ## internal/repository/analytics_repo.go : `buildAnalyticsWhere` -/

/-- The function `buildAnalyticsWhere` (lines 27-37). -/
def buildAnalyticsWhere (from_ to_ : Time) (itemType : String) : String × List Arg :=
  let clauses : List String := ["date >= $1", "date <= $2"]
  let args : List Arg := [Arg.time from_, Arg.time to_]
  let r : List String × List Arg :=
    if itemType ≠ "" then
      (clauses ++ ["type = $" ++ toString (args.length + 1)], args ++ [Arg.str itemType])
    else (clauses, args)
  ("WHERE " ++ String.intercalate " AND " r.1, r.2)


/-! ## Reference definitions, written from the specification's wording -/

/-- The fields of a listing filter that are set, in the fixed order kind,
category, from, to: each with its predicate text and its value. -/
def ItemFilter.setFields (f : ItemFilter) : List (String × Arg) :=
  (if f.Type_ = "" then [] else [("type = ", Arg.str f.Type_)]) ++
  (if f.Category = "" then [] else [("category = ", Arg.str f.Category)]) ++
  (match f.From with
    | none => []
    | some t => [("date >= ", Arg.time t)]) ++
  (match f.To with
    | none => []
    | some t => [("date <= ", Arg.time t)])

/-- The i-th set field (counting from 0) rendered with placeholder number i+1. -/
def placeholderFragments (fs : List (String × Arg)) : List String :=
  fs.enum.map fun p => p.2.1 ++ "$" ++ toString (p.1 + 1)

/-- The WHERE clause the specification describes: absent when nothing is set,
otherwise the numbered fragments joined by AND. -/
def GetAll_where_reference (f : ItemFilter) : String :=
  if f.setFields.isEmpty then ""
  else "WHERE " ++ String.intercalate " AND " (placeholderFragments f.setFields)


/-- A representative filter for each of the sixteen combinations of set
fields; used to enumerate the WHERE clauses `GetAll` can produce. -/
def shapeFilter (b1 b2 b3 b4 : Bool) : ItemFilter :=
  { From := if b3 then some ⟨0, 0⟩ else none,
    To := if b4 then some ⟨0, 0⟩ else none,
    Category := if b2 then "c" else "",
    Type_ := if b1 then "t" else "",
    SortBy := "", Order := "", Limit := 0, Offset := 0, NoLimit := true }


/-- The four listing-filter rules in the order the specification lists them:
whether the rule fails, and the error it fails with. -/
def ItemFilter.rules (f : ItemFilter) : List (Bool × DomainError) :=
  [ (decide (f.Type_ ≠ "" ∧ f.Type_ ∉ ["income", "expense"]),
      DomainError.ErrInvalidType),
    (decide (f.SortBy ≠ "" ∧ f.SortBy ∉ ["date", "amount", "category", "type"]),
      DomainError.ErrInvalidSortBy),
    (decide (f.Order ≠ "" ∧ f.Order ∉ ["asc", "desc"]),
      DomainError.ErrInvalidOrder),
    (f.From.any fun a => f.To.any fun b =>
        decide (b.sec < a.sec ∨ (b.sec = a.sec ∧ b.nsec < a.nsec)),
      DomainError.ErrInvalidDateRange) ]

/-- The reference validator: the error of the first failing rule, nil when no
rule fails. -/
def ItemFilter.Validate_reference (f : ItemFilter) : Option DomainError :=
  (f.rules.find? fun r => r.1).map Prod.snd

/-- The reference validator of the analytics filter, clause by clause as the
specification words it. -/
def AnalyticsFilter.Validate_reference (f : AnalyticsFilter) : Option DomainError :=
  if f.From = ⟨0, 0⟩ ∨ f.To = ⟨0, 0⟩ then some DomainError.ErrInvalidDate
  else if f.To.sec < f.From.sec ∨ (f.To.sec = f.From.sec ∧ f.To.nsec < f.From.nsec) then
    some DomainError.ErrInvalidDateRange
  else if f.GroupBy ≠ "" ∧ f.GroupBy ∉ ["day", "week", "month", "category"] then
    some DomainError.ErrInvalidGroupBy
  else if f.Type_ ≠ "" ∧ f.Type_ ≠ "income" ∧ f.Type_ ≠ "expense" then
    some DomainError.ErrInvalidType
  else none


/-! ## Go error values and `errors.Is` -/

/-- An error value as this code base builds and inspects them: one of the
package-level sentinels of errors.go (compared by identity), an error that
wraps nothing (`errors.New` elsewhere, `fmt.Errorf` without the `%w` verb, an
error of the store driver), or `fmt.Errorf` with a single `%w`. The text is
kept symbolically as format and arguments. -/
inductive GoError where
  | sentinel (e : DomainError)
  | errorf (format : String) (args : List String)
  | wrapf (format : String) (inner : GoError)
deriving DecidableEq

/-- Go `errors.Is(err, target)` for a non-nil `err` and a sentinel target:
identity with the target somewhere along the unwrap chain. -/
def GoError.Is : GoError → DomainError → Bool
  | GoError.sentinel e, target => decide (e = target)
  | GoError.errorf _ _, _ => false
  | GoError.wrapf _ inner, target => inner.Is target

/-- Go `errors.Is(err, target)` where `err` may be nil. -/
def errorsIs (err : Option GoError) (target : DomainError) : Bool :=
  match err with
  | none => false
  | some e => e.Is target

/-- The slice `validationErrors` of errors.go. -/
def validationErrors : List DomainError :=
  [ DomainError.ErrValidation,
    DomainError.ErrInvalidType,
    DomainError.ErrInvalidAmount,
    DomainError.ErrEmptyCategory,
    DomainError.ErrInvalidDate,
    DomainError.ErrInvalidID,
    DomainError.ErrInvalidSortBy,
    DomainError.ErrInvalidOrder,
    DomainError.ErrInvalidGroupBy,
    DomainError.ErrInvalidDateRange ]

/-- The function `IsValidationError` of errors.go. -/
def IsValidationError (err : Option GoError) : Bool :=
  validationErrors.any fun ve => errorsIs err ve

/-- The result of a validator as a Go `error` value. -/
def validatorError (e : Option DomainError) : Option GoError :=
  e.map GoError.sentinel

/-! ## internal/domain/item.go : entities -/

/-- The type `decimal.Decimal`: the number `value * 10 ^ exp`. -/
structure Decimal where
  value : Int
  exp : Int
deriving DecidableEq

structure Item where
  ID : String
  Type_ : String
  Amount : Decimal
  Category : String
  Description : String
  Date : Time
  CreatedAt : Time
  UpdatedAt : Time
deriving DecidableEq

/-- The zero value `domain.Item{}`. -/
def Item.zero : Item :=
  { ID := "", Type_ := "", Amount := ⟨0, 0⟩, Category := "", Description := "",
    Date := ⟨0, 0⟩, CreatedAt := ⟨0, 0⟩, UpdatedAt := ⟨0, 0⟩ }

structure GroupedAnalytics where
  Key : String
  TotalSum : Decimal
  Avg : Decimal
  Count : Int
  Median : Decimal
  P90 : Decimal
deriving DecidableEq

/-- The struct `domain.AnalyticsResult`; a slice is `none` when nil. -/
structure AnalyticsResult where
  TotalSum : Decimal
  Avg : Decimal
  Count : Int
  Median : Decimal
  P90 : Decimal
  Groups : Option (List GroupedAnalytics)
deriving DecidableEq

/-- The zero value `domain.AnalyticsResult{}`. -/
def AnalyticsResult.zero : AnalyticsResult :=
  { TotalSum := ⟨0, 0⟩, Avg := ⟨0, 0⟩, Count := 0, Median := ⟨0, 0⟩, P90 := ⟨0, 0⟩,
    Groups := none }

/-! ## internal/repository/analytics_repo.go : `Aggregate`, `AggregateGrouped` -/

/-- A row cursor as the repository sees it: the outcome of `Scan` on each row
that `Next` yields, and the value of `rows.Err()` after the loop. -/
structure Cursor (α : Type) where
  scans : List (Except GoError α)
  err : Option GoError

/-- A query as handed to the store: text and positional parameters. -/
abbrev IssuedQuery := String × List Arg

/-- An entry of the map `allowedGroupBy`. -/
structure GroupByExpr where
  selectExpr : String
  groupExpr : String
  orderExpr : String
deriving DecidableEq

/-- The map `allowedGroupBy`. -/
def allowedGroupBy : List (String × GroupByExpr) :=
  [ ("day", ⟨"date::text", "date", "date"⟩),
    ("week", ⟨"DATE_TRUNC(\x27week\x27, date)::date::text",
      "DATE_TRUNC(\x27week\x27, date)", "DATE_TRUNC(\x27week\x27, date)"⟩),
    ("month", ⟨"DATE_TRUNC(\x27month\x27, date)::date::text",
      "DATE_TRUNC(\x27month\x27, date)", "DATE_TRUNC(\x27month\x27, date)"⟩),
    ("category", ⟨"category", "category", "category"⟩) ]

/-- The five columns `Aggregate` scans from its single row. -/
structure ScalarRow where
  Count : Int
  TotalSum : Decimal
  Avg : Decimal
  Median : Decimal
  P90 : Decimal
deriving DecidableEq

/-- The query text of `Aggregate` (lines 53-60). -/
def Aggregate_query (where_ : String) : String :=
  "\n\t\tSELECT\n\t\t\tCOUNT(*)                                                         AS count,\n\t\t\tCOALESCE(SUM(amount), 0)                                         AS total_sum,\n\t\t\tCOALESCE(AVG(amount), 0)                                         AS avg,\n\t\t\tCOALESCE(PERCENTILE_CONT(0.5) WITHIN GROUP (ORDER BY amount), 0) AS median,\n\t\t\tCOALESCE(PERCENTILE_CONT(0.9) WITHIN GROUP (ORDER BY amount), 0) AS p90\n\t\tFROM items "
    ++ where_

/-- The method `AnalyticsRepo.Aggregate`. The store is the function
`queryRow` (`QueryRowWithRetry`): it fails, or yields a row whose `Scan` fails
or fills the five columns. The last component lists the queries issued. -/
def AnalyticsRepo.Aggregate
    (queryRow : String → List Arg → Except GoError (Except GoError ScalarRow))
    (from_ to_ : Time) (itemType : String) :
    (AnalyticsResult × Option GoError) × List IssuedQuery :=
  let (where_, args) := buildAnalyticsWhere from_ to_ itemType
  let query := Aggregate_query where_
  match queryRow query args with
  | Except.error err =>
    ((AnalyticsResult.zero, some (GoError.wrapf "aggregate analytics: %w" err)),
      [(query, args)])
  | Except.ok row =>
    match row with
    | Except.error err =>
      ((AnalyticsResult.zero, some (GoError.wrapf "scan analytics: %w" err)),
        [(query, args)])
    | Except.ok r =>
      (({ AnalyticsResult.zero with
            Count := r.Count, TotalSum := r.TotalSum, Avg := r.Avg,
            Median := r.Median, P90 := r.P90 }, none),
        [(query, args)])

/-- The query text of `AggregateGrouped` (lines 83-94). -/
def AggregateGrouped_query (gb : GroupByExpr) (where_ : String) : String :=
  "\n\t\tSELECT\n\t\t\t" ++ gb.selectExpr
    ++ "                                                               AS key,\n\t\t\tCOUNT(*)                                                         AS count,\n\t\t\tCOALESCE(SUM(amount), 0)                                         AS total_sum,\n\t\t\tCOALESCE(AVG(amount), 0)                                         AS avg,\n\t\t\tCOALESCE(PERCENTILE_CONT(0.5) WITHIN GROUP (ORDER BY amount), 0) AS median,\n\t\t\tCOALESCE(PERCENTILE_CONT(0.9) WITHIN GROUP (ORDER BY amount), 0) AS p90\n\t\tFROM items "
    ++ where_ ++ "\n\t\tGROUP BY " ++ gb.groupExpr ++ "\n\t\tORDER BY " ++ gb.orderExpr

/-- The scan loop of `AggregateGrouped` (lines 102-109): `res` is the slice
built so far, nil at the start. -/
def AggregateGrouped_scan :
    List (Except GoError GroupedAnalytics) → Option (List GroupedAnalytics) →
      Except GoError (Option (List GroupedAnalytics))
  | [], res => Except.ok res
  | Except.error err :: _, _ =>
    Except.error (GoError.wrapf "scan grouped analytics: %w" err)
  | Except.ok g :: rest, res =>
    AggregateGrouped_scan rest (some (res.getD [] ++ [g]))

/-- The method `AnalyticsRepo.AggregateGrouped`. The store is the function
`query` (`QueryWithRetry`); the last component lists the queries issued. -/
def AnalyticsRepo.AggregateGrouped
    (query : String → List Arg → Except GoError (Cursor GroupedAnalytics))
    (from_ to_ : Time) (groupBy itemType : String) :
    (Option (List GroupedAnalytics) × Option GoError) × List IssuedQuery :=
  match allowedGroupBy.lookup groupBy with
  | none =>
    ((none, some (GoError.errorf "unsupported group_by value: %q" [groupBy])), [])
  | some gb =>
    let (where_, args) := buildAnalyticsWhere from_ to_ itemType
    let text := AggregateGrouped_query gb where_
    match query text args with
    | Except.error err =>
      ((none, some (GoError.wrapf "aggregate grouped analytics: %w" err)), [(text, args)])
    | Except.ok rows =>
      match AggregateGrouped_scan rows.scans none with
      | Except.error err => ((none, some err), [(text, args)])
      | Except.ok res =>
        match rows.err with
        | some err => ((none, some (GoError.wrapf "rows iteration: %w" err)), [(text, args)])
        | none => ((res, none), [(text, args)])

/-! ## internal/service/analytics.go -/

/-- The interface `analyticsRepository`. An implementation may keep state of
type `σ`; each method returns its Go results and the state after the call. -/
structure analyticsRepository (σ : Type) where
  Aggregate : σ → Time → Time → String → (AnalyticsResult × Option GoError) × σ
  AggregateGrouped :
    σ → Time → Time → String → String → (Option (List GroupedAnalytics) × Option GoError) × σ

/-- A call made on an `analyticsRepository`, with its arguments. -/
inductive AnalyticsRepoCall where
  | Aggregate (from_ to_ : Time) (itemType : String)
  | AggregateGrouped (from_ to_ : Time) (groupBy itemType : String)
deriving DecidableEq

/-- What a service call leaves behind: the Go results, the repository state
afterwards, and the repository calls made, in order. -/
structure Outcome (α σ κ : Type) where
  result : α
  state : σ
  calls : List κ

/-- The method `AnalyticsService.GetAnalytics`. -/
def AnalyticsService.GetAnalytics {σ : Type} (repo : analyticsRepository σ) (s : σ)
    (filter : AnalyticsFilter) :
    Outcome (AnalyticsResult × Option GoError) σ AnalyticsRepoCall :=
  match filter.Validate with
  | some err =>
    { result := (AnalyticsResult.zero,
        some (GoError.wrapf "validate analytics filter: %w" (GoError.sentinel err))),
      state := s, calls := [] }
  | none =>
    let r1 := repo.Aggregate s filter.From filter.To filter.Type_
    let call1 := AnalyticsRepoCall.Aggregate filter.From filter.To filter.Type_
    match r1.1.2 with
    | some err => { result := (AnalyticsResult.zero, some err), state := r1.2, calls := [call1] }
    | none =>
      if filter.GroupBy ≠ "" then
        let r2 := repo.AggregateGrouped r1.2 filter.From filter.To filter.GroupBy filter.Type_
        let call2 :=
          AnalyticsRepoCall.AggregateGrouped filter.From filter.To filter.GroupBy filter.Type_
        match r2.1.2 with
        | some err =>
          { result := (AnalyticsResult.zero, some err), state := r2.2, calls := [call1, call2] }
        | none =>
          { result := ({ r1.1.1 with Groups := r2.1.1 }, none), state := r2.2,
            calls := [call1, call2] }
      else
        { result := (r1.1.1, none), state := r1.2, calls := [call1] }

/-! ## internal/service/item.go -/

/-- The interface `itemRepository`, with state as for `analyticsRepository`. -/
structure itemRepository (σ : Type) where
  Create : σ → Item → (Item × Option GoError) × σ
  GetAll : σ → ItemFilter → (Option (List Item) × Int × Option GoError) × σ
  GetByID : σ → String → (Item × Option GoError) × σ
  Update : σ → Item → (Item × Option GoError) × σ
  Delete : σ → String → Option GoError × σ

/-- A call made on an `itemRepository`, with its argument. -/
inductive ItemRepoCall where
  | Create (item : Item)
  | GetAll (filter : ItemFilter)
  | GetByID (id : String)
  | Update (item : Item)
  | Delete (id : String)
deriving DecidableEq

/-- The method `ItemService.List`. -/
def ItemService.List {σ : Type} (repo : itemRepository σ) (s : σ) (filter : ItemFilter) :
    Outcome (Option (List Item) × Int × Option GoError) σ ItemRepoCall :=
  match filter.Validate with
  | some err =>
    { result := (none, 0, some (GoError.wrapf "validate filter: %w" (GoError.sentinel err))),
      state := s, calls := [] }
  | none =>
    let r := repo.GetAll s filter
    match r.1.2.2 with
    | some err => { result := (none, 0, some err), state := r.2, calls := [ItemRepoCall.GetAll filter] }
    | none =>
      { result := (r.1.1, r.1.2.1, none), state := r.2, calls := [ItemRepoCall.GetAll filter] }

/-- The method `ItemService.GetByID`. The library function `helpers.ParseUUID`
is the parameter `ParseUUID`. -/
def ItemService.GetByID {σ : Type} (ParseUUID : String → Option GoError)
    (repo : itemRepository σ) (s : σ) (id : String) :
    Outcome (Item × Option GoError) σ ItemRepoCall :=
  match ParseUUID id with
  | some _ =>
    { result := (Item.zero, some (GoError.sentinel DomainError.ErrInvalidID)),
      state := s, calls := [] }
  | none =>
    let r := repo.GetByID s id
    match r.1.2 with
    | some err => { result := (Item.zero, some err), state := r.2, calls := [ItemRepoCall.GetByID id] }
    | none => { result := (r.1.1, none), state := r.2, calls := [ItemRepoCall.GetByID id] }

/-- The method `ItemService.Update`. -/
def ItemService.Update {σ : Type} (ParseUUID : String → Option GoError)
    (repo : itemRepository σ) (s : σ) (item : Item) :
    Outcome (Item × Option GoError) σ ItemRepoCall :=
  match ParseUUID item.ID with
  | some _ =>
    { result := (Item.zero, some (GoError.sentinel DomainError.ErrInvalidID)),
      state := s, calls := [] }
  | none =>
    let r := repo.Update s item
    match r.1.2 with
    | some err => { result := (Item.zero, some err), state := r.2, calls := [ItemRepoCall.Update item] }
    | none => { result := (r.1.1, none), state := r.2, calls := [ItemRepoCall.Update item] }

/-- The method `ItemService.Delete`. -/
def ItemService.Delete {σ : Type} (ParseUUID : String → Option GoError)
    (repo : itemRepository σ) (s : σ) (id : String) :
    Outcome (Option GoError) σ ItemRepoCall :=
  match ParseUUID id with
  | some _ =>
    { result := some (GoError.sentinel DomainError.ErrInvalidID), state := s, calls := [] }
  | none =>
    let r := repo.Delete s id
    match r.1 with
    | some err => { result := some err, state := r.2, calls := [ItemRepoCall.Delete id] }
    | none => { result := none, state := r.2, calls := [ItemRepoCall.Delete id] }

/-! ## internal/handler/response.go, internal/handler/item.go -/

def StatusOK : Nat := 200
def StatusNoContent : Nat := 204
def StatusBadRequest : Nat := 400
def StatusNotFound : Nat := 404
def StatusInternalServerError : Nat := 500

/-- The text put in an error response: a literal, or `err.Error()` of an
error value (kept symbolic). -/
inductive Message where
  | text (s : String)
  | errorText (e : GoError)
  | prefixed (p : String) (e : GoError)
deriving DecidableEq

/-- The body written by `respondError`, `respondJSON` and `respondNoContent`. -/
inductive ResponseBody where
  | error (msg : Message)
  | item (i : Item)
  | empty
  | itemList (items : List Item) (totalCount : Int)
  | analytics (r : AnalyticsResult)
  | csv (records : List (List String))
deriving DecidableEq

structure Response where
  code : Nat
  body : ResponseBody
deriving DecidableEq

/-- The function `respondError`. -/
def respondError (code : Nat) (msg : Message) : Response :=
  { code := code, body := ResponseBody.error msg }

/-- The interface `itemService` of the handler package, with state as for the
repository interfaces. -/
structure itemService (σ : Type) where
  Create : σ → Item → (Item × Option GoError) × σ
  GetByID : σ → String → (Item × Option GoError) × σ
  List : σ → ItemFilter → (Option (List Item) × Int × Option GoError) × σ
  Update : σ → Item → (Item × Option GoError) × σ
  Delete : σ → String → Option GoError × σ

/-- The method `ItemHandler.GetByID`; `id` is the path parameter. Logging is
not modelled. -/
def ItemHandler.GetByID {σ : Type} (svc : itemService σ) (s : σ) (id : String) :
    Response × σ :=
  let r := svc.GetByID s id
  match r.1.2 with
  | some err =>
    if errorsIs (some err) DomainError.ErrItemNotFound then
      (respondError StatusNotFound (Message.text "item not found"), r.2)
    else if errorsIs (some err) DomainError.ErrInvalidID then
      (respondError StatusBadRequest (Message.text "invalid item id"), r.2)
    else
      (respondError StatusInternalServerError (Message.text "internal server error"), r.2)
  | none => ({ code := StatusOK, body := ResponseBody.item r.1.1 }, r.2)

/-- The method `ItemHandler.Update`. The request decoding of lines 120-137
(JSON binding, `req.Validate`, `req.ToItem(id)`) is the input `decoded`: the
message of the 400 response it ends with, or the item handed to the service.
Logging is not modelled. -/
def ItemHandler.Update {σ : Type} (svc : itemService σ) (s : σ)
    (decoded : Except Message Item) : Response × σ :=
  match decoded with
  | Except.error msg => (respondError StatusBadRequest msg, s)
  | Except.ok item =>
    let r := svc.Update s item
    match r.1.2 with
    | some err =>
      if errorsIs (some err) DomainError.ErrItemNotFound then
        (respondError StatusNotFound (Message.text "item not found"), r.2)
      else if IsValidationError (some err) then
        (respondError StatusBadRequest (Message.errorText err), r.2)
      else
        (respondError StatusInternalServerError (Message.text "internal server error"), r.2)
    | none => ({ code := StatusOK, body := ResponseBody.item r.1.1 }, r.2)

/-- The method `ItemHandler.Delete`; `id` is the path parameter. Logging is
not modelled. -/
def ItemHandler.Delete {σ : Type} (svc : itemService σ) (s : σ) (id : String) :
    Response × σ :=
  let r := svc.Delete s id
  match r.1 with
  | some err =>
    if errorsIs (some err) DomainError.ErrItemNotFound then
      (respondError StatusNotFound (Message.text "item not found"), r.2)
    else if errorsIs (some err) DomainError.ErrInvalidID then
      (respondError StatusBadRequest (Message.text "invalid item id"), r.2)
    else
      (respondError StatusInternalServerError (Message.text "internal server error"), r.2)
  | none => ({ code := StatusNoContent, body := ResponseBody.empty }, r.2)

/-! ## Reference definitions for the error classification -/

/-- The sentinel at the bottom of the unwrap chain of an error, if there is
one: the error is, or wraps, that sentinel. -/
def GoError.root : GoError → Option DomainError
  | GoError.sentinel e => some e
  | GoError.errorf _ _ => none
  | GoError.wrapf _ inner => inner.root

/-! ## Sample instances used in the examples -/

/-- A sample instance of the identifier parser: it accepts the canonical
textual form, 36 characters with hyphens at positions 8, 13, 18, 23 and
hexadecimal digits elsewhere. -/
def canonicalUUID (id : String) : Option GoError :=
  let cs := id.data
  if cs.length = 36 ∧
      (cs.enum.all fun p =>
        if p.1 = 8 ∨ p.1 = 13 ∨ p.1 = 18 ∨ p.1 = 23 then p.2 = '-'
        else p.2.isDigit || ('a' ≤ p.2 ∧ p.2 ≤ 'f') || ('A' ≤ p.2 ∧ p.2 ≤ 'F')) then
    none
  else some (GoError.errorf "invalid UUID" [id])

/-- A repository stub without state: every call succeeds with fixed values. -/
def stubItemRepository (item : Item) : itemRepository Unit :=
  { Create := fun _ _ => ((item, none), ()),
    GetAll := fun _ _ => ((some [item], 1, none), ()),
    GetByID := fun _ _ => ((item, none), ()),
    Update := fun _ _ => ((item, none), ()),
    Delete := fun _ _ => (none, ()) }

/-- A repository stub whose every call fails with the given error, while
still handing back non-zero values next to it. -/
def failingItemRepository (item : Item) (err : GoError) : itemRepository Unit :=
  { Create := fun _ _ => ((item, some err), ()),
    GetAll := fun _ _ => ((some [item], 1, some err), ()),
    GetByID := fun _ _ => ((item, some err), ()),
    Update := fun _ _ => ((item, some err), ()),
    Delete := fun _ _ => (some err, ()) }

/-- An analytics repository stub without state, returning fixed results. -/
def stubAnalyticsRepository (r : AnalyticsResult × Option GoError)
    (g : Option (List GroupedAnalytics) × Option GoError) : analyticsRepository Unit :=
  { Aggregate := fun _ _ _ _ => (r, ()),
    AggregateGrouped := fun _ _ _ _ _ => (g, ()) }

/-- A service stub for the handlers: every call ends with the given error. -/
def failingItemService (err : GoError) : itemService Unit :=
  { Create := fun _ _ => ((Item.zero, some err), ()),
    GetByID := fun _ _ => ((Item.zero, some err), ()),
    List := fun _ _ => ((none, 0, some err), ()),
    Update := fun _ _ => ((Item.zero, some err), ()),
    Delete := fun _ _ => (some err, ()) }

/-! ## Library functions the handlers and the exporter call

These are not under `src/`: the standard library (`time`, `encoding/csv`,
`unicode`), `shopspring/decimal` and `go-playground/validator`. `time.Parse`
with the layout `2006-01-02`, `Time.Format`, `strconv.Atoi` and
`time.Now().UTC()` are parameters (`parseDate`, `Format`, `atoi`, `now`) of the
functions that call them; the others are written out below. -/

/-- The method `Decimal.IsPositive` of shopspring/decimal: `d.Sign() == 1`. -/
def Decimal.IsPositive (d : Decimal) : Bool :=
  decide (0 < d.value)

/-- The method `Decimal.rescale` of shopspring/decimal: the same number at
another exponent, truncated toward zero when digits are dropped (`big.Int.Quo`). -/
def Decimal.rescale (d : Decimal) (exp : Int) : Decimal :=
  if d.exp = exp then d
  else if exp > d.exp then
    { value := Int.tdiv d.value (10 ^ (exp - d.exp).toNat), exp := exp }
  else
    { value := d.value * 10 ^ (d.exp - exp).toNat, exp := exp }

/-- The method `Decimal.Round` of shopspring/decimal: truncate to one more
place, add five with the sign of the value, divide by ten with `big.Int.DivMod`
(Euclidean) and step a negative quotient with a remainder up by one. -/
def Decimal.Round (d : Decimal) (places : Int) : Decimal :=
  if d.exp = -places then d
  else
    let ret := d.rescale (-places - 1)
    let v : Int := if ret.value < 0 then ret.value - 5 else ret.value + 5
    let q : Int := Int.ediv v 10
    let m : Int := Int.emod v 10
    { value := if q < 0 ∧ m ≠ 0 then q + 1 else q, exp := ret.exp + 1 }

/-- The method `Decimal.string(false)` of shopspring/decimal: the digits of the
absolute value, split `-exp` places from the right, padded with zeros on the
left when there are too few, with a minus sign for a negative value. -/
def Decimal.string (d : Decimal) : String :=
  if d.exp ≥ 0 then toString (d.rescale 0).value
  else
    let str : List Char := (toString d.value.natAbs).data
    let places : Nat := (-d.exp).toNat
    let intPart : List Char :=
      if str.length > places then str.take (str.length - places) else ['0']
    let fractionalPart : List Char :=
      if str.length > places then str.drop (str.length - places)
      else List.replicate (places - str.length) '0' ++ str
    let number : List Char :=
      if fractionalPart.length > 0 then intPart ++ ['.'] ++ fractionalPart else intPart
    if d.value < 0 then String.mk ('-' :: number) else String.mk number

/-- The method `Decimal.StringFixed` of shopspring/decimal. -/
def Decimal.StringFixed (d : Decimal) (places : Int) : String :=
  (d.Round places).string

/-- The function `unicode.IsSpace`: the White_Space property. -/
def unicodeIsSpace (c : Char) : Bool :=
  let n := c.toNat
  decide ((9 ≤ n ∧ n ≤ 13) ∨ n = 0x20 ∨ n = 0x85 ∨ n = 0xA0 ∨ n = 0x1680 ∨
    (0x2000 ≤ n ∧ n ≤ 0x200A) ∨ n = 0x2028 ∨ n = 0x2029 ∨ n = 0x202F ∨ n = 0x205F ∨
    n = 0x3000)

/-- The method `fieldNeedsQuotes` of `csv.Writer` with the comma as delimiter:
not for the empty field; for the field `\.`; for a field holding a line feed,
a carriage return, a double quote or a comma; else when the first character is
white space. -/
def csvFieldNeedsQuotes (field : List Char) : Bool :=
  if field = [] then false
  else if field = ['\\', '.'] then true
  else if field.any (fun c => c = '\n' || c = '\r' || c = '"' || c = ',') then true
  else
    match field with
    | [] => false
    | c :: _ => unicodeIsSpace c

/-- The body of a quoted field as `csv.Writer.Write` emits it with `UseCRLF`
false: every double quote is written twice, every other character (carriage
return and line feed among them) is copied. -/
def csvDoubleQuotes : List Char → List Char
  | [] => []
  | c :: rest =>
    if c = '"' then '"' :: '"' :: csvDoubleQuotes rest else c :: csvDoubleQuotes rest

/-- The quoted form `csv.Writer.Write` gives a field: the body between two
double quotes. -/
def csvQuote (field : List Char) : List Char :=
  '"' :: csvDoubleQuotes field ++ ['"']

/-- One field as `csv.Writer.Write` emits it. -/
def csvEncodeField (field : List Char) : List Char :=
  if csvFieldNeedsQuotes field then csvQuote field else field

/-- One record as `csv.Writer.Write` emits it, without the line terminator:
the fields separated by commas. -/
def csvEncodeRecord (record : List String) : List Char :=
  List.intercalate [','] (record.map fun f => csvEncodeField f.data)

/-- The `*csv.Writer` that `csv.NewWriter(w)` builds: `Write` hands over one
record and may report the error of the underlying writer, `Flush` empties the
buffer, `Error` reports an error met so far. -/
structure csvWriter (τ : Type) where
  Write : τ → List String → Option GoError × τ
  Flush : τ → τ
  Error : τ → Option GoError

/-- The `csv.Writer` over a writer that does not fail (a `bytes.Buffer`): the
state is the text written so far. -/
def csvBuffer : csvWriter String :=
  { Write := fun out record => (none, out ++ String.mk (csvEncodeRecord record) ++ "\n"),
    Flush := fun out => out,
    Error := fun _ => none }

/-- The type `validator.FieldError` of go-playground/validator, as far as
`formatValidationErrors` reads it: the field name, the tag that failed and the
parameter of that tag. -/
structure FieldError where
  Field : String
  Tag : String
  Param : String
deriving DecidableEq

/-- The error go-playground/validator records for one field: the tags of the
field are tried in order and the first that fails is reported, none when all
pass. A tag is given as its name, its parameter and whether the value passes. -/
def firstFailingTag (field : String) (tags : List (String × String × Bool)) :
    List FieldError :=
  match tags.find? fun t => !t.2.2 with
  | some t => [{ Field := field, Tag := t.1, Param := t.2.1 }]
  | none => []

/-- What `validate.Struct` returns when it does not return nil. -/
inductive ValidatorError where
  | invalid (text : String)
  | fields (errs : List FieldError)
deriving DecidableEq

/-! ## internal/export/csv.go -/

def RFC3339 : String := "2006-01-02T15:04:05Z07:00"

/-- The record `WriteCSV` writes for one item (lines 22-31). -/
def WriteCSV_record (Format : String → Time → String) (item : Item) : List String :=
  [ item.ID,
    item.Type_,
    item.Amount.StringFixed 2,
    item.Category,
    item.Description,
    Format "2006-01-02" item.Date,
    Format RFC3339 item.CreatedAt,
    Format RFC3339 item.UpdatedAt ]

/-- The header record of `WriteCSV` (lines 14-17). -/
def WriteCSV_header : List String :=
  ["id", "type", "amount", "category", "description", "date", "created_at", "updated_at"]

/-- The loop of `WriteCSV` (lines 21-34): `written` lists the records handed
to the csv writer so far. -/
def WriteCSV_loop {τ : Type} (Format : String → Time → String) (cw : csvWriter τ) :
    List Item → τ → List (List String) → Outcome (Option GoError) τ (List String)
  | [], w, written =>
    { result := cw.Error (cw.Flush w), state := cw.Flush w, calls := written }
  | item :: rest, w, written =>
    let r := cw.Write w (WriteCSV_record Format item)
    match r.1 with
    | some err =>
      { result := some err, state := r.2,
        calls := written ++ [WriteCSV_record Format item] }
    | none => WriteCSV_loop Format cw rest r.2 (written ++ [WriteCSV_record Format item])

/-- The function `WriteCSV`; `cw` is `csv.NewWriter(w)` and `w` its state at
the start. The calls of the outcome are the records handed to `cw.Write`. -/
def WriteCSV {τ : Type} (Format : String → Time → String) (cw : csvWriter τ) (w : τ)
    (items : Option (List Item)) : Outcome (Option GoError) τ (List String) :=
  let r := cw.Write w WriteCSV_header
  match r.1 with
  | some err => { result := some err, state := r.2, calls := [WriteCSV_header] }
  | none => WriteCSV_loop Format cw (items.getD []) r.2 [WriteCSV_header]

/-! ## internal/handler/dto.go -/

/-- The function `formatValidationErrors`. The `%s` arguments are written into
the format text; the wrapped error is `domain.ErrValidation` in every branch. -/
def formatValidationErrors (err : ValidatorError) : GoError :=
  match err with
  | ValidatorError.invalid text =>
    GoError.wrapf ("%w: " ++ text) (GoError.sentinel DomainError.ErrValidation)
  | ValidatorError.fields [] =>
    GoError.wrapf "%w: unknown validation error" (GoError.sentinel DomainError.ErrValidation)
  | ValidatorError.fields (fe :: _) =>
    if fe.Tag = "required" then
      GoError.wrapf ("%w: " ++ fe.Field ++ " is required")
        (GoError.sentinel DomainError.ErrValidation)
    else if fe.Tag = "oneof" then
      GoError.wrapf ("%w: " ++ fe.Field ++ " must be one of [" ++ fe.Param ++ "]")
        (GoError.sentinel DomainError.ErrValidation)
    else if fe.Tag = "gt" then
      GoError.wrapf ("%w: " ++ fe.Field ++ " must be greater than " ++ fe.Param)
        (GoError.sentinel DomainError.ErrValidation)
    else if fe.Tag = "datetime" then
      GoError.wrapf ("%w: " ++ fe.Field ++ " must be a valid date in format " ++ fe.Param)
        (GoError.sentinel DomainError.ErrValidation)
    else if fe.Tag = "max" then
      GoError.wrapf ("%w: " ++ fe.Field ++ " must be at most " ++ fe.Param ++ " characters")
        (GoError.sentinel DomainError.ErrValidation)
    else
      GoError.wrapf ("%w: " ++ fe.Field ++ " failed on \x27" ++ fe.Tag ++ "\x27 check")
        (GoError.sentinel DomainError.ErrValidation)

/-- The call `validate.Struct(r)` on the struct tags that `CreateItemRequest`
and `UpdateItemRequest` share (lines 41-45, 77-81), fields in declaration order:
`required` fails on the empty string, `oneof` on a value outside the list,
`max` on more characters than the bound, `datetime` when `time.Parse` with the
layout rejects the value. `Amount` carries no tag. -/
def validateStruct (parseDate : String → Option Time)
    (type_ category description date : String) : Option ValidatorError :=
  let errs :=
    firstFailingTag "Type"
        [ ("required", "", decide (type_ ≠ "")),
          ("oneof", "income expense", decide (type_ = "income" ∨ type_ = "expense")) ]
      ++ firstFailingTag "Category"
        [ ("required", "", decide (category ≠ "")),
          ("max", "100", decide (category.length ≤ 100)) ]
      ++ firstFailingTag "Description"
        [ ("max", "1000", decide (description.length ≤ 1000)) ]
      ++ firstFailingTag "Date"
        [ ("required", "", decide (date ≠ "")),
          ("datetime", "2006-01-02", (parseDate date).isSome) ]
  match errs with
  | [] => none
  | fe :: rest => some (ValidatorError.fields (fe :: rest))

structure CreateItemRequest where
  Type_ : String
  Amount : Decimal
  Category : String
  Description : String
  Date : String
deriving DecidableEq

/-- The method `CreateItemRequest.Validate`. -/
def CreateItemRequest.Validate (parseDate : String → Option Time) (r : CreateItemRequest) :
    Option GoError :=
  match validateStruct parseDate r.Type_ r.Category r.Description r.Date with
  | some err => some (formatValidationErrors err)
  | none =>
    if !r.Amount.IsPositive then
      some (GoError.wrapf "%w: Amount must be greater than 0"
        (GoError.sentinel DomainError.ErrValidation))
    else none

/-- The method `CreateItemRequest.ToItem`; `now` is `time.Now().UTC()`. -/
def CreateItemRequest.ToItem (parseDate : String → Option Time) (now : Time)
    (r : CreateItemRequest) : Item × Option GoError :=
  match parseDate r.Date with
  | none =>
    (Item.zero,
      some (GoError.wrapf "%w: invalid date format" (GoError.sentinel DomainError.ErrValidation)))
  | some date =>
    ({ Item.zero with
        Type_ := r.Type_, Amount := r.Amount, Category := r.Category,
        Description := r.Description, Date := date, CreatedAt := now, UpdatedAt := now },
      none)

structure UpdateItemRequest where
  Type_ : String
  Amount : Decimal
  Category : String
  Description : String
  Date : String
deriving DecidableEq

/-- The method `UpdateItemRequest.Validate`. -/
def UpdateItemRequest.Validate (parseDate : String → Option Time) (r : UpdateItemRequest) :
    Option GoError :=
  match validateStruct parseDate r.Type_ r.Category r.Description r.Date with
  | some err => some (formatValidationErrors err)
  | none =>
    if !r.Amount.IsPositive then
      some (GoError.wrapf "%w: Amount must be greater than 0"
        (GoError.sentinel DomainError.ErrValidation))
    else none

/-- The method `UpdateItemRequest.ToItem`; `now` is `time.Now().UTC()`. -/
def UpdateItemRequest.ToItem (parseDate : String → Option Time) (now : Time)
    (r : UpdateItemRequest) (id : String) : Item × Option GoError :=
  match parseDate r.Date with
  | none =>
    (Item.zero,
      some (GoError.wrapf "%w: invalid date format" (GoError.sentinel DomainError.ErrValidation)))
  | some date =>
    ({ Item.zero with
        ID := id, Type_ := r.Type_, Amount := r.Amount, Category := r.Category,
        Description := r.Description, Date := date, UpdatedAt := now },
      none)

/-! ## internal/handler/item.go : `Create`, `List`, request decoding of `Update` -/

def StatusCreated : Nat := 201

/-- The zero value `domain.ItemFilter{}`. -/
def ItemFilter.zero : ItemFilter :=
  { From := none, To := none, Category := "", Type_ := "", SortBy := "", Order := "",
    Limit := 0, Offset := 0, NoLimit := false }

/-- The zero value `domain.AnalyticsFilter{}`. -/
def AnalyticsFilter.zero : AnalyticsFilter :=
  { From := ⟨0, 0⟩, To := ⟨0, 0⟩, GroupBy := "", Type_ := "" }

/-- The method `ItemHandler.Create`. `bound` is the outcome of
`c.ShouldBindJSON(&req)`: its error or the request it filled. Logging is not
modelled. -/
def ItemHandler.Create {σ : Type} (parseDate : String → Option Time) (now : Time)
    (svc : itemService σ) (s : σ) (bound : Except GoError CreateItemRequest) : Response × σ :=
  match bound with
  | Except.error err =>
    (respondError StatusBadRequest (Message.prefixed "invalid JSON body: " err), s)
  | Except.ok req =>
    match req.Validate parseDate with
    | some err => (respondError StatusBadRequest (Message.errorText err), s)
    | none =>
      match (req.ToItem parseDate now).2 with
      | some err => (respondError StatusBadRequest (Message.errorText err), s)
      | none =>
        let r := svc.Create s (req.ToItem parseDate now).1
        match r.1.2 with
        | some _ =>
          (respondError StatusInternalServerError (Message.text "internal server error"), r.2)
        | none => ({ code := StatusCreated, body := ResponseBody.item r.1.1 }, r.2)

/-- Lines 120-137 of `ItemHandler.Update`: JSON binding, `req.Validate`,
`req.ToItem(id)`. The result is the `decoded` input of `ItemHandler.Update`. -/
def ItemHandler.Update_decode (parseDate : String → Option Time) (now : Time) (id : String)
    (bound : Except GoError UpdateItemRequest) : Except Message Item :=
  match bound with
  | Except.error err => Except.error (Message.prefixed "invalid JSON body: " err)
  | Except.ok req =>
    match req.Validate parseDate with
    | some err => Except.error (Message.errorText err)
    | none =>
      match (req.ToItem parseDate now id).2 with
      | some err => Except.error (Message.errorText err)
      | none => Except.ok (req.ToItem parseDate now id).1

/-- The function `parseItemFilter`. `q` is `c.Query` (the empty string for an
absent parameter), `atoi` is `strconv.Atoi` (`none` for an error). On an error
the filter filled so far is returned next to it, as in the source. -/
def parseItemFilter (parseDate : String → Option Time) (atoi : String → Option Int)
    (q : String → String) : ItemFilter × Option GoError :=
  let f0 := ItemFilter.zero
  match (if q "from" ≠ "" then
      match parseDate (q "from") with
      | none => Except.error (GoError.errorf "invalid \x27from\x27 date format, expected YYYY-MM-DD" [])
      | some t => Except.ok { f0 with From := some t }
    else Except.ok f0) with
  | Except.error err => (f0, some err)
  | Except.ok f1 =>
    match (if q "to" ≠ "" then
        match parseDate (q "to") with
        | none => Except.error (GoError.errorf "invalid \x27to\x27 date format, expected YYYY-MM-DD" [])
        | some t => Except.ok { f1 with To := some t }
      else Except.ok f1) with
    | Except.error err => (f1, some err)
    | Except.ok f2 =>
      let f3 := { f2 with
        Category := q "category", Type_ := q "type", SortBy := q "sort_by", Order := q "order" }
      match (if q "limit" ≠ "" then
          match atoi (q "limit") with
          | none => Except.error (GoError.errorf "invalid \x27limit\x27 parameter" [])
          | some n =>
            if n < 0 then Except.error (GoError.errorf "invalid \x27limit\x27 parameter" [])
            else Except.ok { f3 with Limit := n }
        else Except.ok f3) with
      | Except.error err => (f3, some err)
      | Except.ok f4 =>
        match (if q "offset" ≠ "" then
            match atoi (q "offset") with
            | none => Except.error (GoError.errorf "invalid \x27offset\x27 parameter" [])
            | some n =>
              if n < 0 then Except.error (GoError.errorf "invalid \x27offset\x27 parameter" [])
              else Except.ok { f4 with Offset := n }
          else Except.ok f4) with
        | Except.error err => (f4, some err)
        | Except.ok f5 => (f5, none)

/-- The method `ItemHandler.List`. Logging is not modelled. -/
def ItemHandler.List {σ : Type} (parseDate : String → Option Time)
    (atoi : String → Option Int) (svc : itemService σ) (s : σ) (q : String → String) :
    Response × σ :=
  match (parseItemFilter parseDate atoi q).2 with
  | some err => (respondError StatusBadRequest (Message.errorText err), s)
  | none =>
    let r := svc.List s (parseItemFilter parseDate atoi q).1
    match r.1.2.2 with
    | some err =>
      if IsValidationError (some err) then
        (respondError StatusBadRequest (Message.errorText err), r.2)
      else
        (respondError StatusInternalServerError (Message.text "internal server error"), r.2)
    | none =>
      ({ code := StatusOK, body := ResponseBody.itemList (r.1.1.getD []) r.1.2.1 }, r.2)

/-! ## internal/handler/analytics.go -/

/-- The interface `analyticsService` of the handler package. -/
structure analyticsService (σ : Type) where
  GetAnalytics : σ → AnalyticsFilter → (AnalyticsResult × Option GoError) × σ

/-- The function `parseAnalyticsFilter`. -/
def parseAnalyticsFilter (parseDate : String → Option Time) (q : String → String) :
    AnalyticsFilter × Option GoError :=
  let f0 := AnalyticsFilter.zero
  if q "from" = "" then (f0, some (GoError.errorf "\x27from\x27 parameter is required" []))
  else
    match parseDate (q "from") with
    | none => (f0, some (GoError.errorf "invalid \x27from\x27 date format, expected YYYY-MM-DD" []))
    | some from_ =>
      let f1 := { f0 with From := from_ }
      if q "to" = "" then (f1, some (GoError.errorf "\x27to\x27 parameter is required" []))
      else
        match parseDate (q "to") with
        | none =>
          (f1, some (GoError.errorf "invalid \x27to\x27 date format, expected YYYY-MM-DD" []))
        | some to_ =>
          ({ f1 with To := to_, GroupBy := q "group_by", Type_ := q "type" }, none)

/-- The method `AnalyticsHandler.Get`. Logging is not modelled. -/
def AnalyticsHandler.Get {σ : Type} (parseDate : String → Option Time)
    (svc : analyticsService σ) (s : σ) (q : String → String) : Response × σ :=
  match (parseAnalyticsFilter parseDate q).2 with
  | some err => (respondError StatusBadRequest (Message.errorText err), s)
  | none =>
    let r := svc.GetAnalytics s (parseAnalyticsFilter parseDate q).1
    match r.1.2 with
    | some err =>
      if IsValidationError (some err) then
        (respondError StatusBadRequest (Message.errorText err), r.2)
      else
        (respondError StatusInternalServerError (Message.text "internal server error"), r.2)
    | none => ({ code := StatusOK, body := ResponseBody.analytics r.1.1 }, r.2)

/-! ## internal/handler/export.go -/

/-- The interface `exportItemService`. -/
structure exportItemService (σ : Type) where
  List : σ → ItemFilter → (Option (List Item) × Int × Option GoError) × σ

/-- The function `parseExportFilter`. -/
def parseExportFilter (parseDate : String → Option Time) (q : String → String) :
    ItemFilter × Option GoError :=
  let f0 := ItemFilter.zero
  match (if q "from" ≠ "" then
      match parseDate (q "from") with
      | none => Except.error (GoError.errorf "invalid \x27from\x27 date format, expected YYYY-MM-DD" [])
      | some t => Except.ok { f0 with From := some t }
    else Except.ok f0) with
  | Except.error err => (f0, some err)
  | Except.ok f1 =>
    match (if q "to" ≠ "" then
        match parseDate (q "to") with
        | none => Except.error (GoError.errorf "invalid \x27to\x27 date format, expected YYYY-MM-DD" [])
        | some t => Except.ok { f1 with To := some t }
      else Except.ok f1) with
    | Except.error err => (f1, some err)
    | Except.ok f2 =>
      ({ f2 with
          Category := q "category", Type_ := q "type", SortBy := SortByDate,
          Order := OrderDesc, NoLimit := true }, none)

/-- The method `ExportHandler.CSV`. `cw` is the csv writer `WriteCSV` builds
over `c.Writer` and `w` its state before the call. The response of a
successful listing has the default status and, as body, the records handed to
the csv writer; an error of `WriteCSV` is only logged. Headers and logging are
not modelled. -/
def ExportHandler.CSV {σ τ : Type} (parseDate : String → Option Time)
    (Format : String → Time → String) (svc : exportItemService σ) (cw : csvWriter τ)
    (s : σ) (w : τ) (q : String → String) : Response × σ × τ :=
  match (parseExportFilter parseDate q).2 with
  | some err => (respondError StatusBadRequest (Message.errorText err), s, w)
  | none =>
    let r := svc.List s (parseExportFilter parseDate q).1
    match r.1.2.2 with
    | some _ =>
      (respondError StatusInternalServerError (Message.text "internal server error"), r.2, w)
    | none =>
      let out := WriteCSV Format cw w r.1.1
      ({ code := StatusOK, body := ResponseBody.csv out.calls }, r.2, out.state)

/-- The method `ItemService.Create`. -/
def ItemService.Create {σ : Type} (repo : itemRepository σ) (s : σ) (item : Item) :
    Outcome (Item × Option GoError) σ ItemRepoCall :=
  let r := repo.Create s item
  match r.1.2 with
  | some err => { result := (Item.zero, some err), state := r.2, calls := [ItemRepoCall.Create item] }
  | none => { result := (r.1.1, none), state := r.2, calls := [ItemRepoCall.Create item] }

/-- The type `*ItemService` over a repository as an `itemService` of the
handler package. -/
def ItemService.asItemService {σ : Type} (ParseUUID : String → Option GoError)
    (repo : itemRepository σ) : itemService σ :=
  { Create := fun s item =>
      ((ItemService.Create repo s item).result, (ItemService.Create repo s item).state),
    GetByID := fun s id =>
      ((ItemService.GetByID ParseUUID repo s id).result,
        (ItemService.GetByID ParseUUID repo s id).state),
    List := fun s filter =>
      ((ItemService.List repo s filter).result, (ItemService.List repo s filter).state),
    Update := fun s item =>
      ((ItemService.Update ParseUUID repo s item).result,
        (ItemService.Update ParseUUID repo s item).state),
    Delete := fun s id =>
      ((ItemService.Delete ParseUUID repo s id).result,
        (ItemService.Delete ParseUUID repo s id).state) }

/-- The type `*ItemService` over a repository as an `exportItemService`: its
method `List`. -/
def ItemService.asExportService {σ : Type} (repo : itemRepository σ) : exportItemService σ :=
  { List := fun s filter =>
      ((ItemService.List repo s filter).result, (ItemService.List repo s filter).state) }

/-- The query string `type=bad`: every other parameter is absent. -/
def queryTypeBad (key : String) : String :=
  if key = "type" then "bad" else ""

/-! ## Reference definitions for amounts and sample instances for dates -/

/-- The number a `decimal.Decimal` stands for: `value * 10 ^ exp`. -/
def Decimal.toRat (d : Decimal) : ℚ :=
  (d.value : ℚ) * (10 : ℚ) ^ d.exp

/-- The number of days of a month in the proleptic Gregorian calendar. -/
def daysIn (year month : Nat) : Nat :=
  if month = 2 then
    if year % 4 = 0 ∧ (year % 100 ≠ 0 ∨ year % 400 = 0) then 29 else 28
  else if month = 4 ∨ month = 6 ∨ month = 9 ∨ month = 11 then 30
  else 31

/-- The days from January 1 of year 1 to the given date. -/
def daysSinceYearOne (year month day : Nat) : Int :=
  let y : Int := (year : Int) - 1
  365 * y + y / 4 - y / 100 + y / 400
    + (((List.range (month - 1)).map fun m => daysIn year (m + 1)).sum : Nat) + (day - 1 : Nat)

/-- A sample instance of `time.Parse` with the layout `2006-01-02`: four, two
and two decimal digits separated by hyphens that name a day of the calendar,
read as midnight UTC. -/
def parseDate_2006_01_02 (s : String) : Option Time :=
  match s.data with
  | [y1, y2, y3, y4, '-', m1, m2, '-', d1, d2] =>
    if [y1, y2, y3, y4, m1, m2, d1, d2].all Char.isDigit then
      let n := fun (c : Char) => c.toNat - 48
      let year := 1000 * n y1 + 100 * n y2 + 10 * n y3 + n y4
      let month := 10 * n m1 + n m2
      let day := 10 * n d1 + n d2
      if 1 ≤ month ∧ month ≤ 12 ∧ 1 ≤ day ∧ day ≤ daysIn year month then
        some { sec := daysSinceYearOne year month day * 86400, nsec := 0 }
      else none
    else none
  | _ => none

/-- A sample request: an expense of 55.50 on 2024-06-15. -/
def sampleCreateItemRequest : CreateItemRequest :=
  { Type_ := "expense", Amount := ⟨5550, -2⟩, Category := "food", Description := "lunch",
    Date := "2024-06-15" }

/-- The sample request as an update. -/
def sampleUpdateItemRequest : UpdateItemRequest :=
  { Type_ := "expense", Amount := ⟨5550, -2⟩, Category := "food", Description := "lunch",
    Date := "2024-06-15" }

/-- A sample reading of the clock: 2024-06-15 12:00:00 UTC. -/
def sampleNow : Time :=
  { sec := daysSinceYearOne 2024 6 15 * 86400 + 43200, nsec := 0 }

/-! ## internal/repository/item_repo.go : `GetAll`, query execution and scan -/

/-- The scan loop of `GetAll` (lines 166-176): `items` is the slice built so
far and `totalCount` the variable every `Scan` overwrites. -/
def GetAll_scan :
    List (Except GoError (Item × Int)) → Option (List Item) → Int →
      Except GoError (Option (List Item) × Int)
  | [], items, totalCount => Except.ok (items, totalCount)
  | Except.error err :: _, _, _ => Except.error (GoError.wrapf "scan item: %w" err)
  | Except.ok row :: rest, items, _ =>
    GetAll_scan rest (some (items.getD [] ++ [row.1])) row.2

/-- The method `ItemRepo.GetAll`. The store is the function `query`
(`QueryWithRetry`); a row is an item with its `total_count` column. The last
component lists the queries issued. -/
def ItemRepo.GetAll (query : String → List Arg → Except GoError (Cursor (Item × Int)))
    (filter : ItemFilter) : (Option (List Item) × Int × Option GoError) × List IssuedQuery :=
  let text := GetAll_query filter
  let args := GetAll_args filter
  match query text args with
  | Except.error err => ((none, 0, some (GoError.wrapf "get all items: %w" err)), [(text, args)])
  | Except.ok rows =>
    match GetAll_scan rows.scans none 0 with
    | Except.error err => ((none, 0, some err), [(text, args)])
    | Except.ok res =>
      match rows.err with
      | some err => ((none, 0, some (GoError.wrapf "rows iteration: %w" err)), [(text, args)])
      | none => ((res.1, res.2, none), [(text, args)])

/-! ## The database, as far as the listing reads it -/

/-- The cursor a store hands back when every `Scan` succeeds and the iteration
ends without error. -/
def Cursor.ofRows {α : Type} (rows : List α) : Cursor α :=
  { scans := rows.map Except.ok, err := none }

/-- The rows of a listing query over the entries `matching` (those that pass
the WHERE clause, in the order of ORDER BY) with `LIMIT limit OFFSET offset`:
the window `COUNT(*) OVER()` is computed before the page is cut, so every row
carries the number of matching entries. -/
def pagedRows (matching : List Item) (limit offset : Nat) : List (Item × Int) :=
  ((matching.drop offset).take limit).map fun i => (i, (matching.length : Int))

/-- A sample entry dated 2024-06-15. -/
def sampleItem : Item :=
  { ID := "id-1", Type_ := "expense", Amount := ⟨5550, -2⟩, Category := "food",
    Description := "lunch", Date := ⟨daysSinceYearOne 2024 6 15 * 86400, 0⟩,
    CreatedAt := sampleNow, UpdatedAt := sampleNow }

/-! ## Reference definitions: reading a CSV record back -/

/-- The fields of a record line split on the commas that are outside double
quotes: `inQuotes` tells whether an odd number of double quotes has gone by,
`current` is the field read so far. -/
def splitUnquotedCommas : List Char → Bool → List Char → List (List Char)
  | [], _, current => [current]
  | c :: rest, inQuotes, current =>
    if c = '"' then splitUnquotedCommas rest (!inQuotes) (current ++ [c])
    else if c = ',' ∧ inQuotes = false then current :: splitUnquotedCommas rest false []
    else splitUnquotedCommas rest inQuotes (current ++ [c])

/-- Every pair of double quotes collapsed into one. -/
def csvCollapseQuotes : List Char → List Char
  | [] => []
  | [c] => [c]
  | c :: d :: rest =>
    if c = '"' ∧ d = '"' then '"' :: csvCollapseQuotes rest
    else c :: csvCollapseQuotes (d :: rest)

/-- The value of a field as split off a record line: a field that opens with
a double quote loses its first and last character and has its doubled quotes
collapsed; any other field stands for itself. -/
def csvUnquote (field : List Char) : List Char :=
  match field with
  | [] => []
  | c :: rest => if c = '"' then csvCollapseQuotes rest.dropLast else c :: rest

/-- The field values read back from a record line. -/
def csvReadRecord (line : List Char) : List (List Char) :=
  (splitUnquotedCommas line false []).map csvUnquote

/-! ## Reference definitions: the number a decimal text stands for -/

/-- The number a run of decimal digits stands for. -/
def digitsValue (cs : List Char) : Nat :=
  cs.foldl (fun n c => 10 * n + (c.toNat - 48)) 0

/-- The digits of a decimal text after its point. -/
def fractionalDigits (text : List Char) : List Char :=
  (text.dropWhile fun c => c != '.').drop 1

/-- The number a decimal text stands for: an optional minus sign, the digits
of the integer part and, after a point, the fractional digits. -/
def decimalTextValue (text : List Char) : ℚ :=
  let body := if text.head? = some '-' then text.drop 1 else text
  let intDigits := body.takeWhile fun c => c != '.'
  let magnitude : ℚ :=
    (digitsValue (intDigits ++ fractionalDigits body) : ℚ) / 10 ^ (fractionalDigits body).length
  if text.head? = some '-' then -magnitude else magnitude

/-- A tenth of `n` rounded to the nearest integer, a half away from zero. -/
def roundTenth (n : Int) : Int :=
  if n < 0 then -((-n + 5) / 10) else (n + 5) / 10

/-! ## The database, as far as the scalar aggregation reads it

The database is not under `src/`. What follows reads the text of a query of
the shape `Aggregate` sends (a select list of aggregates over one table with
a conjunction of comparisons against positional parameters) and evaluates it
over a list of entries. -/

/-- The value of one column of a result row. -/
inductive SqlValue where
  | null
  | int (n : Int)
  | numeric (d : Decimal)
deriving DecidableEq

/-- An expression of the select list: an aggregate, or `COALESCE` of an
aggregate and a number. -/
inductive SqlExpr where
  | countStar
  | sum (column : String)
  | avg (column : String)
  | percentileCont (fraction : String) (column : String)
  | coalesce (inner : SqlExpr) (fallback : Nat)
deriving DecidableEq

/-- A comparison of the WHERE clause: a column, an operator and the number of
a positional parameter. -/
structure SqlCond where
  column : String
  op : String
  param : Nat
deriving DecidableEq

/-- A parsed query: the select list, the table and the comparisons joined by
AND. -/
structure SqlSelect where
  columns : List SqlExpr
  table : String
  conds : List SqlCond
deriving DecidableEq

/-- The tokens of a query text: runs of characters between white space, with
parentheses and commas as tokens of their own. -/
def sqlTokens : List Char → List Char → List String
  | [], current => if current = [] then [] else [String.mk current]
  | c :: rest, current =>
    if c = ' ' ∨ c = '\n' ∨ c = '\t' ∨ c = '\r' then
      if current = [] then sqlTokens rest [] else String.mk current :: sqlTokens rest []
    else if c = '(' ∨ c = ')' ∨ c = ',' then
      if current = [] then String.mk [c] :: sqlTokens rest []
      else String.mk current :: String.mk [c] :: sqlTokens rest []
    else sqlTokens rest (current ++ [c])

/-- The token list split at the commas outside parentheses. -/
def sqlSplitCommas : List String → Nat → List String → List (List String)
  | [], _, current => [current]
  | t :: rest, depth, current =>
    if t = "(" then sqlSplitCommas rest (depth + 1) (current ++ [t])
    else if t = ")" then sqlSplitCommas rest (depth - 1) (current ++ [t])
    else if t = "," ∧ depth = 0 then current :: sqlSplitCommas rest 0 []
    else sqlSplitCommas rest depth (current ++ [t])

/-- The token list split at the keyword AND. -/
def sqlSplitAnd : List String → List String → List (List String)
  | [], current => [current]
  | t :: rest, current =>
    if t = "AND" then current :: sqlSplitAnd rest [] else sqlSplitAnd rest (current ++ [t])

/-- A run of decimal digits read as a number. -/
def sqlNat (s : String) : Option Nat :=
  if s.data ≠ [] ∧ s.data.all Char.isDigit = true then
    some (s.data.foldl (fun n c => 10 * n + (c.toNat - 48)) 0)
  else none

/-- All the values of a list of optional values, if none is missing. -/
def allSome {α : Type} : List (Option α) → Option (List α)
  | [] => some []
  | none :: _ => none
  | some a :: rest =>
    match allSome rest with
    | none => none
    | some as => some (a :: as)

/-- An aggregate call read from its tokens. -/
def sqlAggregateOfTokens (ts : List String) : Option SqlExpr :=
  match ts with
  | [f, "(", x, ")"] =>
    if f = "COUNT" ∧ x = "*" then some SqlExpr.countStar
    else if f = "SUM" then some (SqlExpr.sum x)
    else if f = "AVG" then some (SqlExpr.avg x)
    else none
  | [f, "(", p, ")", "WITHIN", "GROUP", "(", "ORDER", "BY", x, ")"] =>
    if f = "PERCENTILE_CONT" then some (SqlExpr.percentileCont p x) else none
  | _ => none

/-- A select-list expression read from its tokens: `COALESCE ( aggregate ,
number )` or an aggregate. -/
def sqlExprOfTokens (ts : List String) : Option SqlExpr :=
  match ts with
  | "COALESCE" :: "(" :: rest =>
    match rest.reverse with
    | ")" :: d :: "," :: innerReversed =>
      match sqlAggregateOfTokens innerReversed.reverse, sqlNat d with
      | some e, some n => some (SqlExpr.coalesce e n)
      | _, _ => none
    | _ => none
  | _ => sqlAggregateOfTokens ts

/-- An item of the select list, `expression AS name`, read from its tokens. -/
def sqlSelectItem (ts : List String) : Option SqlExpr :=
  match ts.reverse with
  | _ :: "AS" :: exprReversed => sqlExprOfTokens exprReversed.reverse
  | _ => none

/-- A comparison `column op $n` read from its tokens. -/
def sqlCondOfTokens (ts : List String) : Option SqlCond :=
  match ts with
  | [column, op, p] =>
    match p.data with
    | '$' :: digits =>
      match sqlNat (String.mk digits) with
      | some n => some { column := column, op := op, param := n }
      | none => none
    | _ => none
  | _ => none

/-- A query text read as `SELECT items FROM table [WHERE comparisons]`. -/
def sqlParse (text : String) : Option SqlSelect :=
  match sqlTokens text.data [] with
  | "SELECT" :: rest =>
    match allSome ((sqlSplitCommas (rest.takeWhile fun t => t != "FROM") 0 []).map
        sqlSelectItem) with
    | none => none
    | some columns =>
      match rest.dropWhile fun t => t != "FROM" with
      | ["FROM", table] => some { columns := columns, table := table, conds := [] }
      | "FROM" :: table :: "WHERE" :: condTokens =>
        match allSome ((sqlSplitAnd condTokens []).map sqlCondOfTokens) with
        | none => none
        | some conds => some { columns := columns, table := table, conds := conds }
      | _ => none
  | _ => none

/-- The values of SUM, AVG and PERCENTILE_CONT (by its fraction, as written)
over at least one amount. -/
structure SqlAggregates where
  sum : List Decimal → Decimal
  avg : List Decimal → Decimal
  percentileCont : String → List Decimal → Decimal

/-- An aggregate other than COUNT over a column: null over no rows. -/
def sqlAggregate (f : List Decimal → Decimal) (xs : List Decimal) : SqlValue :=
  match xs with
  | [] => SqlValue.null
  | x :: rest => SqlValue.numeric (f (x :: rest))

/-- The value of a select-list expression over the rows that pass the WHERE
clause; `none` for a column that is not the numeric column `amount`. -/
def SqlExpr.eval (agg : SqlAggregates) (rows : List Item) : SqlExpr → Option SqlValue
  | SqlExpr.countStar => some (SqlValue.int rows.length)
  | SqlExpr.sum column =>
    if column = "amount" then some (sqlAggregate agg.sum (rows.map fun i => i.Amount))
    else none
  | SqlExpr.avg column =>
    if column = "amount" then some (sqlAggregate agg.avg (rows.map fun i => i.Amount))
    else none
  | SqlExpr.percentileCont fraction column =>
    if column = "amount" then
      some (sqlAggregate (agg.percentileCont fraction) (rows.map fun i => i.Amount))
    else none
  | SqlExpr.coalesce inner fallback =>
    match SqlExpr.eval agg rows inner with
    | some SqlValue.null => some (SqlValue.numeric ⟨fallback, 0⟩)
    | other => other

/-- A comparison as a test on an entry: `date >= $n` and `date <= $n` against
a time parameter, `type = $n` against a string parameter; `none` for anything
else. Parameters are numbered from 1. -/
def SqlCond.eval (args : List Arg) (c : SqlCond) : Option (Item → Bool) :=
  if c.param = 0 then none
  else
    match args.get? (c.param - 1) with
    | some (Arg.time t) =>
      if c.column = "date" ∧ c.op = ">=" then some fun i => !t.After i.Date
      else if c.column = "date" ∧ c.op = "<=" then some fun i => !i.Date.After t
      else none
    | some (Arg.str s) =>
      if c.column = "type" ∧ c.op = "=" then some fun i => decide (i.Type_ = s)
      else none
    | none => none

/-- The columns of the single result row as `row.Scan` of `Aggregate` reads
them (line 68): an integer and four decimals; a null, another type or another
number of columns is a scan error. -/
def scanScalarRow (values : List SqlValue) : Except GoError ScalarRow :=
  match values with
  | [SqlValue.int count, SqlValue.numeric totalSum, SqlValue.numeric avg,
      SqlValue.numeric median, SqlValue.numeric p90] =>
    Except.ok { Count := count, TotalSum := totalSum, Avg := avg, Median := median, P90 := p90 }
  | _ => Except.error (GoError.errorf "sql: Scan error" [])

/-- A database holding `entries` in the table `items`, as `QueryRowWithRetry`:
the text is parsed, the comparisons are evaluated against the positional
parameters, and the select list is evaluated over the entries that pass all
of them. A text outside the shape read here, another table or a comparison
that does not fit its parameter is a query error. -/
def sqlStore (agg : SqlAggregates) (entries : List Item) (text : String) (args : List Arg) :
    Except GoError (Except GoError ScalarRow) :=
  match sqlParse text with
  | none => Except.error (GoError.errorf "syntax error" [])
  | some q =>
    if q.table ≠ "items" then Except.error (GoError.errorf "relation does not exist" [])
    else
      match allSome (q.conds.map (SqlCond.eval args)) with
      | none => Except.error (GoError.errorf "operator does not exist" [])
      | some tests =>
        match allSome (q.columns.map
            (SqlExpr.eval agg (entries.filter fun i => tests.all fun test => test i))) with
        | none => Except.error (GoError.errorf "function does not exist" [])
        | some values => Except.ok (scanScalarRow values)

/-- Sample aggregates: the first amount for each. -/
def sampleAggregates : SqlAggregates :=
  { sum := fun xs => xs.headD ⟨0, 0⟩,
    avg := fun xs => xs.headD ⟨0, 0⟩,
    percentileCont := fun _ xs => xs.headD ⟨0, 0⟩ }

/-- The parsed form of the query of `Aggregate`, without and with the
comparison on the type. -/
def parsedAggregateQuery (typed : Bool) : SqlSelect :=
  SqlSelect.mk
    [ SqlExpr.countStar,
      SqlExpr.coalesce (SqlExpr.sum "amount") 0,
      SqlExpr.coalesce (SqlExpr.avg "amount") 0,
      SqlExpr.coalesce (SqlExpr.percentileCont "0.5" "amount") 0,
      SqlExpr.coalesce (SqlExpr.percentileCont "0.9" "amount") 0 ]
    "items"
    (if typed then [⟨"date", ">=", 1⟩, ⟨"date", "<=", 2⟩, ⟨"type", "=", 3⟩]
      else [⟨"date", ">=", 1⟩, ⟨"date", "<=", 2⟩])

/-! ## The buffered csv writer over a writer that does not fail -/

/-- The state of a `csv.Writer` over a writer that does not fail: the text
its `bufio.Writer` holds back and the text the underlying writer has
received. -/
structure BufferedWriter where
  buffered : List Char
  emitted : List Char
deriving DecidableEq

/-- The `csv.Writer` that `csv.NewWriter(w)` builds, with a buffer of `size`
characters, over a writer that does not fail. `Write` appends the fields of
the record joined by commas and a line feed to the buffer and, when that
overflows, passes full buffers on to the underlying writer; `Flush` passes on
what the buffer holds; `Error` has nothing to report. -/
def csvBufferedWriter (size : Nat) : csvWriter BufferedWriter :=
  { Write := fun w record =>
      (none,
        { buffered :=
            (w.buffered ++ csvEncodeRecord record ++ ['\n']).drop
              (((w.buffered ++ csvEncodeRecord record ++ ['\n']).length - 1) / size * size),
          emitted :=
            w.emitted ++ (w.buffered ++ csvEncodeRecord record ++ ['\n']).take
              (((w.buffered ++ csvEncodeRecord record ++ ['\n']).length - 1) / size * size) }),
    Flush := fun w => { buffered := [], emitted := w.emitted ++ w.buffered },
    Error := fun _ => none }

/-- The text of a list of records: each record as `csv.Writer.Write` emits it,
followed by a line feed. -/
def csvText : List (List String) → List Char
  | [] => []
  | record :: rest => csvEncodeRecord record ++ '\n' :: csvText rest

/-! ## Properties of the compiled listing query -/

/-- The predicate fragments depend only on which of the four fields are set. -/
theorem GetAll_where_congr (f g : ItemFilter)
    (hType : f.Type_ = "" ↔ g.Type_ = "") (hCat : f.Category = "" ↔ g.Category = "")
    (hFrom : f.From.isSome = g.From.isSome) (hTo : f.To.isSome = g.To.isSome) :
    GetAll_where f = GetAll_where g := by
  obtain ⟨fF, fT, fC, fTy, fS, fO, fL, fOf, fN⟩ := f
  obtain ⟨gF, gT, gC, gTy, gS, gO, gL, gOf, gN⟩ := g
  simp only at hType hCat hFrom hTo
  have e1 : (gTy = "") = (fTy = "") := propext hType.symm
  have e2 : (gC = "") = (fC = "") := propext hCat.symm
  have e : (GetAll_predicates ⟨fF, fT, fC, fTy, fS, fO, fL, fOf, fN⟩).whereClauses
      = (GetAll_predicates ⟨gF, gT, gC, gTy, gS, gO, gL, gOf, gN⟩).whereClauses := by
    cases fF <;> cases gF <;> simp at hFrom <;>
    cases fT <;> cases gT <;> simp at hTo <;>
    simp only [GetAll_predicates, ne_eq, e1, e2] <;>
    by_cases h1 : fTy = "" <;> by_cases h2 : fC = "" <;> simp [h1, h2]
  simp only [GetAll_where, e]


/-- C1: two filters that agree on which of Type, Category, From, To are set and
on SortBy, Order, Limit, Offset and NoLimit compile to the same query text; the
values of Type, Category, From and To do not reach the text. -/
theorem GetAll_query_value_independent (f g : ItemFilter)
    (hType : f.Type_ = "" ↔ g.Type_ = "") (hCat : f.Category = "" ↔ g.Category = "")
    (hFrom : f.From.isSome = g.From.isSome) (hTo : f.To.isSome = g.To.isSome)
    (hSort : f.SortBy = g.SortBy) (hOrder : f.Order = g.Order)
    (hLimit : f.Limit = g.Limit) (hOffset : f.Offset = g.Offset)
    (hNoLimit : f.NoLimit = g.NoLimit) :
    GetAll_query f = GetAll_query g := by
  have hw := GetAll_where_congr f g hType hCat hFrom hTo
  simp only [GetAll_query, hw, GetAll_sortCol, GetAll_sortDir, GetAll_limitClause,
    hSort, hOrder, hLimit, hOffset, hNoLimit]

/-- Witness for C1: two filters with different type, category and date values
but the same shape. -/
theorem GetAll_query_value_independent_witness :
    GetAll_query
        { From := some ⟨100, 0⟩, To := none, Category := "food", Type_ := "income",
          SortBy := "amount", Order := "asc", Limit := 10, Offset := 5, NoLimit := false }
      = GetAll_query
        { From := some ⟨7, 3⟩, To := none, Category := "x; DROP TABLE items", Type_ := "expense",
          SortBy := "amount", Order := "asc", Limit := 10, Offset := 5, NoLimit := false } :=
  GetAll_query_value_independent _ _ (by decide) (by decide) rfl rfl rfl rfl rfl rfl rfl

/-- The allow-list lookup, resolved key by key. -/
theorem allowedSortColumns_lookup (s : String) :
    allowedSortColumns.lookup s =
      if s = "date" then some "date"
      else if s = "amount" then some "amount"
      else if s = "category" then some "category"
      else if s = "type" then some "type"
      else none := by
  by_cases h1 : s = "date"
  · subst h1; rfl
  by_cases h2 : s = "amount"
  · subst h2; rfl
  by_cases h3 : s = "category"
  · subst h3; rfl
  by_cases h4 : s = "type"
  · subst h4; rfl
  have b1 : (s == "date") = false := beq_eq_false_iff_ne.mpr h1
  have b2 : (s == "amount") = false := beq_eq_false_iff_ne.mpr h2
  have b3 : (s == "category") = false := beq_eq_false_iff_ne.mpr h3
  have b4 : (s == "type") = false := beq_eq_false_iff_ne.mpr h4
  simp only [allowedSortColumns, SortByDate, SortByAmount, SortByCategory, SortByType,
    List.lookup, b1, b2, b3, b4, h1, h2, h3, h4, if_false]

/-- Membership in the key set of the allow-list, spelled out. -/
theorem allowedSortColumns_keys (s : String) :
    s ∈ allowedSortColumns.map Prod.fst ↔
      s = "date" ∨ s = "amount" ∨ s = "category" ∨ s = "type" := by
  simp only [allowedSortColumns, SortByDate, SortByAmount, SortByCategory, SortByType,
    List.map, List.mem_cons, List.mem_singleton, List.not_mem_nil, or_false]

/-- C2: whatever SortBy is, the ORDER BY column of the compiled query is one of
date, amount, category, type: the allow-list image of SortBy when SortBy is a
key of the allow-list, the date column otherwise (the empty key included); two
filters that differ only in an unrecognised SortBy compile to the same text. -/
theorem GetAll_sortCol_allowlisted (f : ItemFilter) :
    GetAll_query f = GetAll_format (GetAll_where f) (GetAll_sortCol f)
        (GetAll_sortDir f) (GetAll_limitClause f) ∧
    GetAll_sortCol f ∈ ["date", "amount", "category", "type"] ∧
    (∀ col, (f.SortBy, col) ∈ allowedSortColumns → GetAll_sortCol f = col) ∧
    (f.SortBy ∉ allowedSortColumns.map Prod.fst → GetAll_sortCol f = "date") ∧
    (f.SortBy = "" → GetAll_sortCol f = "date") ∧
    (∀ s : String, f.SortBy ∉ allowedSortColumns.map Prod.fst →
      s ∉ allowedSortColumns.map Prod.fst →
      GetAll_query { f with SortBy := s } = GetAll_query f) := by
  have hk : ∀ s : String, s ∉ allowedSortColumns.map Prod.fst →
      allowedSortColumns.lookup s = none := by
    intro s hs
    rw [allowedSortColumns_keys] at hs
    push_neg at hs
    obtain ⟨a, b, c, d⟩ := hs
    rw [allowedSortColumns_lookup, if_neg a, if_neg b, if_neg c, if_neg d]
  refine ⟨rfl, ?_, ?_, ?_, ?_, ?_⟩
  · unfold GetAll_sortCol
    rw [allowedSortColumns_lookup]
    split_ifs <;> simp
  · intro col hcol
    unfold GetAll_sortCol
    rw [allowedSortColumns_lookup]
    simp only [allowedSortColumns, SortByDate, SortByAmount, SortByCategory, SortByType,
      List.mem_cons, List.mem_singleton, List.not_mem_nil, or_false, Prod.mk.injEq] at hcol
    rcases hcol with ⟨c, d⟩ | ⟨c, d⟩ | ⟨c, d⟩ | ⟨c, d⟩ <;> rw [c, d] <;> rfl
  · intro hs
    unfold GetAll_sortCol
    rw [hk _ hs]
  · intro hs
    unfold GetAll_sortCol
    rw [hs]
    rfl
  · intro s hf hs
    have e : GetAll_where { f with SortBy := s } = GetAll_where f :=
      GetAll_where_congr _ _ Iff.rfl Iff.rfl rfl rfl
    simp only [GetAll_query, e, GetAll_sortCol, hk _ hf, hk _ hs, GetAll_sortDir,
      GetAll_limitClause]


/-- C3: the WHERE clause is exactly the fragments of the set fields, in the
order kind, category, from, to, numbered 1..k and joined by AND; the parameter
list is the k values in the same order; with nothing set there is no WHERE
clause and no parameter. -/
theorem GetAll_where_matches_reference (f : ItemFilter) :
    GetAll_where f = GetAll_where_reference f ∧
    GetAll_args f = f.setFields.map Prod.snd ∧
    (GetAll_predicates f).whereClauses = placeholderFragments f.setFields ∧
    (GetAll_predicates f).argIdx = (GetAll_args f).length + 1 ∧
    (f.Type_ = "" ∧ f.Category = "" ∧ f.From = none ∧ f.To = none →
      GetAll_where f = "" ∧ GetAll_args f = []) := by
  obtain ⟨fF, fT, fC, fTy, fS, fO, fL, fOf, fN⟩ := f
  cases fF <;> cases fT <;> by_cases h1 : fTy = "" <;> by_cases h2 : fC = "" <;>
    simp [GetAll_where, GetAll_where_reference, GetAll_args, GetAll_predicates,
      ItemFilter.setFields, placeholderFragments, h1, h2, List.enum, List.enumFrom]


/-- C4: with NoLimit false the pagination clause is `LIMIT l OFFSET o`, where l
is Limit when 0 < Limit <= 1000 and 50 otherwise, and o is Offset when
Offset > 0 and 0 otherwise; Limit = 2000 gives LIMIT 50. -/
theorem GetAll_limitClause_paginated (f : ItemFilter) (h : f.NoLimit = false) :
    GetAll_query f = GetAll_format (GetAll_where f) (GetAll_sortCol f)
        (GetAll_sortDir f) (GetAll_limitClause f) ∧
    GetAll_limitClause f =
      "LIMIT " ++ toString (if 0 < f.Limit ∧ f.Limit ≤ 1000 then f.Limit else 50)
        ++ " OFFSET " ++ toString (if f.Offset > 0 then f.Offset else 0) ∧
    (f.Limit ≤ 0 ∨ f.Limit > 1000 → f.Offset ≤ 0 →
      GetAll_limitClause f = "LIMIT 50 OFFSET 0") ∧
    (f.Limit = 2000 →
      GetAll_limitClause f =
        "LIMIT 50 OFFSET " ++ toString (if f.Offset > 0 then f.Offset else 0)) := by
  have e : GetAll_limitClause f =
      "LIMIT " ++ toString (if 0 < f.Limit ∧ f.Limit ≤ 1000 then f.Limit else 50)
        ++ " OFFSET " ++ toString (if f.Offset > 0 then f.Offset else 0) := by
    simp [GetAll_limitClause, h, maxLimit, defaultLimit]
  refine ⟨rfl, e, ?_, ?_⟩
  · intro hl ho
    have h1 : ¬ (0 < f.Limit ∧ f.Limit ≤ 1000) := by omega
    have h2 : ¬ f.Offset > 0 := by omega
    rw [e, if_neg h1, if_neg h2]
    decide
  · intro hl
    have h1 : ¬ (0 < f.Limit ∧ f.Limit ≤ 1000) := by omega
    rw [e, if_neg h1]
    rfl

/-- Witness for C4: limit=2000 with offset 20 compiles to LIMIT 50 OFFSET 20. -/
theorem GetAll_limitClause_paginated_witness :
    GetAll_limitClause
        { From := none, To := none, Category := "", Type_ := "", SortBy := "",
          Order := "", Limit := 2000, Offset := 20, NoLimit := false }
      = "LIMIT 50 OFFSET 20" :=
  ((GetAll_limitClause_paginated
      { From := none, To := none, Category := "", Type_ := "", SortBy := "",
        Order := "", Limit := 2000, Offset := 20, NoLimit := false } rfl).2.2.2 rfl).trans
    (by decide)

/-- Every WHERE clause `GetAll` produces is the clause of a representative
filter. -/
theorem GetAll_where_shape (f : ItemFilter) :
    GetAll_where f = GetAll_where
      (shapeFilter (decide (f.Type_ ≠ "")) (decide (f.Category ≠ ""))
        f.From.isSome f.To.isSome) := by
  apply GetAll_where_congr
  · by_cases h : f.Type_ = "" <;> simp [shapeFilter, h]
  · by_cases h : f.Category = "" <;> simp [shapeFilter, h]
  · cases f.From <;> simp [shapeFilter]
  · cases f.To <;> simp [shapeFilter]

/-- A text that holds a pattern holds each character at least as often as the
pattern does. -/
theorem not_infix_of_count_lt (c : Char) (pat s : List Char)
    (h : s.count c < pat.count c) : ¬ (pat <:+: s) := by
  intro hi
  have := hi.sublist.count_le c
  omega

/-- The WHERE clauses hold neither an upper-case I nor an upper-case F. -/
theorem GetAll_where_shape_counts :
    ∀ b1 b2 b3 b4 : Bool,
      (GetAll_where (shapeFilter b1 b2 b3 b4)).data.count 'I' = 0 ∧
      (GetAll_where (shapeFilter b1 b2 b3 b4)).data.count 'F' = 0 := by
  decide

/-- Without a pagination clause the query text holds no upper-case I and a
single upper-case F (that of FROM). -/
theorem GetAll_format_counts (w col dir : String)
    (hw : w.data.count 'I' = 0 ∧ w.data.count 'F' = 0)
    (hc : col ∈ ["date", "amount", "category", "type"])
    (hd : dir ∈ ["ASC", "DESC"]) :
    (GetAll_format w col dir "").data.count 'I' = 0 ∧
    (GetAll_format w col dir "").data.count 'F' = 1 := by
  have p1 : ("SELECT \n\t\t\t\t\tid, type, amount, category, description, date, created_at, updated_at,\n\t\t\t\t\tCOUNT(*) OVER() AS total_count\n\t\t\t    FROM items ").data.count 'I' = 0 := by
    decide
  have p2 : ("SELECT \n\t\t\t\t\tid, type, amount, category, description, date, created_at, updated_at,\n\t\t\t\t\tCOUNT(*) OVER() AS total_count\n\t\t\t    FROM items ").data.count 'F' = 1 := by
    decide
  have m1 : ("\n\t\t\t    ORDER BY ").data.count 'I' = 0 := by decide
  have m2 : ("\n\t\t\t    ORDER BY ").data.count 'F' = 0 := by decide
  have s1 : (" " : String).data.count 'I' = 0 := by decide
  have s2 : (" " : String).data.count 'F' = 0 := by decide
  have t1 : ("\n\t\t\t    ").data.count 'I' = 0 := by decide
  have t2 : ("\n\t\t\t    ").data.count 'F' = 0 := by decide
  have n1 : ("" : String).data.count 'I' = 0 := by decide
  have n2 : ("" : String).data.count 'F' = 0 := by decide
  have c1 : col.data.count 'I' = 0 ∧ col.data.count 'F' = 0 := by
    simp only [List.mem_cons, List.mem_singleton, List.not_mem_nil, or_false] at hc
    rcases hc with h | h | h | h <;> subst h <;> decide
  have d1 : dir.data.count 'I' = 0 ∧ dir.data.count 'F' = 0 := by
    simp only [List.mem_cons, List.mem_singleton, List.not_mem_nil, or_false] at hd
    rcases hd with h | h <;> subst h <;> decide
  unfold GetAll_format
  constructor
  · rw [String.data_append, String.data_append, String.data_append, String.data_append,
      String.data_append, String.data_append, String.data_append, List.count_append,
      List.count_append, List.count_append, List.count_append, List.count_append,
      List.count_append, List.count_append, p1, hw.1, m1, c1.1, s1, d1.1, t1, n1]
  · rw [String.data_append, String.data_append, String.data_append, String.data_append,
      String.data_append, String.data_append, String.data_append, List.count_append,
      List.count_append, List.count_append, List.count_append, List.count_append,
      List.count_append, List.count_append, p2, hw.2, m2, c1.2, s2, d1.2, t2, n2]

/-- C5: with NoLimit true, whatever Limit and Offset are, the pagination clause
is empty and the query text holds neither LIMIT nor OFFSET. -/
theorem GetAll_noLimit_no_pagination (f : ItemFilter) (h : f.NoLimit = true) :
    GetAll_limitClause f = "" ∧
    GetAll_query f = GetAll_format (GetAll_where f) (GetAll_sortCol f) (GetAll_sortDir f) "" ∧
    ¬ ("LIMIT".data <:+: (GetAll_query f).data) ∧
    ¬ ("OFFSET".data <:+: (GetAll_query f).data) := by
  have e : GetAll_limitClause f = "" := by simp [GetAll_limitClause, h]
  have q : GetAll_query f =
      GetAll_format (GetAll_where f) (GetAll_sortCol f) (GetAll_sortDir f) "" := by
    simp only [GetAll_query, e]
  have hc : GetAll_sortCol f ∈ ["date", "amount", "category", "type"] := by
    unfold GetAll_sortCol
    rw [allowedSortColumns_lookup]
    split_ifs <;> simp
  have hd : GetAll_sortDir f ∈ ["ASC", "DESC"] := by
    unfold GetAll_sortDir
    split_ifs <;> simp
  have hw := GetAll_where_shape_counts (decide (f.Type_ ≠ ""))
    (decide (f.Category ≠ "")) f.From.isSome f.To.isSome
  rw [← GetAll_where_shape f] at hw
  have key := GetAll_format_counts _ _ _ hw hc hd
  rw [← q] at key
  refine ⟨e, q, ?_, ?_⟩
  · apply not_infix_of_count_lt 'I'
    rw [key.1]
    decide
  · apply not_infix_of_count_lt 'F'
    rw [key.2]
    decide

/-- Witness for C5: an export filter carrying limit 10 and offset 30. -/
theorem GetAll_noLimit_no_pagination_witness :
    ¬ ("LIMIT".data <:+: (GetAll_query
        { From := none, To := none, Category := "food", Type_ := "", SortBy := "date",
          Order := "desc", Limit := 10, Offset := 30, NoLimit := true }).data) :=
  (GetAll_noLimit_no_pagination
    { From := none, To := none, Category := "food", Type_ := "", SortBy := "date",
      Order := "desc", Limit := 10, Offset := 30, NoLimit := true } rfl).2.2.1

/-- C6: with SortBy empty the ORDER BY column is date; the direction is ASC
exactly when Order is "asc" and DESC otherwise; with SortBy and Order both empty
the query holds `ORDER BY date DESC`. -/
theorem GetAll_default_sort (f : ItemFilter) (h : f.SortBy = "") :
    GetAll_sortCol f = "date" ∧
    (f.Order = "asc" → GetAll_sortDir f = "ASC") ∧
    (f.Order ≠ "asc" → GetAll_sortDir f = "DESC") ∧
    (f.Order ≠ "asc" →
      GetAll_query f = GetAll_format (GetAll_where f) "date" "DESC" (GetAll_limitClause f)) ∧
    (f.Order = "" → "ORDER BY date DESC".data <:+: (GetAll_query f).data) := by
  have hc : GetAll_sortCol f = "date" := by
    unfold GetAll_sortCol
    rw [h]
    rfl
  have hd : f.Order ≠ "asc" → GetAll_sortDir f = "DESC" := by
    intro ho
    simp [GetAll_sortDir, OrderAsc, ho]
  refine ⟨hc, ?_, hd, ?_, ?_⟩
  · intro ho
    simp [GetAll_sortDir, OrderAsc, ho]
  · intro ho
    simp only [GetAll_query, hc, hd ho]
  · intro ho
    have ho2 : f.Order ≠ "asc" := by rw [ho]; decide
    have e1 : "\n\t\t\t    ORDER BY " = "\n\t\t\t    " ++ "ORDER BY " := by decide
    have e2 : "ORDER BY date DESC" = "ORDER BY " ++ "date" ++ " " ++ "DESC" := by decide
    have hs : GetAll_query f =
        ("SELECT \n\t\t\t\t\tid, type, amount, category, description, date, created_at, updated_at,\n\t\t\t\t\tCOUNT(*) OVER() AS total_count\n\t\t\t    FROM items "
          ++ GetAll_where f ++ "\n\t\t\t    ") ++ "ORDER BY date DESC"
          ++ ("\n\t\t\t    " ++ GetAll_limitClause f) := by
      simp only [GetAll_query, hc, hd ho2, GetAll_format]
      rw [e1, e2]
      simp only [String.append_assoc]
    rw [hs, String.data_append, String.data_append]
    exact ⟨_, _, rfl⟩

/-- Witness for C6: the filter with nothing set. -/
theorem GetAll_default_sort_witness :
    "ORDER BY date DESC".data <:+: (GetAll_query
        { From := none, To := none, Category := "", Type_ := "", SortBy := "",
          Order := "", Limit := 0, Offset := 0, NoLimit := false }).data :=
  (GetAll_default_sort
    { From := none, To := none, Category := "", Type_ := "", SortBy := "",
      Order := "", Limit := 0, Offset := 0, NoLimit := false } rfl).2.2.2.2 rfl


/-- Go's `After` is the strict lexicographic order on (seconds, nanoseconds). -/
theorem Time.After_iff (a b : Time) :
    a.After b = true ↔ (b.sec < a.sec ∨ (b.sec = a.sec ∧ b.nsec < a.nsec)) := by
  simp only [Time.After, Bool.or_eq_true, Bool.and_eq_true, decide_eq_true_eq, gt_iff_lt]
  constructor
  · rintro (h | ⟨h1, h2⟩)
    · exact Or.inl h
    · exact Or.inr ⟨h1.symm, h2⟩
  · rintro (h | ⟨h1, h2⟩)
    · exact Or.inl h
    · exact Or.inr ⟨h1.symm, h2⟩

/-- C7: when Type, SortBy and Order are valid, Validate returns
ErrInvalidDateRange if From and To are both set and From is strictly after To,
and nil otherwise: when a bound is missing and when From is not after To, From
equal to To included. -/
theorem ItemFilter_Validate_dateRange (f : ItemFilter)
    (hT : f.Type_ = "" ∨ f.Type_ = "income" ∨ f.Type_ = "expense")
    (hS : f.SortBy = "" ∨ f.SortBy = "date" ∨ f.SortBy = "amount" ∨
      f.SortBy = "category" ∨ f.SortBy = "type")
    (hO : f.Order = "" ∨ f.Order = "asc" ∨ f.Order = "desc") :
    (∀ a b, f.From = some a → f.To = some b →
      (b.sec < a.sec ∨ (b.sec = a.sec ∧ b.nsec < a.nsec)) →
      f.Validate = some DomainError.ErrInvalidDateRange) ∧
    (∀ a b, f.From = some a → f.To = some b →
      ¬ (b.sec < a.sec ∨ (b.sec = a.sec ∧ b.nsec < a.nsec)) → f.Validate = none) ∧
    (f.From = none ∨ f.To = none → f.Validate = none) ∧
    (f.From.isSome = true → f.From = f.To → f.Validate = none) := by
  have h1 : ¬ (f.Type_ ≠ "" ∧ f.Type_ ≠ TypeIncome ∧ f.Type_ ≠ TypeExpense) := by
    simp only [TypeIncome, TypeExpense]; tauto
  have h2 : ¬ (f.SortBy ≠ "" ∧ ¬ (f.SortBy = SortByDate ∨ f.SortBy = SortByAmount ∨
      f.SortBy = SortByCategory ∨ f.SortBy = SortByType)) := by
    simp only [SortByDate, SortByAmount, SortByCategory, SortByType]; tauto
  have h3 : ¬ (f.Order ≠ "" ∧ f.Order ≠ OrderAsc ∧ f.Order ≠ OrderDesc) := by
    simp only [OrderAsc, OrderDesc]; tauto
  have e : f.Validate = match f.From, f.To with
      | some a, some b => if a.After b then some DomainError.ErrInvalidDateRange else none
      | _, _ => none := by
    unfold ItemFilter.Validate
    rw [if_neg h1, if_neg h2, if_neg h3]
  refine ⟨?_, ?_, ?_, ?_⟩
  · intro a b ha hb hab
    rw [e, ha, hb]
    simp only [(Time.After_iff a b).mpr hab, if_true]
  · intro a b ha hb hab
    have : ¬ (a.After b = true) := fun h => hab ((Time.After_iff a b).mp h)
    rw [e, ha, hb]
    simp [this]
  · rintro (h | h)
    · rw [e, h]
    · rw [e, h]
      cases f.From <;> rfl
  · intro hs hft
    rw [e, ← hft]
    cases hF : f.From with
    | none => rfl
    | some a =>
      have : ¬ (a.After a = true) := by
        rw [Time.After_iff]; omega
      simp [this]

/-- Witness for C7: a valid filter whose From is one second after its To. -/
theorem ItemFilter_Validate_dateRange_witness :
    ItemFilter.Validate
        { From := some ⟨200, 0⟩, To := some ⟨199, 5⟩, Category := "", Type_ := "income",
          SortBy := "amount", Order := "desc", Limit := 0, Offset := 0, NoLimit := false }
      = some DomainError.ErrInvalidDateRange :=
  (ItemFilter_Validate_dateRange
    { From := some ⟨200, 0⟩, To := some ⟨199, 5⟩, Category := "", Type_ := "income",
      SortBy := "amount", Order := "desc", Limit := 0, Offset := 0, NoLimit := false }
    (by decide) (by decide) (by decide)).1 ⟨200, 0⟩ ⟨199, 5⟩ rfl rfl (by decide)


/-- The four rules of the reference validator, in terms of the checks of the
code. -/
theorem ItemFilter.rules_eq (f : ItemFilter) :
    f.rules =
      [ (decide (f.Type_ ≠ "" ∧ f.Type_ ≠ TypeIncome ∧ f.Type_ ≠ TypeExpense),
          DomainError.ErrInvalidType),
        (decide (f.SortBy ≠ "" ∧ ¬ (f.SortBy = SortByDate ∨ f.SortBy = SortByAmount ∨
            f.SortBy = SortByCategory ∨ f.SortBy = SortByType)),
          DomainError.ErrInvalidSortBy),
        (decide (f.Order ≠ "" ∧ f.Order ≠ OrderAsc ∧ f.Order ≠ OrderDesc),
          DomainError.ErrInvalidOrder),
        ((match f.From, f.To with
          | some a, some b => a.After b
          | _, _ => false),
          DomainError.ErrInvalidDateRange) ] := by
  have r4 : (f.From.any fun a => f.To.any fun b =>
        decide (b.sec < a.sec ∨ (b.sec = a.sec ∧ b.nsec < a.nsec))) =
      (match f.From, f.To with
        | some a, some b => a.After b
        | _, _ => false) := by
    cases f.From with
    | none => rfl
    | some a =>
      cases f.To with
      | none => rfl
      | some b =>
        simp only [Option.any]
        rw [Bool.eq_iff_iff, decide_eq_true_iff, Time.After_iff]
  simp only [ItemFilter.rules, r4, TypeIncome, TypeExpense, SortByDate, SortByAmount,
    SortByCategory, SortByType, OrderAsc, OrderDesc, List.mem_cons, List.mem_singleton,
    List.not_mem_nil, or_false, not_or, ne_eq]

/-- An if-chain of four checks returns the error of the first failing entry of
the corresponding rule list, and nil exactly when no entry fails. -/
theorem firstFailing_chain (c1 c2 c3 : Prop) [Decidable c1] [Decidable c2] [Decidable c3]
    (c4 : Bool) (e1 e2 e3 e4 : DomainError) :
    ((if c1 then some e1 else if c2 then some e2 else if c3 then some e3
        else if c4 = true then some e4 else none) =
      ([(decide c1, e1), (decide c2, e2), (decide c3, e3), (c4, e4)].find?
        fun r => r.1).map Prod.snd) ∧
    ((if c1 then some e1 else if c2 then some e2 else if c3 then some e3
        else if c4 = true then some e4 else none) = none ↔
      ∀ r ∈ [(decide c1, e1), (decide c2, e2), (decide c3, e3), (c4, e4)], r.1 = false) := by
  by_cases h1 : c1 <;> by_cases h2 : c2 <;> by_cases h3 : c3 <;> cases c4 <;>
    simp [h1, h2, h3, List.find?]

/-- The validator of the listing filter as a chain of four checks. -/
theorem ItemFilter.Validate_chain (f : ItemFilter) :
    f.Validate =
      if f.Type_ ≠ "" ∧ f.Type_ ≠ TypeIncome ∧ f.Type_ ≠ TypeExpense then
        some DomainError.ErrInvalidType
      else if f.SortBy ≠ "" ∧ ¬ (f.SortBy = SortByDate ∨ f.SortBy = SortByAmount ∨
          f.SortBy = SortByCategory ∨ f.SortBy = SortByType) then
        some DomainError.ErrInvalidSortBy
      else if f.Order ≠ "" ∧ f.Order ≠ OrderAsc ∧ f.Order ≠ OrderDesc then
        some DomainError.ErrInvalidOrder
      else if (match f.From, f.To with
          | some a, some b => a.After b
          | _, _ => false) = true then
        some DomainError.ErrInvalidDateRange
      else none := by
  unfold ItemFilter.Validate
  cases f.From with
  | none => simp
  | some a =>
    cases f.To with
    | none => simp
    | some b => rfl

/-- C8: Validate is the reference validator: it returns the error of the first
failing rule among type, sort key, order, date range, and nil exactly when no
rule fails; Limit, Offset, Category and NoLimit do not affect the result. -/
theorem ItemFilter_Validate_eq_reference (f : ItemFilter) :
    f.Validate = f.Validate_reference ∧
    (f.Validate = none ↔ ∀ r ∈ f.rules, r.1 = false) ∧
    (∀ g : ItemFilter, g.Type_ = f.Type_ → g.SortBy = f.SortBy → g.Order = f.Order →
      g.From = f.From → g.To = f.To → g.Validate = f.Validate) := by
  refine ⟨?_, ?_, ?_⟩
  · unfold ItemFilter.Validate_reference
    rw [ItemFilter.rules_eq, ItemFilter.Validate_chain]
    exact (firstFailing_chain _ _ _ _ _ _ _ _).1
  · rw [ItemFilter.rules_eq, ItemFilter.Validate_chain]
    exact (firstFailing_chain _ _ _ _ _ _ _ _).2
  · intro g hT hS hO hF hTo
    unfold ItemFilter.Validate
    rw [hT, hS, hO, hF, hTo]


/-- Go's `IsZero` holds exactly of the zero instant. -/
theorem Time.IsZero_iff (t : Time) : t.IsZero = true ↔ t = ⟨0, 0⟩ := by
  obtain ⟨s, n⟩ := t
  simp [Time.IsZero]

/-- C9: the validator of the analytics filter is the reference validator:
ErrInvalidDate if From or To is the zero time, else ErrInvalidDateRange if From
is after To, else ErrInvalidGroupBy if GroupBy is set and not one of day, week,
month, category, else ErrInvalidType if Type is set and neither income nor
expense, else nil; equal non-zero bounds are accepted. -/
theorem AnalyticsFilter_Validate_eq_reference (f : AnalyticsFilter) :
    f.Validate = f.Validate_reference ∧
    (f.From = f.To → f.From ≠ ⟨0, 0⟩ → f.Validate ≠ some DomainError.ErrInvalidDateRange) ∧
    (f.From = f.To → f.From ≠ ⟨0, 0⟩ → f.GroupBy = "" → f.Type_ = "" → f.Validate = none) := by
  have hz : (f.From.IsZero || f.To.IsZero) = true ↔ (f.From = ⟨0, 0⟩ ∨ f.To = ⟨0, 0⟩) := by
    rw [Bool.or_eq_true, Time.IsZero_iff, Time.IsZero_iff]
  have hg : (f.GroupBy ≠ "" ∧ ¬ (f.GroupBy = GroupByDay ∨ f.GroupBy = GroupByWeek ∨
        f.GroupBy = GroupByMonth ∨ f.GroupBy = GroupByCategory)) ↔
      (f.GroupBy ≠ "" ∧ f.GroupBy ∉ ["day", "week", "month", "category"]) := by
    simp only [GroupByDay, GroupByWeek, GroupByMonth, GroupByCategory, List.mem_cons,
      List.mem_singleton, List.not_mem_nil, or_false]
  have e : f.Validate = f.Validate_reference := by
    unfold AnalyticsFilter.Validate AnalyticsFilter.Validate_reference
    simp only [hz, Time.After_iff, hg, TypeIncome, TypeExpense]
  refine ⟨e, ?_, ?_⟩
  · intro hft hnz
    rw [e]
    unfold AnalyticsFilter.Validate_reference
    have h1 : ¬ (f.From = ⟨0, 0⟩ ∨ f.To = ⟨0, 0⟩) := by
      rw [← hft]; tauto
    have h2 : ¬ (f.To.sec < f.From.sec ∨ (f.To.sec = f.From.sec ∧ f.To.nsec < f.From.nsec)) := by
      rw [← hft]; omega
    rw [if_neg h1, if_neg h2]
    split_ifs <;> simp
  · intro hft hnz hgb hty
    rw [e]
    unfold AnalyticsFilter.Validate_reference
    have h1 : ¬ (f.From = ⟨0, 0⟩ ∨ f.To = ⟨0, 0⟩) := by
      rw [← hft]; tauto
    have h2 : ¬ (f.To.sec < f.From.sec ∨ (f.To.sec = f.From.sec ∧ f.To.nsec < f.From.nsec)) := by
      rw [← hft]; omega
    rw [if_neg h1, if_neg h2]
    simp [hgb, hty]

/-- C10: buildAnalyticsWhere returns `WHERE date >= $1 AND date <= $2` with
parameters from, to when itemType is empty, and the same text followed by
`AND type = $3` with parameters from, to, itemType otherwise; the date bounds
are the first two parameters and the number of parameters is the highest
placeholder index. -/
theorem buildAnalyticsWhere_spec (from_ to_ : Time) (itemType : String) :
    (itemType = "" →
      buildAnalyticsWhere from_ to_ itemType =
        ("WHERE date >= $1 AND date <= $2", [Arg.time from_, Arg.time to_])) ∧
    (itemType ≠ "" →
      buildAnalyticsWhere from_ to_ itemType =
        ("WHERE date >= $1 AND date <= $2 AND type = $3",
          [Arg.time from_, Arg.time to_, Arg.str itemType])) ∧
    (buildAnalyticsWhere from_ to_ itemType).2.take 2 = [Arg.time from_, Arg.time to_] ∧
    (buildAnalyticsWhere from_ to_ itemType).2.length = (if itemType = "" then 2 else 3) ∧
    (buildAnalyticsWhere from_ to_ itemType).1 =
      "WHERE date >= $1 AND date <= $2" ++
        (if itemType = "" then ""
          else " AND type = $" ++ toString (buildAnalyticsWhere from_ to_ itemType).2.length) := by
  by_cases h : itemType = ""
  · subst h
    refine ⟨fun _ => ?_, fun h => absurd rfl h, ?_, ?_, ?_⟩ <;>
      simp [buildAnalyticsWhere] <;> decide
  · have e : buildAnalyticsWhere from_ to_ itemType =
        ("WHERE date >= $1 AND date <= $2 AND type = $3",
          [Arg.time from_, Arg.time to_, Arg.str itemType]) := by
      simp only [buildAnalyticsWhere, ne_eq, h, not_false_eq_true, if_true, List.length_cons,
        List.length_nil, List.cons_append, List.nil_append, Prod.mk.injEq, and_true]
      decide
    refine ⟨fun h0 => absurd h0 h, fun _ => e, ?_, ?_, ?_⟩
    · rw [e]; rfl
    · rw [e, if_neg h]; rfl
    · rw [e, if_neg h]
      simp only [List.length_cons, List.length_nil]
      decide


/-! ## Properties of the error classification, the services and the handlers -/

/-- The error is or wraps the target exactly when the target is the sentinel at
the bottom of its unwrap chain. -/
theorem GoError.Is_iff_root (e : GoError) (t : DomainError) :
    e.Is t = true ↔ e.root = some t := by
  induction e with
  | sentinel d => simp [GoError.Is, GoError.root]
  | errorf f a => simp [GoError.Is, GoError.root]
  | wrapf f inner ih => simpa [GoError.Is, GoError.root] using ih

/-- The classification of an error by the sentinel it is or wraps. -/
theorem IsValidationError_iff_root (e : GoError) :
    IsValidationError (some e) = true ↔ ∃ d, e.root = some d ∧ d ∈ validationErrors := by
  simp only [IsValidationError, errorsIs, List.any_eq_true, GoError.Is_iff_root]
  constructor
  · rintro ⟨d, hd, hr⟩
    exact ⟨d, hr, hd⟩
  · rintro ⟨d, hr, hd⟩
    exact ⟨d, hd, hr⟩

/-- An error whose bottom sentinel, if any, is outside `validationErrors` is
not a validation error. -/
theorem IsValidationError_eq_false (e : GoError)
    (h : ∀ d, e.root = some d → d ∉ validationErrors) :
    IsValidationError (some e) = false := by
  rw [Bool.eq_false_iff, Ne, IsValidationError_iff_root]
  rintro ⟨d, hr, hd⟩
  exact h d hr hd

/-- The lookup in `allowedGroupBy`, resolved key by key. -/
theorem allowedGroupBy_lookup (s : String) :
    allowedGroupBy.lookup s =
      if s = "day" then some ⟨"date::text", "date", "date"⟩
      else if s = "week" then
        some ⟨"DATE_TRUNC(\x27week\x27, date)::date::text",
          "DATE_TRUNC(\x27week\x27, date)", "DATE_TRUNC(\x27week\x27, date)"⟩
      else if s = "month" then
        some ⟨"DATE_TRUNC(\x27month\x27, date)::date::text",
          "DATE_TRUNC(\x27month\x27, date)", "DATE_TRUNC(\x27month\x27, date)"⟩
      else if s = "category" then some ⟨"category", "category", "category"⟩
      else none := by
  by_cases h1 : s = "day"
  · subst h1; rfl
  by_cases h2 : s = "week"
  · subst h2; rfl
  by_cases h3 : s = "month"
  · subst h3; rfl
  by_cases h4 : s = "category"
  · subst h4; rfl
  have b1 : (s == "day") = false := beq_eq_false_iff_ne.mpr h1
  have b2 : (s == "week") = false := beq_eq_false_iff_ne.mpr h2
  have b3 : (s == "month") = false := beq_eq_false_iff_ne.mpr h3
  have b4 : (s == "category") = false := beq_eq_false_iff_ne.mpr h4
  simp only [allowedGroupBy, List.lookup, b1, b2, b3, b4, h1, h2, h3, h4, if_false]

/-- The keys of `allowedGroupBy`. -/
theorem allowedGroupBy_isSome (s : String) :
    (allowedGroupBy.lookup s).isSome = true ↔
      s = "day" ∨ s = "week" ∨ s = "month" ∨ s = "category" := by
  rw [allowedGroupBy_lookup]
  by_cases h1 : s = "day"
  · simp [h1]
  by_cases h2 : s = "week"
  · simp [h2]
  by_cases h3 : s = "month"
  · simp [h3]
  by_cases h4 : s = "category"
  · simp [h4]
  simp [h1, h2, h3, h4]

/-- C11: for a groupBy that is none of day, week, month, category (the empty
string included), AggregateGrouped returns a nil group list and an error
without issuing a query, and the error is not a validation error. -/
theorem AggregateGrouped_unsupported
    (query : String → List Arg → Except GoError (Cursor GroupedAnalytics))
    (from_ to_ : Time) (groupBy itemType : String)
    (h : groupBy ≠ "day" ∧ groupBy ≠ "week" ∧ groupBy ≠ "month" ∧ groupBy ≠ "category") :
    AnalyticsRepo.AggregateGrouped query from_ to_ groupBy itemType =
      ((none, some (GoError.errorf "unsupported group_by value: %q" [groupBy])), []) ∧
    (AnalyticsRepo.AggregateGrouped query from_ to_ groupBy itemType).1.1 = none ∧
    (AnalyticsRepo.AggregateGrouped query from_ to_ groupBy itemType).1.2 ≠ none ∧
    (AnalyticsRepo.AggregateGrouped query from_ to_ groupBy itemType).2 = [] ∧
    IsValidationError (AnalyticsRepo.AggregateGrouped query from_ to_ groupBy itemType).1.2
      = false := by
  have hl : allowedGroupBy.lookup groupBy = none := by
    rw [allowedGroupBy_lookup, if_neg h.1, if_neg h.2.1, if_neg h.2.2.1, if_neg h.2.2.2]
  have e : AnalyticsRepo.AggregateGrouped query from_ to_ groupBy itemType =
      ((none, some (GoError.errorf "unsupported group_by value: %q" [groupBy])), []) := by
    unfold AnalyticsRepo.AggregateGrouped
    rw [hl]
  refine ⟨e, ?_, ?_, ?_, ?_⟩
  · rw [e]
  · rw [e]; simp
  · rw [e]
  · rw [e]
    apply IsValidationError_eq_false
    intro d hd
    simp [GoError.root] at hd

/-- Witness for C11: the empty group key, against a store that would answer. -/
theorem AggregateGrouped_unsupported_witness :
    (AnalyticsRepo.AggregateGrouped (fun _ _ => Except.ok ⟨[], none⟩) ⟨1, 0⟩ ⟨2, 0⟩ "" "income").2
      = [] :=
  (AggregateGrouped_unsupported (fun _ _ => Except.ok ⟨[], none⟩) ⟨1, 0⟩ ⟨2, 0⟩ "" "income"
    (by decide)).2.2.2.1


/-- A group key that passes the analytics validator is empty or allow-listed. -/
theorem AnalyticsFilter.Validate_none_groupBy (f : AnalyticsFilter) (h : f.Validate = none) :
    f.GroupBy = "" ∨ f.GroupBy = "day" ∨ f.GroupBy = "week" ∨ f.GroupBy = "month" ∨
      f.GroupBy = "category" := by
  unfold AnalyticsFilter.Validate at h
  simp only [GroupByDay, GroupByWeek, GroupByMonth, GroupByCategory] at h
  split_ifs at h with h1 h2 h3 h4
  tauto

/-- A sort key that passes the listing validator is empty or allow-listed. -/
theorem ItemFilter.Validate_none_sortBy (f : ItemFilter) (h : f.Validate = none) :
    f.SortBy = "" ∨ f.SortBy = "date" ∨ f.SortBy = "amount" ∨ f.SortBy = "category" ∨
      f.SortBy = "type" := by
  unfold ItemFilter.Validate at h
  simp only [SortByDate, SortByAmount, SortByCategory, SortByType] at h
  split_ifs at h with h1 h2 h3
  tauto

/-- Every error of the analytics validator is in `validationErrors`. -/
theorem AnalyticsFilter_Validate_mem (f : AnalyticsFilter) (d : DomainError)
    (h : f.Validate = some d) : d ∈ validationErrors := by
  unfold AnalyticsFilter.Validate at h
  split_ifs at h <;> (cases h; decide)

/-- Every error of the listing validator is in `validationErrors`. -/
theorem ItemFilter_Validate_mem (f : ItemFilter) (d : DomainError)
    (h : f.Validate = some d) : d ∈ validationErrors := by
  unfold ItemFilter.Validate at h
  split_ifs at h
  · cases h; decide
  · cases h; decide
  · cases h; decide
  · split at h
    · split_ifs at h
      cases h; decide
    · cases h

/-- A validator error, bare or wrapped once by a service, is a validation
error and still is the validator's error. -/
theorem IsValidationError_wrapped (d : DomainError) (hd : d ∈ validationErrors)
    (format : String) :
    IsValidationError (some (GoError.sentinel d)) = true ∧
    IsValidationError (some (GoError.wrapf format (GoError.sentinel d))) = true ∧
    errorsIs (some (GoError.wrapf format (GoError.sentinel d))) d = true := by
  refine ⟨?_, ?_, ?_⟩
  · exact (IsValidationError_iff_root _).mpr ⟨d, rfl, hd⟩
  · exact (IsValidationError_iff_root _).mpr ⟨d, rfl, hd⟩
  · simp [errorsIs, GoError.Is]

/-- With an allow-listed group key AggregateGrouped goes to the store: it
issues exactly one query. -/
theorem AggregateGrouped_issues_query
    (query : String → List Arg → Except GoError (Cursor GroupedAnalytics))
    (from_ to_ : Time) (groupBy itemType : String)
    (h : (allowedGroupBy.lookup groupBy).isSome = true) :
    (AnalyticsRepo.AggregateGrouped query from_ to_ groupBy itemType).2.length = 1 := by
  obtain ⟨gb, hgb⟩ := Option.isSome_iff_exists.mp h
  unfold AnalyticsRepo.AggregateGrouped
  rw [hgb]
  simp only []
  split
  · rfl
  · split
    · rfl
    · split <;> rfl

/-- The calls `GetAnalytics` makes once the filter has passed validation. -/
theorem GetAnalytics_calls {σ : Type} (repo : analyticsRepository σ) (s : σ)
    (f : AnalyticsFilter) (hv : f.Validate = none) :
    (AnalyticsService.GetAnalytics repo s f).calls =
        [AnalyticsRepoCall.Aggregate f.From f.To f.Type_] ∨
    (f.GroupBy ≠ "" ∧
      (AnalyticsService.GetAnalytics repo s f).calls =
        [AnalyticsRepoCall.Aggregate f.From f.To f.Type_,
          AnalyticsRepoCall.AggregateGrouped f.From f.To f.GroupBy f.Type_]) := by
  unfold AnalyticsService.GetAnalytics
  rw [hv]
  simp only []
  split
  · exact Or.inl rfl
  · split_ifs with hg
    · split
      · exact Or.inr ⟨hg, rfl⟩
      · exact Or.inr ⟨hg, rfl⟩
    · exact Or.inl rfl

/-- C12: the validators and the allow-lists agree. A non-empty GroupBy passes
the analytics validator exactly when it is a key of allowedGroupBy, so after
validation every AggregateGrouped call of GetAnalytics carries an allow-listed
key and the repository goes to the store instead of failing on the key; a
non-empty SortBy passes the listing validator exactly when it is a key of
allowedSortColumns. -/
theorem validators_agree_with_allowlists :
    (∀ f : AnalyticsFilter, f.Validate = none → f.GroupBy ≠ "" →
      f.GroupBy ∈ allowedGroupBy.map Prod.fst) ∧
    (∀ g ∈ allowedGroupBy.map Prod.fst,
      g ≠ "" ∧ (AnalyticsFilter.mk ⟨1, 0⟩ ⟨1, 0⟩ g "").Validate = none) ∧
    (∀ (σ : Type) (repo : analyticsRepository σ) (s : σ) (f : AnalyticsFilter),
      f.Validate = none → ∀ a b g t,
        AnalyticsRepoCall.AggregateGrouped a b g t ∈
          (AnalyticsService.GetAnalytics repo s f).calls →
        (allowedGroupBy.lookup g).isSome = true ∧
        ∀ query, (AnalyticsRepo.AggregateGrouped query a b g t).2.length = 1) ∧
    (∀ f : ItemFilter, f.Validate = none → f.SortBy ≠ "" →
      f.SortBy ∈ allowedSortColumns.map Prod.fst) ∧
    (∀ k ∈ allowedSortColumns.map Prod.fst,
      k ≠ "" ∧ (ItemFilter.mk none none "" "" k "" 0 0 false).Validate = none) := by
  have keysG : ∀ g : String, g ∈ allowedGroupBy.map Prod.fst ↔
      g = "day" ∨ g = "week" ∨ g = "month" ∨ g = "category" := by
    intro g
    simp only [allowedGroupBy, List.map, List.mem_cons, List.mem_singleton,
      List.not_mem_nil, or_false]
  refine ⟨?_, ?_, ?_, ?_, ?_⟩
  · intro f hv hne
    rw [keysG]
    rcases AnalyticsFilter.Validate_none_groupBy f hv with h | h
    · exact absurd h hne
    · exact h
  · intro g hg
    rw [keysG] at hg
    rcases hg with h | h | h | h <;> subst h <;> decide
  · intro σ repo s f hv a b g t hmem
    have hg : f.GroupBy ≠ "" ∧ g = f.GroupBy := by
      rcases GetAnalytics_calls repo s f hv with h | ⟨hne, h⟩
      · rw [h] at hmem
        simp at hmem
      · rw [h] at hmem
        simp at hmem
        exact ⟨hne, hmem.2.2.1⟩
    have hk : (allowedGroupBy.lookup g).isSome = true := by
      rw [allowedGroupBy_isSome, hg.2]
      rcases AnalyticsFilter.Validate_none_groupBy f hv with h | h
      · exact absurd h hg.1
      · exact h
    exact ⟨hk, fun query => AggregateGrouped_issues_query query a b g t hk⟩
  · intro f hv hne
    rw [allowedSortColumns_keys]
    rcases ItemFilter.Validate_none_sortBy f hv with h | h
    · exact absurd h hne
    · exact h
  · intro k hk
    rw [allowedSortColumns_keys] at hk
    rcases hk with h | h | h | h <;> subst h <;> decide


/-- C13: for a filter that fails validation GetAnalytics returns the zero
AnalyticsResult and the validator's error wrapped once, which is a validation
error, and calls neither Aggregate nor AggregateGrouped: no call is made and
the repository state is untouched. -/
theorem GetAnalytics_invalid_filter {σ : Type} (repo : analyticsRepository σ) (s : σ)
    (filter : AnalyticsFilter) (err : DomainError) (h : filter.Validate = some err) :
    (AnalyticsService.GetAnalytics repo s filter).result =
      (AnalyticsResult.zero,
        some (GoError.wrapf "validate analytics filter: %w" (GoError.sentinel err))) ∧
    (AnalyticsService.GetAnalytics repo s filter).calls = [] ∧
    (AnalyticsService.GetAnalytics repo s filter).state = s ∧
    errorsIs (AnalyticsService.GetAnalytics repo s filter).result.2 err = true ∧
    IsValidationError (AnalyticsService.GetAnalytics repo s filter).result.2 = true := by
  have e : AnalyticsService.GetAnalytics repo s filter =
      { result := (AnalyticsResult.zero,
          some (GoError.wrapf "validate analytics filter: %w" (GoError.sentinel err))),
        state := s, calls := [] } := by
    unfold AnalyticsService.GetAnalytics
    rw [h]
  have w := IsValidationError_wrapped err (AnalyticsFilter_Validate_mem filter err h)
    "validate analytics filter: %w"
  rw [e]
  exact ⟨rfl, rfl, rfl, w.2.2, w.2.1⟩

/-- Witness for C13: the filter with zero dates, as in the test of the
service. -/
theorem GetAnalytics_invalid_filter_witness :
    (AnalyticsService.GetAnalytics
        (stubAnalyticsRepository (AnalyticsResult.zero, none) (none, none)) ()
        { From := ⟨0, 0⟩, To := ⟨0, 0⟩, GroupBy := "", Type_ := "" }).calls = [] :=
  (GetAnalytics_invalid_filter
    (stubAnalyticsRepository (AnalyticsResult.zero, none) (none, none)) ()
    { From := ⟨0, 0⟩, To := ⟨0, 0⟩, GroupBy := "", Type_ := "" }
    DomainError.ErrInvalidDate (by decide)).2.1

/-- C14: for a valid filter, when Aggregate fails with e GetAnalytics returns
the zero result and exactly e and does not call AggregateGrouped; when
Aggregate succeeds, GroupBy is set and AggregateGrouped fails with e, it returns
the zero result and exactly e. -/
theorem GetAnalytics_repo_error {σ : Type} (repo : analyticsRepository σ) (s : σ)
    (filter : AnalyticsFilter) (hv : filter.Validate = none) :
    (∀ e, (repo.Aggregate s filter.From filter.To filter.Type_).1.2 = some e →
      (AnalyticsService.GetAnalytics repo s filter).result = (AnalyticsResult.zero, some e) ∧
      (AnalyticsService.GetAnalytics repo s filter).calls =
        [AnalyticsRepoCall.Aggregate filter.From filter.To filter.Type_]) ∧
    (∀ e, (repo.Aggregate s filter.From filter.To filter.Type_).1.2 = none →
      filter.GroupBy ≠ "" →
      (repo.AggregateGrouped (repo.Aggregate s filter.From filter.To filter.Type_).2
        filter.From filter.To filter.GroupBy filter.Type_).1.2 = some e →
      (AnalyticsService.GetAnalytics repo s filter).result = (AnalyticsResult.zero, some e) ∧
      (AnalyticsService.GetAnalytics repo s filter).calls =
        [AnalyticsRepoCall.Aggregate filter.From filter.To filter.Type_,
          AnalyticsRepoCall.AggregateGrouped filter.From filter.To filter.GroupBy
            filter.Type_]) := by
  constructor
  · intro e he
    have q : AnalyticsService.GetAnalytics repo s filter =
        { result := (AnalyticsResult.zero, some e),
          state := (repo.Aggregate s filter.From filter.To filter.Type_).2,
          calls := [AnalyticsRepoCall.Aggregate filter.From filter.To filter.Type_] } := by
      unfold AnalyticsService.GetAnalytics
      rw [hv]
      simp only [he]
    rw [q]
    exact ⟨rfl, rfl⟩
  · intro e h1 hg h2
    have q : AnalyticsService.GetAnalytics repo s filter =
        { result := (AnalyticsResult.zero, some e),
          state := (repo.AggregateGrouped
            (repo.Aggregate s filter.From filter.To filter.Type_).2
            filter.From filter.To filter.GroupBy filter.Type_).2,
          calls := [AnalyticsRepoCall.Aggregate filter.From filter.To filter.Type_,
            AnalyticsRepoCall.AggregateGrouped filter.From filter.To filter.GroupBy
              filter.Type_] } := by
      unfold AnalyticsService.GetAnalytics
      rw [hv]
      simp only [h1, hg, h2, ne_eq, not_false_eq_true, if_true]
    rw [q]
    exact ⟨rfl, rfl⟩

/-- Witness for C14: a store failure in the grouped step, after a scalar step
that returned a non-zero result. -/
theorem GetAnalytics_repo_error_witness :
    (AnalyticsService.GetAnalytics
        (stubAnalyticsRepository
          ({ AnalyticsResult.zero with Count := 3 }, none)
          (none, some (GoError.errorf "grouped query failed" []))) ()
        { From := ⟨10, 0⟩, To := ⟨20, 0⟩, GroupBy := "day", Type_ := "" }).result
      = (AnalyticsResult.zero, some (GoError.errorf "grouped query failed" [])) :=
  ((GetAnalytics_repo_error
    (stubAnalyticsRepository
      ({ AnalyticsResult.zero with Count := 3 }, none)
      (none, some (GoError.errorf "grouped query failed" []))) ()
    { From := ⟨10, 0⟩, To := ⟨20, 0⟩, GroupBy := "day", Type_ := "" } (by decide)).2
      (GoError.errorf "grouped query failed" []) rfl (by decide) rfl).1

/-- Counterexample to C15 as stated: a repository whose Aggregate succeeds
with a result that already carries a group list; with GroupBy empty the
service hands that result back, group list included. -/
theorem GetAnalytics_no_groups_counterexample :
    (AnalyticsFilter.mk ⟨10, 0⟩ ⟨20, 0⟩ "" "").Validate = none ∧
    (AnalyticsService.GetAnalytics
        (stubAnalyticsRepository
          ({ AnalyticsResult.zero with Groups := some [⟨"k", ⟨1, 0⟩, ⟨1, 0⟩, 1, ⟨1, 0⟩, ⟨1, 0⟩⟩] },
            none)
          (none, none)) ()
        (AnalyticsFilter.mk ⟨10, 0⟩ ⟨20, 0⟩ "" "")).result.2 = none ∧
    (AnalyticsService.GetAnalytics
        (stubAnalyticsRepository
          ({ AnalyticsResult.zero with Groups := some [⟨"k", ⟨1, 0⟩, ⟨1, 0⟩, 1, ⟨1, 0⟩, ⟨1, 0⟩⟩] },
            none)
          (none, none)) ()
        (AnalyticsFilter.mk ⟨10, 0⟩ ⟨20, 0⟩ "" "")).result.1.Groups ≠ none := by
  decide

/-- C15, amended: for a valid filter and a repository whose calls succeed.
With GroupBy empty, GetAnalytics calls Aggregate only and returns its result
unchanged, so the result carries a group list only if that of Aggregate does
(that of AnalyticsRepo.Aggregate never does). With GroupBy set it calls
Aggregate, then AggregateGrouped, and returns the result of Aggregate with
Groups replaced by the list of AggregateGrouped, the other five fields
unchanged. Both calls receive From, To and Type of the filter. -/
theorem GetAnalytics_success {σ : Type} (repo : analyticsRepository σ) (s : σ)
    (filter : AnalyticsFilter) (hv : filter.Validate = none)
    (h1 : (repo.Aggregate s filter.From filter.To filter.Type_).1.2 = none) :
    (filter.GroupBy = "" →
      (AnalyticsService.GetAnalytics repo s filter).result =
        ((repo.Aggregate s filter.From filter.To filter.Type_).1.1, none) ∧
      (AnalyticsService.GetAnalytics repo s filter).calls =
        [AnalyticsRepoCall.Aggregate filter.From filter.To filter.Type_] ∧
      ((repo.Aggregate s filter.From filter.To filter.Type_).1.1.Groups = none →
        (AnalyticsService.GetAnalytics repo s filter).result.1.Groups = none)) ∧
    (filter.GroupBy ≠ "" →
      (repo.AggregateGrouped (repo.Aggregate s filter.From filter.To filter.Type_).2
        filter.From filter.To filter.GroupBy filter.Type_).1.2 = none →
      (AnalyticsService.GetAnalytics repo s filter).result.2 = none ∧
      (AnalyticsService.GetAnalytics repo s filter).result.1.Groups =
        (repo.AggregateGrouped (repo.Aggregate s filter.From filter.To filter.Type_).2
          filter.From filter.To filter.GroupBy filter.Type_).1.1 ∧
      (AnalyticsService.GetAnalytics repo s filter).result.1.TotalSum =
        (repo.Aggregate s filter.From filter.To filter.Type_).1.1.TotalSum ∧
      (AnalyticsService.GetAnalytics repo s filter).result.1.Avg =
        (repo.Aggregate s filter.From filter.To filter.Type_).1.1.Avg ∧
      (AnalyticsService.GetAnalytics repo s filter).result.1.Count =
        (repo.Aggregate s filter.From filter.To filter.Type_).1.1.Count ∧
      (AnalyticsService.GetAnalytics repo s filter).result.1.Median =
        (repo.Aggregate s filter.From filter.To filter.Type_).1.1.Median ∧
      (AnalyticsService.GetAnalytics repo s filter).result.1.P90 =
        (repo.Aggregate s filter.From filter.To filter.Type_).1.1.P90 ∧
      (AnalyticsService.GetAnalytics repo s filter).calls =
        [AnalyticsRepoCall.Aggregate filter.From filter.To filter.Type_,
          AnalyticsRepoCall.AggregateGrouped filter.From filter.To filter.GroupBy
            filter.Type_]) ∧
    (∀ queryRow a b t, (AnalyticsRepo.Aggregate queryRow a b t).1.1.Groups = none) := by
  refine ⟨?_, ?_, ?_⟩
  · intro hg
    have e : AnalyticsService.GetAnalytics repo s filter =
        { result := ((repo.Aggregate s filter.From filter.To filter.Type_).1.1, none),
          state := (repo.Aggregate s filter.From filter.To filter.Type_).2,
          calls := [AnalyticsRepoCall.Aggregate filter.From filter.To filter.Type_] } := by
      unfold AnalyticsService.GetAnalytics
      rw [hv]
      simp only [h1, hg, ne_eq, not_true_eq_false, if_false]
    rw [e]
    exact ⟨rfl, rfl, fun h => h⟩
  · intro hg h2
    have e : AnalyticsService.GetAnalytics repo s filter =
        { result :=
            ({ (repo.Aggregate s filter.From filter.To filter.Type_).1.1 with
                Groups := (repo.AggregateGrouped
                  (repo.Aggregate s filter.From filter.To filter.Type_).2
                  filter.From filter.To filter.GroupBy filter.Type_).1.1 }, none),
          state := (repo.AggregateGrouped
            (repo.Aggregate s filter.From filter.To filter.Type_).2
            filter.From filter.To filter.GroupBy filter.Type_).2,
          calls := [AnalyticsRepoCall.Aggregate filter.From filter.To filter.Type_,
            AnalyticsRepoCall.AggregateGrouped filter.From filter.To filter.GroupBy
              filter.Type_] } := by
      unfold AnalyticsService.GetAnalytics
      rw [hv]
      simp only [h1, hg, h2, ne_eq, not_false_eq_true, if_true]
    rw [e]
    exact ⟨rfl, rfl, rfl, rfl, rfl, rfl, rfl, rfl⟩
  · intro queryRow a b t
    unfold AnalyticsRepo.Aggregate
    simp only []
    split
    · rfl
    · split <;> rfl

/-- Witness for C15: the two-group example of the service test. -/
theorem GetAnalytics_success_witness :
    (AnalyticsService.GetAnalytics
        (stubAnalyticsRepository
          ({ AnalyticsResult.zero with Count := 10 }, none)
          (some [⟨"2024-01", ⟨500, 0⟩, ⟨0, 0⟩, 5, ⟨0, 0⟩, ⟨0, 0⟩⟩,
                 ⟨"2024-02", ⟨500, 0⟩, ⟨0, 0⟩, 5, ⟨0, 0⟩, ⟨0, 0⟩⟩], none)) ()
        { From := ⟨10, 0⟩, To := ⟨20, 0⟩, GroupBy := "month", Type_ := "" }).result.1.Groups
      = some [⟨"2024-01", ⟨500, 0⟩, ⟨0, 0⟩, 5, ⟨0, 0⟩, ⟨0, 0⟩⟩,
              ⟨"2024-02", ⟨500, 0⟩, ⟨0, 0⟩, 5, ⟨0, 0⟩, ⟨0, 0⟩⟩] :=
  ((GetAnalytics_success
    (stubAnalyticsRepository
      ({ AnalyticsResult.zero with Count := 10 }, none)
      (some [⟨"2024-01", ⟨500, 0⟩, ⟨0, 0⟩, 5, ⟨0, 0⟩, ⟨0, 0⟩⟩,
             ⟨"2024-02", ⟨500, 0⟩, ⟨0, 0⟩, 5, ⟨0, 0⟩, ⟨0, 0⟩⟩], none)) ()
    { From := ⟨10, 0⟩, To := ⟨20, 0⟩, GroupBy := "month", Type_ := "" }
    (by decide) rfl).2.1 (by decide) rfl).2.1


/-- C16: when the identifier is not accepted by the parser, GetByID, Update
and Delete fail with exactly ErrInvalidID, make no repository call and leave
the repository state untouched; the outcome does not mention the repository. -/
theorem ItemService_invalid_id {σ : Type} (ParseUUID : String → Option GoError)
    (repo : itemRepository σ) (s : σ) (id : String) (item : Item)
    (hid : ParseUUID id ≠ none) (hitem : ParseUUID item.ID ≠ none) :
    (ItemService.GetByID ParseUUID repo s id).result =
      (Item.zero, some (GoError.sentinel DomainError.ErrInvalidID)) ∧
    (ItemService.GetByID ParseUUID repo s id).calls = [] ∧
    (ItemService.GetByID ParseUUID repo s id).state = s ∧
    (ItemService.Update ParseUUID repo s item).result =
      (Item.zero, some (GoError.sentinel DomainError.ErrInvalidID)) ∧
    (ItemService.Update ParseUUID repo s item).calls = [] ∧
    (ItemService.Update ParseUUID repo s item).state = s ∧
    (ItemService.Delete ParseUUID repo s id).result =
      some (GoError.sentinel DomainError.ErrInvalidID) ∧
    (ItemService.Delete ParseUUID repo s id).calls = [] ∧
    (ItemService.Delete ParseUUID repo s id).state = s := by
  obtain ⟨e1, he1⟩ := Option.ne_none_iff_exists'.mp hid
  obtain ⟨e2, he2⟩ := Option.ne_none_iff_exists'.mp hitem
  unfold ItemService.GetByID ItemService.Update ItemService.Delete
  rw [he1, he2]
  exact ⟨rfl, rfl, rfl, rfl, rfl, rfl, rfl, rfl, rfl⟩

/-- Witness for C16: the identifiers `bad-id` and `not-a-uuid` against the
canonical-form parser and a repository that would succeed. -/
theorem ItemService_invalid_id_witness :
    (ItemService.GetByID canonicalUUID (stubItemRepository Item.zero) () "bad-id").result =
      (Item.zero, some (GoError.sentinel DomainError.ErrInvalidID)) :=
  (ItemService_invalid_id canonicalUUID (stubItemRepository Item.zero) () "bad-id"
    { Item.zero with ID := "not-a-uuid" } (by decide) (by decide)).1

/-- C17: when the identifier is accepted by the parser, GetByID, Update and
Delete make the one repository call and return what it returns: on success its
item, on failure its error unchanged (ErrItemNotFound included); ErrItemNotFound
and ErrInvalidID are different errors and neither is the other. -/
theorem ItemService_valid_id {σ : Type} (ParseUUID : String → Option GoError)
    (repo : itemRepository σ) (s : σ) (id : String) (item : Item)
    (hid : ParseUUID id = none) (hitem : ParseUUID item.ID = none) :
    ((repo.GetByID s id).1.2 = none →
      (ItemService.GetByID ParseUUID repo s id).result = ((repo.GetByID s id).1.1, none)) ∧
    (∀ e, (repo.GetByID s id).1.2 = some e →
      (ItemService.GetByID ParseUUID repo s id).result = (Item.zero, some e)) ∧
    (ItemService.GetByID ParseUUID repo s id).calls = [ItemRepoCall.GetByID id] ∧
    ((repo.Update s item).1.2 = none →
      (ItemService.Update ParseUUID repo s item).result = ((repo.Update s item).1.1, none)) ∧
    (∀ e, (repo.Update s item).1.2 = some e →
      (ItemService.Update ParseUUID repo s item).result = (Item.zero, some e)) ∧
    (ItemService.Update ParseUUID repo s item).calls = [ItemRepoCall.Update item] ∧
    (ItemService.Delete ParseUUID repo s id).result = (repo.Delete s id).1 ∧
    (ItemService.Delete ParseUUID repo s id).calls = [ItemRepoCall.Delete id] ∧
    GoError.sentinel DomainError.ErrItemNotFound ≠ GoError.sentinel DomainError.ErrInvalidID ∧
    (GoError.sentinel DomainError.ErrItemNotFound).Is DomainError.ErrInvalidID = false ∧
    (GoError.sentinel DomainError.ErrInvalidID).Is DomainError.ErrItemNotFound = false := by
  unfold ItemService.GetByID ItemService.Update ItemService.Delete
  rw [hid, hitem]
  refine ⟨?_, ?_, ?_, ?_, ?_, ?_, ?_, ?_, by decide, by decide, by decide⟩
  · intro h
    simp only [h]
  · intro e h
    simp only [h]
  · simp only []
    split <;> rfl
  · intro h
    simp only [h]
  · intro e h
    simp only [h]
  · simp only []
    split <;> rfl
  · simp only []
    split
    · rename_i e h
      rw [h]
    · rename_i h
      rw [h]
  · simp only []
    split <;> rfl

/-- Witness for C17: a well-formed identifier the store does not know. -/
theorem ItemService_valid_id_witness :
    (ItemService.GetByID canonicalUUID
        (failingItemRepository Item.zero (GoError.sentinel DomainError.ErrItemNotFound)) ()
        "550e8400-e29b-41d4-a716-446655440000").result =
      (Item.zero, some (GoError.sentinel DomainError.ErrItemNotFound)) :=
  (ItemService_valid_id canonicalUUID
    (failingItemRepository Item.zero (GoError.sentinel DomainError.ErrItemNotFound)) ()
    "550e8400-e29b-41d4-a716-446655440000"
    { Item.zero with ID := "550e8400-e29b-41d4-a716-446655440000" }
    (by decide) (by decide)).2.1 (GoError.sentinel DomainError.ErrItemNotFound) rfl

/-- C18: IsValidationError holds exactly of the errors that are or wrap one of
the ten validation sentinels; it fails for nil, for ErrItemNotFound and what
wraps it, and for every error that wraps no sentinel; every error of the two
validators is a validation error, bare and as the services wrap it. -/
theorem IsValidationError_spec :
    (∀ err : Option GoError, IsValidationError err = true ↔
      ∃ e d, err = some e ∧ e.root = some d ∧
        d ∈ [DomainError.ErrValidation, DomainError.ErrInvalidType,
          DomainError.ErrInvalidAmount, DomainError.ErrEmptyCategory,
          DomainError.ErrInvalidDate, DomainError.ErrInvalidID,
          DomainError.ErrInvalidSortBy, DomainError.ErrInvalidOrder,
          DomainError.ErrInvalidGroupBy, DomainError.ErrInvalidDateRange]) ∧
    IsValidationError none = false ∧
    (∀ e : GoError, e.root = some DomainError.ErrItemNotFound →
      IsValidationError (some e) = false) ∧
    (∀ e : GoError, e.root = none → IsValidationError (some e) = false) ∧
    (∀ (f : ItemFilter) (d : DomainError), f.Validate = some d →
      IsValidationError (validatorError f.Validate) = true ∧
      ∀ (σ : Type) (repo : itemRepository σ) (s : σ),
        IsValidationError (ItemService.List repo s f).result.2.2 = true) ∧
    (∀ (f : AnalyticsFilter) (d : DomainError), f.Validate = some d →
      IsValidationError (validatorError f.Validate) = true ∧
      ∀ (σ : Type) (repo : analyticsRepository σ) (s : σ),
        IsValidationError (AnalyticsService.GetAnalytics repo s f).result.2 = true) := by
  refine ⟨?_, by decide, ?_, ?_, ?_, ?_⟩
  · intro err
    cases err with
    | none =>
      constructor
      · intro h
        exact absurd h (by decide)
      · rintro ⟨e, d, h, _⟩
        cases h
    | some e =>
      rw [IsValidationError_iff_root]
      constructor
      · rintro ⟨d, hr, hd⟩
        exact ⟨e, d, rfl, hr, hd⟩
      · rintro ⟨e2, d, h, hr, hd⟩
        cases h
        exact ⟨d, hr, hd⟩
  · intro e h
    apply IsValidationError_eq_false
    intro d hd
    rw [h] at hd
    cases hd
    decide
  · intro e h
    apply IsValidationError_eq_false
    intro d hd
    rw [h] at hd
    cases hd
  · intro f d h
    have hd := ItemFilter_Validate_mem f d h
    refine ⟨?_, ?_⟩
    · rw [h]
      exact (IsValidationError_wrapped d hd "").1
    · intro σ repo s
      unfold ItemService.List
      rw [h]
      exact (IsValidationError_wrapped d hd "validate filter: %w").2.1
  · intro f d h
    have hd := AnalyticsFilter_Validate_mem f d h
    refine ⟨?_, ?_⟩
    · rw [h]
      exact (IsValidationError_wrapped d hd "").1
    · intro σ repo s
      unfold AnalyticsService.GetAnalytics
      rw [h]
      exact (IsValidationError_wrapped d hd "validate analytics filter: %w").2.1


/-- Counterexample to C19 as stated: the filter passes validation and the
repository hands back an item list and a count next to its error; the
service returns a nil list and count 0, not the repository's. -/
theorem ItemService_List_counterexample :
    (ItemFilter.mk none none "" "" "" "" 0 0 false).Validate = none ∧
    ((failingItemRepository Item.zero (GoError.errorf "db connection failed" [])).GetAll ()
        (ItemFilter.mk none none "" "" "" "" 0 0 false)).1 =
      (some [Item.zero], 1, some (GoError.errorf "db connection failed" [])) ∧
    (ItemService.List (failingItemRepository Item.zero (GoError.errorf "db connection failed" []))
        () (ItemFilter.mk none none "" "" "" "" 0 0 false)).result =
      (none, 0, some (GoError.errorf "db connection failed" [])) := by
  decide

/-- C19, amended: for a filter that fails validation List returns a nil item
list, count 0 and the validator's error wrapped once (a validation error)
without calling GetAll. For a filter that passes, it calls GetAll once with
the filter; when GetAll succeeds it returns its items and count unchanged with
a nil error, when GetAll fails it returns its error unchanged with a nil
list and count 0. -/
theorem ItemService_List_spec {σ : Type} (repo : itemRepository σ) (s : σ)
    (filter : ItemFilter) :
    (∀ d, filter.Validate = some d →
      (ItemService.List repo s filter).result =
        (none, 0, some (GoError.wrapf "validate filter: %w" (GoError.sentinel d))) ∧
      (ItemService.List repo s filter).calls = [] ∧
      (ItemService.List repo s filter).state = s ∧
      errorsIs (ItemService.List repo s filter).result.2.2 d = true ∧
      IsValidationError (ItemService.List repo s filter).result.2.2 = true) ∧
    (filter.Validate = none →
      (ItemService.List repo s filter).calls = [ItemRepoCall.GetAll filter] ∧
      (ItemService.List repo s filter).state = (repo.GetAll s filter).2 ∧
      ((repo.GetAll s filter).1.2.2 = none →
        (ItemService.List repo s filter).result =
          ((repo.GetAll s filter).1.1, (repo.GetAll s filter).1.2.1, none)) ∧
      (∀ e, (repo.GetAll s filter).1.2.2 = some e →
        (ItemService.List repo s filter).result = (none, 0, some e))) := by
  constructor
  · intro d h
    have q : ItemService.List repo s filter =
        { result := (none, 0, some (GoError.wrapf "validate filter: %w" (GoError.sentinel d))),
          state := s, calls := [] } := by
      unfold ItemService.List
      rw [h]
    have w := IsValidationError_wrapped d (ItemFilter_Validate_mem filter d h)
      "validate filter: %w"
    rw [q]
    exact ⟨rfl, rfl, rfl, w.2.2, w.2.1⟩
  · intro h
    unfold ItemService.List
    rw [h]
    refine ⟨?_, ?_, ?_, ?_⟩
    · simp only []
      split <;> rfl
    · simp only []
      split <;> rfl
    · intro h2
      simp only [h2]
    · intro e h2
      simp only [h2]

/-- Witness for C19: a filter with type=bad never reaches the repository. -/
theorem ItemService_List_spec_witness :
    (ItemService.List (stubItemRepository Item.zero) ()
        (ItemFilter.mk none none "" "bad" "" "" 0 0 false)).calls = [] :=
  ((ItemService_List_spec (stubItemRepository Item.zero) ()
    (ItemFilter.mk none none "" "bad" "" "" 0 0 false)).1
      DomainError.ErrInvalidType (by decide)).2.1

/-- An error cannot be, or wrap, two different sentinels. -/
theorem GoError.Is_unique (e : GoError) (a b : DomainError)
    (ha : e.Is a = true) (hb : e.Is b = true) : a = b := by
  rw [GoError.Is_iff_root] at ha hb
  rw [ha] at hb
  exact Option.some.inj hb

/-- Counterexample to C20 as stated: the service error of Update is ErrInvalidType,
which is neither ErrItemNotFound nor ErrInvalidID, and the answer is 400, not
500. -/
theorem ItemHandler_Update_counterexample :
    errorsIs (some (GoError.sentinel DomainError.ErrInvalidType))
      DomainError.ErrItemNotFound = false ∧
    errorsIs (some (GoError.sentinel DomainError.ErrInvalidType))
      DomainError.ErrInvalidID = false ∧
    (ItemHandler.Update (failingItemService (GoError.sentinel DomainError.ErrInvalidType)) ()
      (Except.ok Item.zero)).1.code = 400 := by
  decide

/-- C20, amended: in GetByID and Delete a service error that is
ErrItemNotFound is answered with 404, one that is ErrInvalidID with 400, every
other with 500. In Update a service error that is ErrItemNotFound is answered
with 404, every other validation error (ErrInvalidID among them) with 400, and
every error that is neither with 500. So ErrItemNotFound and ErrInvalidID
never share a status code. -/
theorem ItemHandler_status_codes {σ : Type} (svc : itemService σ) (s : σ)
    (id : String) (item : Item) :
    (∀ e, (svc.GetByID s id).1.2 = some e →
      (e.Is DomainError.ErrItemNotFound = true →
        (ItemHandler.GetByID svc s id).1.code = 404) ∧
      (e.Is DomainError.ErrInvalidID = true →
        (ItemHandler.GetByID svc s id).1.code = 400) ∧
      (e.Is DomainError.ErrItemNotFound = false → e.Is DomainError.ErrInvalidID = false →
        (ItemHandler.GetByID svc s id).1.code = 500)) ∧
    (∀ e, (svc.Delete s id).1 = some e →
      (e.Is DomainError.ErrItemNotFound = true →
        (ItemHandler.Delete svc s id).1.code = 404) ∧
      (e.Is DomainError.ErrInvalidID = true →
        (ItemHandler.Delete svc s id).1.code = 400) ∧
      (e.Is DomainError.ErrItemNotFound = false → e.Is DomainError.ErrInvalidID = false →
        (ItemHandler.Delete svc s id).1.code = 500)) ∧
    (∀ e, (svc.Update s item).1.2 = some e →
      (e.Is DomainError.ErrItemNotFound = true →
        (ItemHandler.Update svc s (Except.ok item)).1.code = 404) ∧
      (e.Is DomainError.ErrInvalidID = true →
        (ItemHandler.Update svc s (Except.ok item)).1.code = 400) ∧
      (IsValidationError (some e) = true →
        (ItemHandler.Update svc s (Except.ok item)).1.code = 400) ∧
      (e.Is DomainError.ErrItemNotFound = false → IsValidationError (some e) = false →
        (ItemHandler.Update svc s (Except.ok item)).1.code = 500)) := by
  have hne : ∀ e : GoError, e.Is DomainError.ErrInvalidID = true →
      e.Is DomainError.ErrItemNotFound = false := by
    intro e h
    rw [Bool.eq_false_iff]
    intro h2
    exact absurd (GoError.Is_unique e _ _ h h2) (by decide)
  have hv : ∀ e : GoError, IsValidationError (some e) = true →
      e.Is DomainError.ErrItemNotFound = false := by
    intro e h
    rw [Bool.eq_false_iff]
    intro h2
    obtain ⟨d, hr, hd⟩ := (IsValidationError_iff_root e).mp h
    rw [GoError.Is_iff_root, hr] at h2
    cases h2
    exact absurd hd (by decide)
  have hid : ∀ e : GoError, e.Is DomainError.ErrInvalidID = true →
      IsValidationError (some e) = true := by
    intro e h
    exact (IsValidationError_iff_root e).mpr
      ⟨DomainError.ErrInvalidID, (GoError.Is_iff_root e _).mp h, by decide⟩
  refine ⟨?_, ?_, ?_⟩
  · intro e he
    unfold ItemHandler.GetByID
    simp only [he, errorsIs]
    refine ⟨?_, ?_, ?_⟩
    · intro h
      simp [h, respondError, StatusNotFound]
    · intro h
      simp [h, hne e h, respondError, StatusBadRequest]
    · intro h1 h2
      simp [h1, h2, respondError, StatusInternalServerError]
  · intro e he
    unfold ItemHandler.Delete
    simp only [he, errorsIs]
    refine ⟨?_, ?_, ?_⟩
    · intro h
      simp [h, respondError, StatusNotFound]
    · intro h
      simp [h, hne e h, respondError, StatusBadRequest]
    · intro h1 h2
      simp [h1, h2, respondError, StatusInternalServerError]
  · intro e he
    unfold ItemHandler.Update
    simp only [he, errorsIs]
    refine ⟨?_, ?_, ?_, ?_⟩
    · intro h
      simp [h, respondError, StatusNotFound]
    · intro h
      simp [hne e h, hid e h, respondError, StatusBadRequest]
    · intro h
      simp [hv e h, h, respondError, StatusBadRequest]
    · intro h1 h2
      simp [h1, h2, respondError, StatusInternalServerError]

/-- Witness for C20: a service that reports a missing item is answered with
404 by GetByID. -/
theorem ItemHandler_status_codes_witness :
    (ItemHandler.GetByID (failingItemService (GoError.sentinel DomainError.ErrItemNotFound)) ()
      "550e8400-e29b-41d4-a716-446655440000").1.code = 404 :=
  ((ItemHandler_status_codes (failingItemService (GoError.sentinel DomainError.ErrItemNotFound))
    () "550e8400-e29b-41d4-a716-446655440000" Item.zero).1
      (GoError.sentinel DomainError.ErrItemNotFound) rfl).1 (by decide)

/-! ## Properties of the handlers: status codes and message of the 500 response -/

theorem ItemHandler.Create_500 {σ : Type} (parseDate : String → Option Time) (now : Time)
    (svc : itemService σ) (s : σ) (bound : Except GoError CreateItemRequest)
    (h : (ItemHandler.Create parseDate now svc s bound).1.code = 500) :
    (ItemHandler.Create parseDate now svc s bound).1
      = respondError 500 (Message.text "internal server error") := by
  unfold ItemHandler.Create at h ⊢
  dsimp only at h ⊢
  repeat' split
  all_goals simp_all [respondError, StatusBadRequest, StatusInternalServerError, StatusOK,
    StatusNotFound, StatusCreated, StatusNoContent]


theorem ItemHandler.List_500 {σ : Type} (parseDate : String → Option Time)
    (atoi : String → Option Int) (svc : itemService σ) (s : σ) (q : String → String)
    (h : (ItemHandler.List parseDate atoi svc s q).1.code = 500) :
    (ItemHandler.List parseDate atoi svc s q).1
      = respondError 500 (Message.text "internal server error") := by
  unfold ItemHandler.List at h ⊢
  dsimp only at h ⊢
  repeat' split
  all_goals simp_all [respondError, StatusBadRequest, StatusInternalServerError, StatusOK,
    StatusNotFound, StatusCreated, StatusNoContent]


theorem ItemHandler.GetByID_500 {σ : Type} (svc : itemService σ) (s : σ) (id : String)
    (h : (ItemHandler.GetByID svc s id).1.code = 500) :
    (ItemHandler.GetByID svc s id).1
      = respondError 500 (Message.text "internal server error") := by
  unfold ItemHandler.GetByID at h ⊢
  dsimp only at h ⊢
  repeat' split
  all_goals simp_all [respondError, StatusBadRequest, StatusInternalServerError, StatusOK,
    StatusNotFound, StatusCreated, StatusNoContent]


theorem ItemHandler.Update_500 {σ : Type} (svc : itemService σ) (s : σ)
    (decoded : Except Message Item)
    (h : (ItemHandler.Update svc s decoded).1.code = 500) :
    (ItemHandler.Update svc s decoded).1
      = respondError 500 (Message.text "internal server error") := by
  unfold ItemHandler.Update at h ⊢
  dsimp only at h ⊢
  repeat' split
  all_goals simp_all [respondError, StatusBadRequest, StatusInternalServerError, StatusOK,
    StatusNotFound, StatusCreated, StatusNoContent]


theorem ItemHandler.Delete_500 {σ : Type} (svc : itemService σ) (s : σ) (id : String)
    (h : (ItemHandler.Delete svc s id).1.code = 500) :
    (ItemHandler.Delete svc s id).1
      = respondError 500 (Message.text "internal server error") := by
  unfold ItemHandler.Delete at h ⊢
  dsimp only at h ⊢
  repeat' split
  all_goals simp_all [respondError, StatusBadRequest, StatusInternalServerError, StatusOK,
    StatusNotFound, StatusCreated, StatusNoContent]


theorem AnalyticsHandler.Get_500 {σ : Type} (parseDate : String → Option Time)
    (svc : analyticsService σ) (s : σ) (q : String → String)
    (h : (AnalyticsHandler.Get parseDate svc s q).1.code = 500) :
    (AnalyticsHandler.Get parseDate svc s q).1
      = respondError 500 (Message.text "internal server error") := by
  unfold AnalyticsHandler.Get at h ⊢
  dsimp only at h ⊢
  repeat' split
  all_goals simp_all [respondError, StatusBadRequest, StatusInternalServerError, StatusOK,
    StatusNotFound, StatusCreated, StatusNoContent]


theorem ExportHandler.CSV_500 {σ τ : Type} (parseDate : String → Option Time)
    (Format : String → Time → String) (svc : exportItemService σ) (cw : csvWriter τ)
    (s : σ) (w : τ) (q : String → String)
    (h : (ExportHandler.CSV parseDate Format svc cw s w q).1.code = 500) :
    (ExportHandler.CSV parseDate Format svc cw s w q).1
      = respondError 500 (Message.text "internal server error") := by
  unfold ExportHandler.CSV at h ⊢
  dsimp only at h ⊢
  repeat' split
  all_goals simp_all [respondError, StatusBadRequest, StatusInternalServerError, StatusOK,
    StatusNotFound, StatusCreated, StatusNoContent]

/-- C21 (code defect): `ItemHandler.List` and `AnalyticsHandler.Get` answer a
service error that is a validation error with status 400, but
`ExportHandler.CSV` does not: for the request `type=bad` the listing service
returns a validation error, `ItemHandler.List` answers 400 and
`ExportHandler.CSV` answers 500. -/
theorem ExportHandler_CSV_validation_error (parseDate : String → Option Time)
    (atoi : String → Option Int) (Format : String → Time → String)
    (ParseUUID : String → Option GoError) :
    (∀ (σ : Type) (svc : itemService σ) (s : σ) (q : String → String) (err : GoError),
        (parseItemFilter parseDate atoi q).2 = none →
        (svc.List s (parseItemFilter parseDate atoi q).1).1.2.2 = some err →
        IsValidationError (some err) = true →
        (ItemHandler.List parseDate atoi svc s q).1
          = respondError 400 (Message.errorText err)) ∧
    (∀ (σ : Type) (svc : analyticsService σ) (s : σ) (q : String → String) (err : GoError),
        (parseAnalyticsFilter parseDate q).2 = none →
        (svc.GetAnalytics s (parseAnalyticsFilter parseDate q).1).1.2 = some err →
        IsValidationError (some err) = true →
        (AnalyticsHandler.Get parseDate svc s q).1
          = respondError 400 (Message.errorText err)) ∧
    (parseExportFilter parseDate queryTypeBad).2 = none ∧
    ((ItemService.asExportService (stubItemRepository Item.zero)).List ()
        (parseExportFilter parseDate queryTypeBad).1).1.2.2
      = some (GoError.wrapf "validate filter: %w"
          (GoError.sentinel DomainError.ErrInvalidType)) ∧
    IsValidationError (some (GoError.wrapf "validate filter: %w"
      (GoError.sentinel DomainError.ErrInvalidType))) = true ∧
    (ItemHandler.List parseDate atoi
        (ItemService.asItemService ParseUUID (stubItemRepository Item.zero)) ()
        queryTypeBad).1.code = 400 ∧
    (ExportHandler.CSV parseDate Format
        (ItemService.asExportService (stubItemRepository Item.zero)) csvBuffer () ""
        queryTypeBad).1
      = respondError 500 (Message.text "internal server error") := by
  refine ⟨?_, ?_, rfl, rfl, by decide, rfl, rfl⟩
  · intro σ svc s q err hp hs hv
    unfold ItemHandler.List
    simp only [hp, hs, hv, if_true]
    rfl
  · intro σ svc s q err hp hs hv
    unfold AnalyticsHandler.Get
    simp only [hp, hs, hv, if_true]
    rfl

/-- C22: whenever one of the seven handlers answers with status 500, the
response is the fixed one with the message `internal server error`, whatever
error the service returned; so two service errors that are both answered with
500 give identical responses. -/
theorem handlers_500_constant_message {σ τ : Type} (parseDate : String → Option Time)
    (atoi : String → Option Int) (Format : String → Time → String) (now : Time)
    (svc : itemService σ) (asvc : analyticsService σ) (esvc : exportItemService σ)
    (cw : csvWriter τ) (s : σ) (w : τ) (q : String → String) (id : String)
    (boundCreate : Except GoError CreateItemRequest)
    (boundUpdate : Except GoError UpdateItemRequest) :
    ((ItemHandler.Create parseDate now svc s boundCreate).1.code = 500 →
        (ItemHandler.Create parseDate now svc s boundCreate).1
          = respondError 500 (Message.text "internal server error")) ∧
    ((ItemHandler.List parseDate atoi svc s q).1.code = 500 →
        (ItemHandler.List parseDate atoi svc s q).1
          = respondError 500 (Message.text "internal server error")) ∧
    ((ItemHandler.GetByID svc s id).1.code = 500 →
        (ItemHandler.GetByID svc s id).1
          = respondError 500 (Message.text "internal server error")) ∧
    ((ItemHandler.Update svc s
          (ItemHandler.Update_decode parseDate now id boundUpdate)).1.code = 500 →
        (ItemHandler.Update svc s (ItemHandler.Update_decode parseDate now id boundUpdate)).1
          = respondError 500 (Message.text "internal server error")) ∧
    ((ItemHandler.Delete svc s id).1.code = 500 →
        (ItemHandler.Delete svc s id).1
          = respondError 500 (Message.text "internal server error")) ∧
    ((AnalyticsHandler.Get parseDate asvc s q).1.code = 500 →
        (AnalyticsHandler.Get parseDate asvc s q).1
          = respondError 500 (Message.text "internal server error")) ∧
    ((ExportHandler.CSV parseDate Format esvc cw s w q).1.code = 500 →
        (ExportHandler.CSV parseDate Format esvc cw s w q).1
          = respondError 500 (Message.text "internal server error")) :=
  ⟨ItemHandler.Create_500 parseDate now svc s boundCreate,
    ItemHandler.List_500 parseDate atoi svc s q,
    ItemHandler.GetByID_500 svc s id,
    ItemHandler.Update_500 svc s _,
    ItemHandler.Delete_500 svc s id,
    AnalyticsHandler.Get_500 parseDate asvc s q,
    ExportHandler.CSV_500 parseDate Format esvc cw s w q⟩

/-! ## Properties of the request types of dto.go -/

theorem Decimal.IsPositive_iff (d : Decimal) : d.IsPositive = true ↔ 0 < d.toRat := by
  unfold Decimal.IsPositive Decimal.toRat
  have h10 : (0 : ℚ) < (10 : ℚ) ^ d.exp := zpow_pos (by norm_num) _
  rw [decide_eq_true_iff]
  constructor
  · intro h
    exact mul_pos (by exact_mod_cast h) h10
  · intro h
    have := (mul_pos_iff_of_pos_right h10).mp h
    exact_mod_cast this

theorem formatValidationErrors_Is (err : ValidatorError) :
    errorsIs (some (formatValidationErrors err)) DomainError.ErrValidation = true := by
  unfold formatValidationErrors
  split
  · rfl
  · rfl
  · split_ifs <;> rfl

theorem formatValidationErrors_IsValidationError (err : ValidatorError) :
    IsValidationError (some (formatValidationErrors err)) = true := by
  unfold formatValidationErrors
  split
  · rfl
  · rfl
  · split_ifs <;> rfl

theorem validateStruct_none_iff (parseDate : String → Option Time)
    (type_ category description date : String) :
    validateStruct parseDate type_ category description date = none ↔
      (type_ = "income" ∨ type_ = "expense") ∧ category ≠ "" ∧ category.length ≤ 100 ∧
        description.length ≤ 1000 ∧ date ≠ "" ∧ (parseDate date).isSome = true := by
  unfold validateStruct firstFailingTag
  by_cases h1 : type_ = "income" ∨ type_ = "expense"
  · have h0 : type_ ≠ "" := by
      rcases h1 with h | h <;> (subst h; decide)
    by_cases h2 : category = ""
    · simp [List.find?, h0, h1, h2]
    · by_cases h3 : category.length ≤ 100
      · by_cases h4 : description.length ≤ 1000
        · by_cases h5 : date = ""
          · simp [List.find?, h0, h1, h2, h3, h4, h5]
          · by_cases h6 : (parseDate date).isSome = true
            · simp [List.find?, h0, h1, h2, h3, h4, h5, h6]
            · simp [List.find?, h0, h1, h2, h3, h4, h5, h6]
        · simp [List.find?, h0, h1, h2, h3, h4]
      · simp [List.find?, h0, h1, h2, h3]
  · by_cases h0 : type_ = ""
    · simp [List.find?, h0, h1]
    · simp [List.find?, h0, h1]

/-- C23: `CreateItemRequest.Validate` and `UpdateItemRequest.Validate` return
nil exactly when Type is income or expense, Category is non-empty with at most
100 characters, Description has at most 1000 characters, Date is non-empty and
accepted by the date parser, and Amount is greater than zero; every error they
return wraps `ErrValidation`; and the two agree on equal fields. -/
theorem Validate_nil_iff (parseDate : String → Option Time) (r : CreateItemRequest)
    (u : UpdateItemRequest) :
    (r.Validate parseDate = none ↔
      (r.Type_ = "income" ∨ r.Type_ = "expense") ∧ r.Category ≠ "" ∧
        r.Category.length ≤ 100 ∧ r.Description.length ≤ 1000 ∧ r.Date ≠ "" ∧
        (parseDate r.Date).isSome = true ∧ 0 < r.Amount.toRat) ∧
    (∀ err, r.Validate parseDate = some err →
      errorsIs (some err) DomainError.ErrValidation = true ∧
        IsValidationError (some err) = true) ∧
    (u.Validate parseDate = none ↔
      (u.Type_ = "income" ∨ u.Type_ = "expense") ∧ u.Category ≠ "" ∧
        u.Category.length ≤ 100 ∧ u.Description.length ≤ 1000 ∧ u.Date ≠ "" ∧
        (parseDate u.Date).isSome = true ∧ 0 < u.Amount.toRat) ∧
    (∀ err, u.Validate parseDate = some err →
      errorsIs (some err) DomainError.ErrValidation = true ∧
        IsValidationError (some err) = true) ∧
    (u.Validate parseDate
      = CreateItemRequest.Validate parseDate
          { Type_ := u.Type_, Amount := u.Amount, Category := u.Category,
            Description := u.Description, Date := u.Date }) := by
  have key : ∀ (t c ds dt : String) (a : Decimal),
      ((match validateStruct parseDate t c ds dt with
        | some err => some (formatValidationErrors err)
        | none =>
          if !a.IsPositive then
            some (GoError.wrapf "%w: Amount must be greater than 0"
              (GoError.sentinel DomainError.ErrValidation))
          else none) = none ↔
        (t = "income" ∨ t = "expense") ∧ c ≠ "" ∧ c.length ≤ 100 ∧ ds.length ≤ 1000 ∧
          dt ≠ "" ∧ (parseDate dt).isSome = true ∧ 0 < a.toRat) ∧
      (∀ err, (match validateStruct parseDate t c ds dt with
        | some err => some (formatValidationErrors err)
        | none =>
          if !a.IsPositive then
            some (GoError.wrapf "%w: Amount must be greater than 0"
              (GoError.sentinel DomainError.ErrValidation))
          else none) = some err →
        errorsIs (some err) DomainError.ErrValidation = true ∧
          IsValidationError (some err) = true) := by
    intro t c ds dt a
    have hv := validateStruct_none_iff parseDate t c ds dt
    have hp := Decimal.IsPositive_iff a
    cases hs : validateStruct parseDate t c ds dt with
    | some e =>
      rw [hs] at hv
      refine ⟨?_, ?_⟩
      · constructor
        · intro h
          cases h
        · intro h
          exact absurd (hv.mpr ⟨h.1, h.2.1, h.2.2.1, h.2.2.2.1, h.2.2.2.2.1, h.2.2.2.2.2.1⟩)
            (by simp)
      · intro err h
        simp only [Option.some.injEq] at h
        subst h
        exact ⟨formatValidationErrors_Is e, formatValidationErrors_IsValidationError e⟩
    | none =>
      have hv2 := hv.mp hs
      by_cases hpos : a.IsPositive = true
      · refine ⟨?_, ?_⟩
        · simp only [hpos, Bool.not_true, Bool.false_eq_true, if_false, true_iff]
          exact ⟨hv2.1, hv2.2.1, hv2.2.2.1, hv2.2.2.2.1, hv2.2.2.2.2.1, hv2.2.2.2.2.2,
            hp.mp hpos⟩
        · intro err h
          simp [hpos] at h
      · have hneg : a.IsPositive = false := by simpa using hpos
        refine ⟨?_, ?_⟩
        · simp only [hneg, Bool.not_false, if_true]
          constructor
          · intro h
            cases h
          · intro h
            exact absurd (hp.mpr h.2.2.2.2.2.2) hpos
        · intro err h
          simp only [hneg, Bool.not_false, if_true, Option.some.injEq] at h
          subst h
          exact ⟨rfl, by decide⟩
  exact ⟨(key r.Type_ r.Category r.Description r.Date r.Amount).1,
    (key r.Type_ r.Category r.Description r.Date r.Amount).2,
    (key u.Type_ u.Category u.Description u.Date u.Amount).1,
    (key u.Type_ u.Category u.Description u.Date u.Amount).2, rfl⟩

theorem validateStruct_none_parse (parseDate : String → Option Time)
    (type_ category description date : String)
    (h : validateStruct parseDate type_ category description date = none) :
    ∃ t, parseDate date = some t := by
  have h6 := ((validateStruct_none_iff parseDate type_ category description date).mp h).2.2.2.2.2
  exact Option.isSome_iff_exists.mp h6

/-- C24: for a request that passes `Validate`, `ToItem` returns no error and the
item with the fields of the request, the parsed date, and the clock reading in
both CreatedAt and UpdatedAt, which is not the zero time when the clock is not;
`UpdateItemRequest.ToItem(id)` does the same with ID set to `id` and CreatedAt
left at the zero time. -/
theorem ToItem_of_valid (parseDate : String → Option Time) (now : Time)
    (r : CreateItemRequest) (u : UpdateItemRequest) (id : String)
    (hnow : now.IsZero = false) (hr : r.Validate parseDate = none)
    (hu : u.Validate parseDate = none) :
    (∃ date, parseDate r.Date = some date ∧
      r.ToItem parseDate now
        = ({ ID := "", Type_ := r.Type_, Amount := r.Amount, Category := r.Category,
             Description := r.Description, Date := date, CreatedAt := now,
             UpdatedAt := now }, none)) ∧
    (r.ToItem parseDate now).1.CreatedAt = (r.ToItem parseDate now).1.UpdatedAt ∧
    (r.ToItem parseDate now).1.CreatedAt.IsZero = false ∧
    (∃ date, parseDate u.Date = some date ∧
      u.ToItem parseDate now id
        = ({ ID := id, Type_ := u.Type_, Amount := u.Amount, Category := u.Category,
             Description := u.Description, Date := date, CreatedAt := ⟨0, 0⟩,
             UpdatedAt := now }, none)) ∧
    (u.ToItem parseDate now id).1.CreatedAt.IsZero = true := by
  have hr1 : validateStruct parseDate r.Type_ r.Category r.Description r.Date = none := by
    unfold CreateItemRequest.Validate at hr
    split at hr
    · cases hr
    · assumption
  have hu1 : validateStruct parseDate u.Type_ u.Category u.Description u.Date = none := by
    unfold UpdateItemRequest.Validate at hu
    split at hu
    · cases hu
    · assumption
  obtain ⟨dr, hdr⟩ := validateStruct_none_parse parseDate _ _ _ _ hr1
  obtain ⟨du, hdu⟩ := validateStruct_none_parse parseDate _ _ _ _ hu1
  have qr : r.ToItem parseDate now
      = ({ ID := "", Type_ := r.Type_, Amount := r.Amount, Category := r.Category,
           Description := r.Description, Date := dr, CreatedAt := now,
           UpdatedAt := now }, none) := by
    unfold CreateItemRequest.ToItem
    rw [hdr]
    rfl
  have qu : u.ToItem parseDate now id
      = ({ ID := id, Type_ := u.Type_, Amount := u.Amount, Category := u.Category,
           Description := u.Description, Date := du, CreatedAt := ⟨0, 0⟩,
           UpdatedAt := now }, none) := by
    unfold UpdateItemRequest.ToItem
    rw [hdu]
    rfl
  refine ⟨⟨dr, hdr, qr⟩, ?_, ?_, ⟨du, hdu, qu⟩, ?_⟩
  · rw [qr]
  · rw [qr]
    exact hnow
  · rw [qu]
    rfl

/-- Witness for C24: the sample request of 55.50 on 2024-06-15 passes `Validate`
and `ToItem` keeps the amount 55.50. -/
theorem ToItem_of_valid_witness :
    sampleNow.IsZero = false ∧
    sampleCreateItemRequest.Validate parseDate_2006_01_02 = none ∧
    sampleUpdateItemRequest.Validate parseDate_2006_01_02 = none ∧
    (sampleCreateItemRequest.ToItem parseDate_2006_01_02 sampleNow).1.Amount = ⟨5550, -2⟩ ∧
    (sampleCreateItemRequest.ToItem parseDate_2006_01_02 sampleNow).1.CreatedAt.IsZero = false ∧
    (sampleUpdateItemRequest.ToItem parseDate_2006_01_02 sampleNow "id-1").1.CreatedAt.IsZero
      = true :=
  ⟨by decide, by decide, by decide, by decide,
    (ToItem_of_valid parseDate_2006_01_02 sampleNow sampleCreateItemRequest
      sampleUpdateItemRequest "id-1" (by decide) (by decide) (by decide)).2.2.1,
    (ToItem_of_valid parseDate_2006_01_02 sampleNow sampleCreateItemRequest
      sampleUpdateItemRequest "id-1" (by decide) (by decide) (by decide)).2.2.2.2⟩

/-! ## Properties of the export filter and of the query compiled for it -/

theorem GetAll_query_noLimit_counts (f : ItemFilter) (h : f.NoLimit = true) :
    (GetAll_query f).data.count 'I' = 0 ∧ (GetAll_query f).data.count 'F' = 1 := by
  have e : GetAll_limitClause f = "" := by simp [GetAll_limitClause, h]
  have q : GetAll_query f =
      GetAll_format (GetAll_where f) (GetAll_sortCol f) (GetAll_sortDir f) "" := by
    simp only [GetAll_query, e]
  have hc : GetAll_sortCol f ∈ ["date", "amount", "category", "type"] := by
    unfold GetAll_sortCol
    rw [allowedSortColumns_lookup]
    split_ifs <;> simp
  have hd : GetAll_sortDir f ∈ ["ASC", "DESC"] := by
    unfold GetAll_sortDir
    split_ifs <;> simp
  have hw := GetAll_where_shape_counts (decide (f.Type_ ≠ ""))
    (decide (f.Category ≠ "")) f.From.isSome f.To.isSome
  rw [← GetAll_where_shape f] at hw
  rw [q]
  exact GetAll_format_counts _ _ _ hw hc hd

theorem GetAll_query_date_desc (f : ItemFilter) (hs : f.SortBy = "date")
    (ho : f.Order = "desc") :
    "ORDER BY date DESC".data <:+: (GetAll_query f).data := by
  have hc : GetAll_sortCol f = "date" := by
    unfold GetAll_sortCol
    rw [hs]
    rfl
  have hd : GetAll_sortDir f = "DESC" := by
    unfold GetAll_sortDir
    rw [ho]
    rfl
  have e1 : "\n\t\t\t    ORDER BY " = "\n\t\t\t    " ++ "ORDER BY " := by decide
  have e2 : "ORDER BY date DESC" = "ORDER BY " ++ "date" ++ " " ++ "DESC" := by decide
  have hq : GetAll_query f =
      ("SELECT \n\t\t\t\t\tid, type, amount, category, description, date, created_at, updated_at,\n\t\t\t\t\tCOUNT(*) OVER() AS total_count\n\t\t\t    FROM items "
        ++ GetAll_where f ++ "\n\t\t\t    ") ++ "ORDER BY date DESC"
        ++ ("\n\t\t\t    " ++ GetAll_limitClause f) := by
    simp only [GetAll_query, hc, hd, GetAll_format]
    rw [e1, e2]
    simp only [String.append_assoc]
  rw [hq, String.data_append, String.data_append]
  exact ⟨_, _, rfl⟩

theorem parseExportFilter_cases (parseDate : String → Option Time) (q : String → String) :
    ((parseExportFilter parseDate q).2 = none ∧
      (q "from" = "" ∨ (parseDate (q "from")).isSome = true) ∧
      (q "to" = "" ∨ (parseDate (q "to")).isSome = true) ∧
      (parseExportFilter parseDate q).1
        = { From := if q "from" = "" then none else parseDate (q "from"),
            To := if q "to" = "" then none else parseDate (q "to"),
            Category := q "category", Type_ := q "type", SortBy := "date", Order := "desc",
            Limit := 0, Offset := 0, NoLimit := true }) ∨
    ((parseExportFilter parseDate q).2 ≠ none ∧
      ((q "from" ≠ "" ∧ parseDate (q "from") = none) ∨
        (q "to" ≠ "" ∧ parseDate (q "to") = none))) := by
  unfold parseExportFilter
  by_cases hf : q "from" = ""
  · by_cases ht : q "to" = ""
    · left
      simp [hf, ht, ItemFilter.zero, SortByDate, OrderDesc]
    · cases hpt : parseDate (q "to") with
      | none =>
        right
        simp [hf, ht, hpt]
      | some t =>
        left
        simp [hf, ht, hpt, ItemFilter.zero, SortByDate, OrderDesc]
  · cases hpf : parseDate (q "from") with
    | none =>
      right
      simp [hf, hpf]
    | some t0 =>
      by_cases ht : q "to" = ""
      · left
        simp [hf, ht, hpf, ItemFilter.zero, SortByDate, OrderDesc]
      · cases hpt : parseDate (q "to") with
        | none =>
          right
          simp [hf, ht, hpf, hpt]
        | some t =>
          left
          simp [hf, ht, hpf, hpt, ItemFilter.zero, SortByDate, OrderDesc]

/-- C28: a filter that `parseExportFilter` returns without error has NoLimit
true, SortBy date, Order desc, and the category, type, from and to of the
request; the result depends on no other query parameter (limit, offset,
sort_by, order among them); parsing fails only on a rejected from or to;
`ExportHandler.CSV` either answers 400 without calling the service or calls it
with that filter; and the query compiled from it holds neither LIMIT nor
OFFSET and holds `ORDER BY date DESC`. -/
theorem parseExportFilter_spec {σ τ : Type} (parseDate : String → Option Time)
    (Format : String → Time → String) (svc : exportItemService σ) (cw : csvWriter τ)
    (s : σ) (w : τ) (q q2 : String → String) :
    ((parseExportFilter parseDate q).2 = none →
      (parseExportFilter parseDate q).1
        = { From := if q "from" = "" then none else parseDate (q "from"),
            To := if q "to" = "" then none else parseDate (q "to"),
            Category := q "category", Type_ := q "type", SortBy := "date", Order := "desc",
            Limit := 0, Offset := 0, NoLimit := true }) ∧
    ((parseExportFilter parseDate q).2 = none ↔
      (q "from" = "" ∨ (parseDate (q "from")).isSome = true) ∧
        (q "to" = "" ∨ (parseDate (q "to")).isSome = true)) ∧
    (q "from" = q2 "from" → q "to" = q2 "to" → q "category" = q2 "category" →
      q "type" = q2 "type" → parseExportFilter parseDate q = parseExportFilter parseDate q2) ∧
    (((parseExportFilter parseDate q).2 ≠ none ∧
        (ExportHandler.CSV parseDate Format svc cw s w q).1.code = 400 ∧
        (ExportHandler.CSV parseDate Format svc cw s w q).2.1 = s) ∨
      ((parseExportFilter parseDate q).2 = none ∧
        (ExportHandler.CSV parseDate Format svc cw s w q).2.1
          = (svc.List s (parseExportFilter parseDate q).1).2)) ∧
    ((parseExportFilter parseDate q).2 = none →
      ¬ ("LIMIT".data <:+: (GetAll_query (parseExportFilter parseDate q).1).data) ∧
      ¬ ("OFFSET".data <:+: (GetAll_query (parseExportFilter parseDate q).1).data) ∧
      "ORDER BY date DESC".data <:+: (GetAll_query (parseExportFilter parseDate q).1).data ∧
      GetAll_limitClause (parseExportFilter parseDate q).1 = "") := by
  have hc := parseExportFilter_cases parseDate q
  refine ⟨?_, ?_, ?_, ?_, ?_⟩
  · intro h
    rcases hc with hc | hc
    · exact hc.2.2.2
    · exact absurd h hc.1
  · constructor
    · intro h
      rcases hc with hc | hc
      · exact ⟨hc.2.1, hc.2.2.1⟩
      · exact absurd h hc.1
    · intro h
      rcases hc with hc | hc
      · exact hc.1
      · rcases hc.2 with hb | hb
        · rcases h.1 with h1 | h1
          · exact absurd h1 hb.1
          · rw [hb.2] at h1
            cases h1
        · rcases h.2 with h1 | h1
          · exact absurd h1 hb.1
          · rw [hb.2] at h1
            cases h1
  · intro h1 h2 h3 h4
    unfold parseExportFilter
    rw [h1, h2, h3, h4]
  · cases hp : (parseExportFilter parseDate q).2 with
    | some err =>
      left
      refine ⟨by simp, ?_, ?_⟩
      · unfold ExportHandler.CSV
        simp only [hp]
        rfl
      · unfold ExportHandler.CSV
        simp only [hp]
    | none =>
      right
      refine ⟨rfl, ?_⟩
      unfold ExportHandler.CSV
      simp only [hp]
      split <;> rfl
  · intro h
    rcases hc with hc | hc
    · have hn : (parseExportFilter parseDate q).1.NoLimit = true := by
        rw [hc.2.2.2]
      have hs : (parseExportFilter parseDate q).1.SortBy = "date" := by
        rw [hc.2.2.2]
      have ho : (parseExportFilter parseDate q).1.Order = "desc" := by
        rw [hc.2.2.2]
      have key := GetAll_query_noLimit_counts _ hn
      refine ⟨?_, ?_, GetAll_query_date_desc _ hs ho, ?_⟩
      · apply not_infix_of_count_lt 'I'
        rw [key.1]
        decide
      · apply not_infix_of_count_lt 'F'
        rw [key.2]
        decide
      · simp [GetAll_limitClause, hn]
    · exact absurd h hc.1


/-! ## Properties of `ItemRepo.GetAll` -/

theorem GetAll_scan_ok (rows : List (Item × Int)) (items : Option (List Item)) (total : Int) :
    GetAll_scan (rows.map Except.ok) items total
      = Except.ok
          (if rows = [] then items else some (items.getD [] ++ rows.map Prod.fst),
            ((rows.getLast?).map Prod.snd).getD total) := by
  induction rows generalizing items total with
  | nil => rfl
  | cons r rest ih =>
    simp only [List.map_cons, GetAll_scan]
    rw [ih]
    cases rest with
    | nil => simp
    | cons r2 rest2 =>
      cases hl : (r2 :: rest2).getLast? with
      | none => exact absurd (List.getLast?_eq_none_iff.mp hl) (by simp)
      | some x => simp [List.getLast?_cons_cons, hl]

/-- C29: when every row scans and the iteration ends without error, `GetAll`
issues the compiled query once and returns the items of the rows in cursor
order and the `total_count` of the last row; over no rows it returns a nil
list and 0. So the page cut by `LIMIT`/`OFFSET` at an offset at or beyond the
number of matching entries reports total count 0, whatever that number is. -/
theorem ItemRepo_GetAll_rows (filter : ItemFilter) (rows : List (Item × Int))
    (matching : List Item) (limit offset : Nat) :
    ItemRepo.GetAll (fun _ _ => Except.ok (Cursor.ofRows rows)) filter
      = ((if rows = [] then none else some (rows.map Prod.fst),
          ((rows.getLast?).map Prod.snd).getD 0, none),
        [(GetAll_query filter, GetAll_args filter)]) ∧
    ItemRepo.GetAll (fun _ _ => Except.ok (Cursor.ofRows [])) filter
      = ((none, 0, none), [(GetAll_query filter, GetAll_args filter)]) ∧
    (matching.length ≤ offset →
      ItemRepo.GetAll (fun _ _ => Except.ok (Cursor.ofRows (pagedRows matching limit offset)))
          filter
        = ((none, 0, none), [(GetAll_query filter, GetAll_args filter)])) ∧
    (offset < matching.length → 0 < limit →
      (ItemRepo.GetAll (fun _ _ => Except.ok (Cursor.ofRows (pagedRows matching limit offset)))
          filter).1
        = (some ((matching.drop offset).take limit), (matching.length : Int), none)) := by
  have main : ∀ rs : List (Item × Int),
      ItemRepo.GetAll (fun _ _ => Except.ok (Cursor.ofRows rs)) filter
        = ((if rs = [] then none else some (rs.map Prod.fst),
            ((rs.getLast?).map Prod.snd).getD 0, none),
          [(GetAll_query filter, GetAll_args filter)]) := by
    intro rs
    unfold ItemRepo.GetAll Cursor.ofRows
    simp only [GetAll_scan_ok]
    simp
  refine ⟨main rows, ?_, ?_, ?_⟩
  · rw [main]
    rfl
  · intro h
    have e : pagedRows matching limit offset = [] := by
      unfold pagedRows
      rw [List.drop_eq_nil_of_le h]
      simp
    rw [e, main]
    rfl
  · intro h hl
    rw [main]
    have hne : (matching.drop offset).take limit ≠ [] := by
      intro hnil
      have hlen := congrArg List.length hnil
      simp only [List.length_take, List.length_drop, List.length_nil] at hlen
      omega
    have hp : pagedRows matching limit offset ≠ [] := by
      unfold pagedRows
      simpa using hne
    have hfst : (pagedRows matching limit offset).map Prod.fst
        = (matching.drop offset).take limit := by
      unfold pagedRows
      simp [List.map_map, Function.comp_def]
    have hlast : ((pagedRows matching limit offset).getLast?).map Prod.snd
        = some (matching.length : Int) := by
      unfold pagedRows
      rw [List.getLast?_map]
      cases hl2 : ((matching.drop offset).take limit).getLast? with
      | none => exact absurd (List.getLast?_eq_none_iff.mp hl2) hne
      | some x => rfl
    simp only [hp, if_false, hfst, hlast, Option.getD_some]

/-! ## Properties of the CSV quoting -/

theorem csvCollapseQuotes_double (f : List Char) :
    csvCollapseQuotes (csvDoubleQuotes f) = f := by
  induction f with
  | nil => rfl
  | cons c rest ih =>
    unfold csvDoubleQuotes
    by_cases hc : c = '"'
    · rw [if_pos hc]
      unfold csvCollapseQuotes
      simp [ih, hc]
    · rw [if_neg hc]
      cases hd : csvDoubleQuotes rest with
      | nil =>
        rw [hd] at ih
        unfold csvCollapseQuotes
        rw [← ih]
        rfl
      | cons d more =>
        rw [hd] at ih
        unfold csvCollapseQuotes
        simp [hc, ih]

theorem splitUnquotedCommas_plain (s t : List Char) (inQuotes : Bool) (current : List Char)
    (hq : '"' ∉ s) (hc : inQuotes = false → ',' ∉ s) :
    splitUnquotedCommas (s ++ t) inQuotes current
      = splitUnquotedCommas t inQuotes (current ++ s) := by
  induction s generalizing current with
  | nil => simp
  | cons c rest ih =>
    have h1 : c ≠ '"' := fun h => hq (by simp [h])
    have h2 : ¬ (c = ',' ∧ inQuotes = false) := fun h => hc h.2 (by simp [h.1])
    have e : (c :: rest) ++ t = c :: (rest ++ t) := rfl
    rw [e, splitUnquotedCommas, if_neg h1, if_neg h2, ih _ (fun h => hq (List.mem_cons_of_mem _ h))
      (fun hi h => hc hi (List.mem_cons_of_mem _ h))]
    simp

theorem splitUnquotedCommas_doubled (f t : List Char) (current : List Char) :
    splitUnquotedCommas (csvDoubleQuotes f ++ t) true current
      = splitUnquotedCommas t true (current ++ csvDoubleQuotes f) := by
  induction f generalizing current with
  | nil => simp [csvDoubleQuotes]
  | cons c rest ih =>
    unfold csvDoubleQuotes
    by_cases hc : c = '"'
    · simp only [if_pos hc, List.cons_append, splitUnquotedCommas, if_true, Bool.not_true,
        Bool.not_false]
      rw [ih]
      simp
    · have h2 : ¬ (c = ',' ∧ true = false) := fun h => by simpa using h.2
      simp only [if_neg hc, List.cons_append, splitUnquotedCommas, if_neg h2]
      rw [ih]
      simp

theorem csvFieldNeedsQuotes_false (f : List Char) (h : csvFieldNeedsQuotes f = false) :
    '"' ∉ f ∧ ',' ∉ f ∧ '\r' ∉ f ∧ '\n' ∉ f := by
  unfold csvFieldNeedsQuotes at h
  by_cases h0 : f = []
  · subst h0
    simp
  · rw [if_neg h0] at h
    split_ifs at h with h1 h2
    have h3 : ∀ c ∈ f, ¬ (c = '\n' ∨ c = '\r' ∨ c = '"' ∨ c = ',') := by
      intro c hc hcc
      apply h2
      rw [List.any_eq_true]
      refine ⟨c, hc, ?_⟩
      rcases hcc with h | h | h | h <;> simp [h]
    refine ⟨?_, ?_, ?_, ?_⟩ <;> intro hm
    · exact h3 _ hm (by simp)
    · exact h3 _ hm (by simp)
    · exact h3 _ hm (by simp)
    · exact h3 _ hm (by simp)

theorem splitUnquotedCommas_field (f t current : List Char) :
    splitUnquotedCommas (csvEncodeField f ++ t) false current
      = splitUnquotedCommas t false (current ++ csvEncodeField f) := by
  unfold csvEncodeField
  by_cases h : csvFieldNeedsQuotes f = true
  · rw [if_pos h]
    unfold csvQuote
    have e : ('"' :: csvDoubleQuotes f ++ ['"']) ++ t
        = '"' :: (csvDoubleQuotes f ++ ('"' :: t)) := by simp
    rw [e]
    simp only [splitUnquotedCommas, if_true, Bool.not_false]
    rw [splitUnquotedCommas_doubled]
    simp [splitUnquotedCommas]
  · have h0 : csvFieldNeedsQuotes f = false := by simpa using h
    rw [if_neg h]
    have hn := csvFieldNeedsQuotes_false f h0
    exact splitUnquotedCommas_plain f t false current hn.1 (fun _ => hn.2.1)

theorem csvUnquote_encode (f : List Char) : csvUnquote (csvEncodeField f) = f := by
  unfold csvEncodeField
  by_cases h : csvFieldNeedsQuotes f = true
  · rw [if_pos h]
    unfold csvQuote csvUnquote
    simp [csvCollapseQuotes_double]
  · have h0 : csvFieldNeedsQuotes f = false := by simpa using h
    rw [if_neg h]
    have hn := csvFieldNeedsQuotes_false f h0
    unfold csvUnquote
    cases f with
    | nil => rfl
    | cons c rest =>
      have hc : c ≠ '"' := fun hc => hn.1 (by simp [hc])
      simp [hc]

theorem splitUnquotedCommas_record (f : List Char) (fs : List (List Char))
    (current : List Char) :
    splitUnquotedCommas (List.intercalate [','] ((f :: fs).map csvEncodeField)) false current
      = (current ++ csvEncodeField f) :: fs.map csvEncodeField := by
  induction fs generalizing f current with
  | nil =>
    have e : List.intercalate [','] ([f].map csvEncodeField) = csvEncodeField f ++ [] := by
      simp [List.intercalate]
    rw [e, splitUnquotedCommas_field]
    rfl
  | cons g gs ih =>
    have e : List.intercalate [','] ((f :: g :: gs).map csvEncodeField)
        = csvEncodeField f
          ++ (',' :: List.intercalate [','] ((g :: gs).map csvEncodeField)) := by
      simp [List.intercalate, List.intersperse]
    rw [e, splitUnquotedCommas_field]
    simp only [splitUnquotedCommas]
    rw [if_neg (by decide), ih]
    simp

theorem csvFieldNeedsQuotes_special (f : List Char)
    (h : ∃ c ∈ f, c = ',' ∨ c = '"' ∨ c = '\r' ∨ c = '\n') :
    csvFieldNeedsQuotes f = true := by
  obtain ⟨c, hc, hcc⟩ := h
  unfold csvFieldNeedsQuotes
  have h0 : f ≠ [] := List.ne_nil_of_mem hc
  rw [if_neg h0]
  split_ifs with h1 h2
  · rfl
  · rfl
  · exfalso
    apply h2
    rw [List.any_eq_true]
    refine ⟨c, hc, ?_⟩
    rcases hcc with h | h | h | h <;> simp [h]

/-- Counterexample to C26 as stated: the field `\.` and a field that starts
with a tab hold no comma, double quote, carriage return or line feed and do
not start with a space, yet both are emitted in double quotes, not verbatim. -/
theorem csvEncodeField_verbatim_counterexample :
    (∀ c ∈ "\\.".data, ¬ (c = ',' ∨ c = '"' ∨ c = '\r' ∨ c = '\n')) ∧
    "\\.".data.head? ≠ some ' ' ∧
    csvEncodeField "\\.".data = "\"\\.\"".data ∧
    csvEncodeField "\\.".data ≠ "\\.".data ∧
    (∀ c ∈ "\tcash".data, ¬ (c = ',' ∨ c = '"' ∨ c = '\r' ∨ c = '\n')) ∧
    "\tcash".data.head? ≠ some ' ' ∧
    csvEncodeField "\tcash".data = "\"\tcash\"".data ∧
    String.mk (csvEncodeRecord ["id-1", "\\.", "\tcash"]) = "id-1,\"\\.\",\"\tcash\"" := by
  decide

/-- C26 (amended): a field that holds a comma, a double quote, a carriage
return or a line feed is emitted between double quotes with every double quote
of it doubled; so is the field `\.` and a field whose first character is white
space; every other field (the empty one among them) is emitted verbatim; the
csv writer over a buffer appends the fields of a record joined by commas and a
line feed; and splitting that line on its commas outside quotes and unquoting
gives back the fields of the record. -/
theorem csvEncodeRecord_roundtrip (f : String) (record : List String) (out : String) :
    ((∃ c ∈ f.data, c = ',' ∨ c = '"' ∨ c = '\r' ∨ c = '\n') →
      csvEncodeField f.data = '"' :: csvDoubleQuotes f.data ++ ['"']) ∧
    ((f = "\\." ∨ ∃ c rest, f.data = c :: rest ∧ unicodeIsSpace c = true) →
      csvEncodeField f.data = '"' :: csvDoubleQuotes f.data ++ ['"']) ∧
    ((∀ c ∈ f.data, ¬ (c = ',' ∨ c = '"' ∨ c = '\r' ∨ c = '\n')) → f ≠ "\\." →
      (∀ c rest, f.data = c :: rest → unicodeIsSpace c = false) →
      csvEncodeField f.data = f.data) ∧
    csvEncodeField "lunch with \"friends\", very expensive".data
      = "\"lunch with \"\"friends\"\", very expensive\"".data ∧
    (csvBuffer.Write out (f :: record)).2
      = out ++ String.mk (csvEncodeRecord (f :: record)) ++ "\n" ∧
    csvReadRecord (csvEncodeRecord (f :: record)) = (f :: record).map String.data := by
  refine ⟨?_, ?_, ?_, by decide, rfl, ?_⟩
  · intro h
    unfold csvEncodeField
    rw [if_pos (csvFieldNeedsQuotes_special _ h)]
    rfl
  · intro h
    have hq : csvFieldNeedsQuotes f.data = true := by
      rcases h with h | ⟨c, rest, hd, hs⟩
      · subst h
        decide
      · unfold csvFieldNeedsQuotes
        rw [hd]
        simp only [List.cons_ne_nil, if_false, hs]
        split_ifs <;> rfl
    unfold csvEncodeField
    rw [if_pos hq]
    rfl
  · intro h1 h2 h3
    have hq : csvFieldNeedsQuotes f.data = false := by
      unfold csvFieldNeedsQuotes
      by_cases h0 : f.data = []
      · rw [if_pos h0]
      · rw [if_neg h0]
        have hb : f.data ≠ ['\\', '.'] := by
          intro hb
          apply h2
          exact String.ext hb
        have ha : (f.data.any fun c => c = '\n' || c = '\r' || c = '"' || c = ',') = false := by
          rw [List.any_eq_false]
          intro c hc
          have := h1 c hc
          simp only [not_or] at this
          simp [this.1, this.2.1, this.2.2.1, this.2.2.2]
        rw [if_neg hb, ha]
        simp only [Bool.false_eq_true, if_false]
        cases hd : f.data with
        | nil => rfl
        | cons c rest => exact h3 c rest hd
    unfold csvEncodeField
    rw [hq]
    rfl
  · unfold csvReadRecord csvEncodeRecord
    have e : (f :: record).map (fun g => csvEncodeField g.data)
        = (f.data :: record.map String.data).map csvEncodeField := by
      simp [List.map_map, Function.comp_def]
    rw [e, splitUnquotedCommas_record]
    simp [List.map_map, Function.comp_def, csvUnquote_encode]


/-! ## Properties of the amount column -/

theorem digitChar_spec :
    ∀ k, k < 10 → (Nat.digitChar k).isDigit = true ∧ (Nat.digitChar k).toNat - 48 = k := by
  decide

theorem digitsValue_append_singleton (l : List Char) (c : Char) :
    digitsValue (l ++ [c]) = 10 * digitsValue l + (c.toNat - 48) := by
  unfold digitsValue
  rw [List.foldl_append]
  rfl

theorem toDigitsCore_spec (fuel : Nat) :
    ∀ (n : Nat) (ds : List Char), n < fuel →
      ∃ l, Nat.toDigitsCore 10 fuel n ds = l ++ ds ∧ l ≠ [] ∧
        (∀ c ∈ l, c.isDigit = true) ∧ digitsValue l = n := by
  induction fuel with
  | zero =>
    intro n ds h
    omega
  | succ fuel ih =>
    intro n ds h
    have hd := digitChar_spec (n % 10) (Nat.mod_lt _ (by decide))
    unfold Nat.toDigitsCore
    by_cases h0 : n / 10 = 0
    · simp only [h0, if_true]
      refine ⟨[Nat.digitChar (n % 10)], rfl, by simp, ?_, ?_⟩
      · intro c hc
        rw [List.mem_singleton.mp hc]
        exact hd.1
      · have : digitsValue [Nat.digitChar (n % 10)] = (Nat.digitChar (n % 10)).toNat - 48 := by
          simp [digitsValue]
        rw [this, hd.2]
        omega
    · simp only [h0, if_false]
      have hlt : n / 10 < fuel := by omega
      obtain ⟨l, hl, hne, hdig, hval⟩ := ih (n / 10) (Nat.digitChar (n % 10) :: ds) hlt
      refine ⟨l ++ [Nat.digitChar (n % 10)], ?_, by simp, ?_, ?_⟩
      · rw [hl]
        simp
      · intro c hc
        rcases List.mem_append.mp hc with h1 | h1
        · exact hdig c h1
        · rw [List.mem_singleton.mp h1]
          exact hd.1
      · rw [digitsValue_append_singleton, hval, hd.2]
        omega

theorem toString_nat_spec (n : Nat) :
    (toString n).data ≠ [] ∧ (∀ c ∈ (toString n).data, c.isDigit = true) ∧
      digitsValue (toString n).data = n := by
  have e : (toString n).data = Nat.toDigits 10 n := rfl
  obtain ⟨l, hl, hne, hdig, hval⟩ := toDigitsCore_spec (n + 1) n [] (Nat.lt_succ_self n)
  have e2 : Nat.toDigits 10 n = l := by
    unfold Nat.toDigits
    rw [hl]
    simp
  rw [e, e2]
  exact ⟨hne, hdig, hval⟩

theorem digitsValue_zeros (k : Nat) (s : List Char) :
    digitsValue (List.replicate k '0' ++ s) = digitsValue s := by
  induction k with
  | zero => rfl
  | succ k ih =>
    have : digitsValue (List.replicate (k + 1) '0' ++ s)
        = digitsValue (List.replicate k '0' ++ s) := by
      unfold digitsValue
      simp [List.replicate_succ]
    rw [this, ih]

theorem isDigit_ne_point (c : Char) (h : c.isDigit = true) : (c != '.') = true ∧ c ≠ '-' := by
  constructor
  · rw [bne_iff_ne]
    intro hc
    subst hc
    exact absurd h (by decide)
  · intro hc
    subst hc
    exact absurd h (by decide)

theorem decimalText_shape (neg : Bool) (ip fp : List Char) (hip : ip ≠ [])
    (hdi : ∀ c ∈ ip, c.isDigit = true) :
    decimalTextValue ((if neg then ['-'] else []) ++ ip ++ '.' :: fp)
        = (if neg then -1 else 1) * ((digitsValue (ip ++ fp) : ℚ) / 10 ^ fp.length) ∧
      fractionalDigits ((if neg then ['-'] else []) ++ ip ++ '.' :: fp) = fp := by
  have hp : ∀ c ∈ ip, (fun c : Char => c != '.') c = true := fun c hc =>
    (isDigit_ne_point c (hdi c hc)).1
  have htake : (ip ++ '.' :: fp).takeWhile (fun c => c != '.') = ip := by
    rw [List.takeWhile_append_of_pos hp]
    simp [List.takeWhile]
  have hdrop : (ip ++ '.' :: fp).dropWhile (fun c => c != '.') = '.' :: fp := by
    rw [List.dropWhile_append_of_pos hp]
    simp [List.dropWhile]
  have hfrac : fractionalDigits (ip ++ '.' :: fp) = fp := by
    unfold fractionalDigits
    rw [hdrop]
    rfl
  cases neg with
  | true =>
    have e : (if true = true then ['-'] else []) ++ ip ++ '.' :: fp
        = '-' :: (ip ++ '.' :: fp) := by simp
    rw [e]
    constructor
    · unfold decimalTextValue
      simp only [List.head?_cons, if_true, List.drop_succ_cons, List.drop_zero, htake, hfrac]
      ring
    · unfold fractionalDigits
      have : ('-' :: (ip ++ '.' :: fp)).dropWhile (fun c => c != '.')
          = (ip ++ '.' :: fp).dropWhile (fun c => c != '.') := by
        simp [List.dropWhile]
      rw [this, hdrop]
      rfl
  | false =>
    have e : (if false = true then ['-'] else []) ++ ip ++ '.' :: fp = ip ++ '.' :: fp := by
      simp
    rw [e]
    refine ⟨?_, hfrac⟩
    have hh : (ip ++ '.' :: fp).head? ≠ some '-' := by
      cases ip with
      | nil => exact absurd rfl hip
      | cons c rest =>
        simp only [List.cons_append, List.head?_cons, ne_eq, Option.some.injEq]
        exact (isDigit_ne_point c (hdi c (by simp))).2
    unfold decimalTextValue
    simp only [hh, if_false, htake, hfrac]
    simp

theorem Decimal.string_two_places (d : Decimal) (h : d.exp = -2) :
    ∃ ip fp, d.string.data = (if decide (d.value < 0) then ['-'] else []) ++ ip ++ '.' :: fp ∧
      ip ≠ [] ∧ (∀ c ∈ ip, c.isDigit = true) ∧ (∀ c ∈ fp, c.isDigit = true) ∧
      fp.length = 2 ∧ digitsValue (ip ++ fp) = d.value.natAbs := by
  obtain ⟨hne, hdig, hval⟩ := toString_nat_spec d.value.natAbs
  have hlen : 0 < (toString d.value.natAbs).data.length := List.length_pos.mpr hne
  generalize hstr : (toString d.value.natAbs).data = str at hne hdig hval hlen
  have hge : ¬ d.exp ≥ 0 := by rw [h]; decide
  have hpl : (-d.exp).toNat = 2 := by rw [h]; rfl
  by_cases hl : str.length > 2
  · refine ⟨str.take (str.length - 2), str.drop (str.length - 2), ?_, ?_, ?_, ?_, ?_, ?_⟩
    · unfold Decimal.string
      simp only [if_neg hge, hstr, hpl, if_pos hl]
      have hfl : (List.drop (str.length - 2) str).length > 0 := by
        rw [List.length_drop]
        omega
      simp only [if_pos hfl]
      by_cases hv : d.value < 0
      · simp [hv]
      · simp [hv]
    · intro hnil
      have := congrArg List.length hnil
      rw [List.length_take] at this
      simp at this
      omega
    · intro c hc
      exact hdig c (List.mem_of_mem_take hc)
    · intro c hc
      exact hdig c (List.mem_of_mem_drop hc)
    · rw [List.length_drop]
      omega
    · rw [List.take_append_drop, hval]
  · refine ⟨['0'], List.replicate (2 - str.length) '0' ++ str, ?_, by simp, ?_, ?_, ?_, ?_⟩
    · unfold Decimal.string
      simp only [if_neg hge, hstr, hpl, if_neg hl]
      have hfl : (List.replicate (2 - str.length) '0' ++ str).length > 0 := by
        rw [List.length_append]
        omega
      simp only [if_pos hfl]
      by_cases hv : d.value < 0
      · simp [hv]
      · simp [hv]
    · intro c hc
      rw [List.mem_singleton.mp hc]
      decide
    · intro c hc
      rcases List.mem_append.mp hc with h1 | h1
      · rw [(List.mem_replicate.mp h1).2]
        decide
      · exact hdig c h1
    · rw [List.length_append, List.length_replicate]
      omega
    · have : ['0'] ++ (List.replicate (2 - str.length) '0' ++ str)
          = List.replicate (2 - str.length + 1) '0' ++ str := by
        simp [List.replicate_succ]
      rw [this, digitsValue_zeros, hval]

theorem Decimal.rescale_exp (d : Decimal) (exp : Int) : (d.rescale exp).exp = exp := by
  unfold Decimal.rescale
  split_ifs with h1 h2
  · exact h1
  · rfl
  · rfl

theorem Decimal.Round_two (d : Decimal) (h : d.exp ≠ -2) :
    d.Round 2 = { value := roundTenth (d.rescale (-3)).value, exp := -2 } := by
  unfold Decimal.Round
  rw [if_neg h]
  have he : (d.rescale (-2 - 1)).exp + 1 = -2 := by
    rw [Decimal.rescale_exp]
    rfl
  have e3 : (-2 - 1 : Int) = -3 := rfl
  simp only [he, e3]
  congr 1
  generalize (d.rescale (-3)).value = n
  have e1 : ∀ x : Int, Int.ediv x 10 = x / 10 := fun _ => rfl
  have e2 : ∀ x : Int, Int.emod x 10 = x % 10 := fun _ => rfl
  simp only [e1, e2]
  unfold roundTenth
  split_ifs <;> omega

theorem Decimal.Round_two_exp (d : Decimal) : (d.Round 2).exp = -2 := by
  by_cases h : d.exp = -2
  · unfold Decimal.Round
    rw [if_pos h]
    exact h
  · rw [Decimal.Round_two d h]

theorem roundTenth_mul_ten (c : Int) : roundTenth (10 * c) = c := by
  unfold roundTenth
  split_ifs <;> omega

theorem roundTenth_near (n : Int) : 10 * roundTenth n - 5 ≤ n ∧ n ≤ 10 * roundTenth n + 5 := by
  unfold roundTenth
  split_ifs <;> omega

theorem Decimal.toRat_two (v : Int) : Decimal.toRat ⟨v, -2⟩ = (v : ℚ) / 100 := by
  unfold Decimal.toRat
  simp only
  rw [zpow_neg, div_eq_mul_inv]
  norm_num

theorem Decimal.toRat_of_exp_two (d : Decimal) (h : d.exp = -2) :
    d.toRat = (d.value : ℚ) / 100 := by
  have : d = ⟨d.value, -2⟩ := by
    cases d
    simp only at h
    rw [h]
  rw [this]
  exact Decimal.toRat_two _

theorem Decimal.rescale_three_of_two (d : Decimal) (c : Int) (h : d.toRat = (c : ℚ) / 100) :
    (d.rescale (-3)).value = 10 * c := by
  unfold Decimal.toRat at h
  unfold Decimal.rescale
  by_cases h1 : d.exp = -3
  · rw [if_pos h1]
    rw [h1] at h
    have h2 : (d.value : ℚ) = ((10 * c : Int) : ℚ) := by
      rw [zpow_neg] at h
      push_cast
      field_simp at h
      norm_num at h
      linarith
    exact_mod_cast h2
  · rw [if_neg h1]
    by_cases h2 : -3 > d.exp
    · rw [if_pos h2]
      simp only
      obtain ⟨j, hj⟩ : ∃ j : Nat, (j : Int) = -3 - d.exp :=
        ⟨(-3 - d.exp).toNat, Int.toNat_of_nonneg (by omega)⟩
      have hj2 : (-3 - d.exp).toNat = j := by
        rw [← hj]
        exact Int.toNat_natCast j
      have he : d.exp = -((j + 3 : Nat) : Int) := by
        push_cast
        omega
      rw [hj2]
      rw [he, zpow_neg, zpow_natCast] at h
      have h3 : (d.value : ℚ) * 100 = (c : ℚ) * 10 ^ (j + 3) := by
        have hpos : (10 : ℚ) ^ (j + 3) ≠ 0 := pow_ne_zero _ (by norm_num)
        field_simp at h
        linarith
      have h4 : d.value * 100 = c * 10 ^ (j + 3) := by exact_mod_cast h3
      have h5 : d.value = (10 * c) * 10 ^ j := by
        have : d.value * 100 = ((10 * c) * 10 ^ j) * 100 := by
          rw [h4]
          ring
        exact Int.eq_of_mul_eq_mul_right (by decide) this
      rw [h5]
      exact Int.mul_tdiv_cancel _ (pow_ne_zero _ (by decide))
    · rw [if_neg h2]
      simp only
      obtain ⟨k, hk⟩ : ∃ k : Nat, (k : Int) = d.exp - -3 :=
        ⟨(d.exp - -3).toNat, Int.toNat_of_nonneg (by omega)⟩
      have hk2 : (d.exp - -3).toNat = k := by
        rw [← hk]
        exact Int.toNat_natCast k
      have he : d.exp = (k : Int) - 3 := by omega
      rw [hk2]
      rw [he, zpow_sub₀ (by norm_num : (10 : ℚ) ≠ 0), zpow_natCast] at h
      have h3 : (d.value : ℚ) * 10 ^ k = ((10 * c : Int) : ℚ) := by
        push_cast
        field_simp at h
        norm_num at h
        linarith
      exact_mod_cast h3

theorem Decimal.Round_two_exact (d : Decimal) (c : Int) (h : d.toRat = (c : ℚ) / 100) :
    d.Round 2 = d ∨ d.Round 2 = ⟨c, -2⟩ := by
  by_cases h2 : d.exp = -2
  · left
    unfold Decimal.Round
    rw [if_pos h2]
  · right
    rw [Decimal.Round_two d h2, Decimal.rescale_three_of_two d c h, roundTenth_mul_ten]

theorem Decimal.Round_two_toRat (d : Decimal) (c : Int) (h : d.toRat = (c : ℚ) / 100) :
    (d.Round 2).toRat = d.toRat := by
  rcases Decimal.Round_two_exact d c h with h1 | h1
  · rw [h1]
  · rw [h1, Decimal.toRat_two, h]

theorem roundTenth_neg (n : Int) : roundTenth (-n) = -roundTenth n := by
  unfold roundTenth
  split_ifs <;> omega

theorem roundTenth_near_nonneg (n : Int) (h : 0 ≤ n) :
    n - 4 ≤ 10 * roundTenth n ∧ 10 * roundTenth n ≤ n + 5 := by
  unfold roundTenth
  split_ifs <;> omega

theorem round_trunc_near_nonneg (v b : Int) (hv : 0 ≤ v) (hb : 0 < b) :
    10 * roundTenth (Int.tdiv v b) * b - v ≤ 5 * b ∧
      v - 10 * roundTenth (Int.tdiv v b) * b ≤ 5 * b := by
  rw [Int.tdiv_eq_ediv hv (le_of_lt hb)]
  have hn : 0 ≤ v / b := Int.ediv_nonneg hv (le_of_lt hb)
  have h1 : v / b * b ≤ v := Int.ediv_mul_le v (ne_of_gt hb)
  have h2 : v < (v / b + 1) * b := Int.lt_ediv_add_one_mul_self v hb
  obtain ⟨r1, r2⟩ := roundTenth_near_nonneg (v / b) hn
  have m1 : 10 * roundTenth (v / b) * b ≤ (v / b + 5) * b :=
    mul_le_mul_of_nonneg_right r2 (le_of_lt hb)
  have m2 : (v / b - 4) * b ≤ 10 * roundTenth (v / b) * b :=
    mul_le_mul_of_nonneg_right r1 (le_of_lt hb)
  constructor
  · nlinarith
  · nlinarith

theorem round_trunc_near (v b : Int) (hb : 0 < b) :
    10 * roundTenth (Int.tdiv v b) * b - v ≤ 5 * b ∧
      v - 10 * roundTenth (Int.tdiv v b) * b ≤ 5 * b := by
  by_cases hv : 0 ≤ v
  · exact round_trunc_near_nonneg v b hv hb
  · have h := round_trunc_near_nonneg (-v) b (by omega) hb
    rw [Int.neg_tdiv, roundTenth_neg] at h
    constructor
    · nlinarith [h.1, h.2]
    · nlinarith [h.1, h.2]

theorem Decimal.Round_two_near (d : Decimal) :
    |(d.Round 2).toRat - d.toRat| ≤ 1 / 200 := by
  by_cases h2 : d.exp = -2
  · have : d.Round 2 = d := by
      unfold Decimal.Round
      rw [if_pos h2]
    rw [this]
    simp
  · by_cases h3 : -3 > d.exp
    · obtain ⟨j, hj⟩ : ∃ j : Nat, (j : Int) = -3 - d.exp :=
        ⟨(-3 - d.exp).toNat, Int.toNat_of_nonneg (by omega)⟩
      have hj2 : (-3 - d.exp).toNat = j := by
        rw [← hj]
        exact Int.toNat_natCast j
      have he : d.exp = -((j + 3 : Nat) : Int) := by
        push_cast
        omega
      have hr : (d.rescale (-3)).value = Int.tdiv d.value (10 ^ j) := by
        unfold Decimal.rescale
        rw [if_neg (by omega), if_pos h3, hj2]
      have hb : (0 : Int) < 10 ^ j := pow_pos (by decide) _
      obtain ⟨b1, b2⟩ := round_trunc_near d.value (10 ^ j) hb
      rw [Decimal.Round_two d h2, Decimal.toRat_two, hr]
      have hx : d.toRat = (d.value : ℚ) / (1000 * 10 ^ j) := by
        unfold Decimal.toRat
        have e10 : (10 : ℚ) ^ (j + 3) = 1000 * 10 ^ j := by ring
        rw [he, zpow_neg, zpow_natCast, div_eq_mul_inv, e10]
      rw [hx]
      generalize roundTenth (Int.tdiv d.value (10 ^ j)) = q at b1 b2
      have c1 : ((10 * q * 10 ^ j - d.value : Int) : ℚ) ≤ ((5 * 10 ^ j : Int) : ℚ) := by
        exact_mod_cast b1
      have c2 : ((d.value - 10 * q * 10 ^ j : Int) : ℚ) ≤ ((5 * 10 ^ j : Int) : ℚ) := by
        exact_mod_cast b2
      push_cast at c1 c2
      have hbq : (0 : ℚ) < 10 ^ j := pow_pos (by norm_num) _
      have hden : (0 : ℚ) < 1000 * 10 ^ j := by positivity
      have e : (q : ℚ) / 100 - (d.value : ℚ) / (1000 * 10 ^ j)
          = (10 * q * 10 ^ j - d.value) / (1000 * 10 ^ j) := by
        field_simp
        ring
      rw [e, abs_le]
      constructor
      · rw [le_div_iff₀ hden]
        nlinarith
      · rw [div_le_iff₀ hden]
        nlinarith
    · by_cases h4 : d.exp = -3
      · have hr : (d.rescale (-3)).value = d.value := by
          unfold Decimal.rescale
          rw [if_pos h4]
        rw [Decimal.Round_two d h2, Decimal.toRat_two, hr]
        have hx : d.toRat = (d.value : ℚ) / 1000 := by
          unfold Decimal.toRat
          rw [h4, zpow_neg]
          norm_num
          ring
        rw [hx]
        obtain ⟨b1, b2⟩ := roundTenth_near d.value
        generalize roundTenth d.value = q at b1 b2
        have c1 : ((10 * q - 5 : Int) : ℚ) ≤ ((d.value : Int) : ℚ) := by exact_mod_cast b1
        have c2 : ((d.value : Int) : ℚ) ≤ ((10 * q + 5 : Int) : ℚ) := by exact_mod_cast b2
        push_cast at c1 c2
        rw [abs_le]
        constructor <;> linarith
      · obtain ⟨k, hk⟩ : ∃ k : Nat, (k : Int) = d.exp + 1 :=
          ⟨(d.exp + 1).toNat, Int.toNat_of_nonneg (by omega)⟩
        have he : d.exp = (k : Int) - 1 := by omega
        have hx : d.toRat = ((d.value * 10 ^ (k + 1) : Int) : ℚ) / 100 := by
          unfold Decimal.toRat
          rw [he, zpow_sub₀ (by norm_num : (10 : ℚ) ≠ 0), zpow_natCast]
          push_cast
          rw [pow_succ]
          field_simp
          ring
        rw [Decimal.Round_two_toRat d _ hx]
        simp

theorem Decimal.string_two_value (r : Decimal) (h : r.exp = -2) :
    decimalTextValue r.string.data = r.toRat ∧
      (fractionalDigits r.string.data).length = 2 ∧
      (∀ c ∈ fractionalDigits r.string.data, c.isDigit = true) := by
  obtain ⟨ip, fp, hs, hip, hdi, hdf, hlen, hval⟩ := Decimal.string_two_places r h
  obtain ⟨hv, hf⟩ := decimalText_shape (decide (r.value < 0)) ip fp hip hdi
  rw [hs]
  refine ⟨?_, ?_, ?_⟩
  · rw [hv, hval, hlen, Decimal.toRat_of_exp_two r h]
    by_cases hneg : r.value < 0
    · have e : ((r.value.natAbs : Nat) : ℚ) = -(r.value : ℚ) := by
        have : ((r.value.natAbs : Nat) : Int) = -r.value := Int.ofNat_natAbs_of_nonpos (le_of_lt hneg)
        rw [← Int.cast_natCast, this, Int.cast_neg]
      simp only [hneg, decide_True, if_true, e]
      ring
    · have e : ((r.value.natAbs : Nat) : ℚ) = (r.value : ℚ) := by
        have : ((r.value.natAbs : Nat) : Int) = r.value := Int.natAbs_of_nonneg (by omega)
        rw [← Int.cast_natCast, this]
      simp only [hneg, decide_False, Bool.false_eq_true, if_false, e]
      ring
  · rw [hf, hlen]
  · rw [hf]
    exact hdf

/-- C30: the amount column of the record `WriteCSV` writes is
`Amount.StringFixed(2)`; that text has exactly two digits after its point and
stands for the amount rounded to two places, which is within half a hundredth
of the amount; it stands for the amount itself exactly when the amount has at
most two fractional digits (is a whole number of hundredths), and differs from
it otherwise. 150.5 is written 150.50 and 100 is written 100.00. -/
theorem StringFixed_two_places (d : Decimal) (Format : String → Time → String) (item : Item) :
    (WriteCSV_record Format item)[2]? = some (item.Amount.StringFixed 2) ∧
    (fractionalDigits (d.StringFixed 2).data).length = 2 ∧
    (∀ c ∈ fractionalDigits (d.StringFixed 2).data, c.isDigit = true) ∧
    decimalTextValue (d.StringFixed 2).data = (d.Round 2).toRat ∧
    (d.Round 2).exp = -2 ∧
    |decimalTextValue (d.StringFixed 2).data - d.toRat| ≤ 1 / 200 ∧
    ((∃ c : Int, d.toRat = (c : ℚ) / 100) →
      decimalTextValue (d.StringFixed 2).data = d.toRat) ∧
    ((¬ ∃ c : Int, d.toRat = (c : ℚ) / 100) →
      decimalTextValue (d.StringFixed 2).data ≠ d.toRat) ∧
    (Decimal.mk 1505 (-1)).StringFixed 2 = "150.50" ∧
    (Decimal.mk 100 0).StringFixed 2 = "100.00" ∧
    (Decimal.mk 12345 (-3)).StringFixed 2 = "12.35" ∧
    (Decimal.mk (-12345) (-3)).StringFixed 2 = "-12.35" := by
  have hexp := Decimal.Round_two_exp d
  obtain ⟨hv, hl, hd⟩ := Decimal.string_two_value (d.Round 2) hexp
  have hsf : d.StringFixed 2 = (d.Round 2).string := rfl
  rw [hsf]
  refine ⟨rfl, hl, hd, hv, hexp, ?_, ?_, ?_, by decide, by decide, by decide, by decide⟩
  · rw [hv]
    exact Decimal.Round_two_near d
  · rintro ⟨c, hc⟩
    rw [hv]
    exact Decimal.Round_two_toRat d c hc
  · intro hn heq
    apply hn
    refine ⟨(d.Round 2).value, ?_⟩
    rw [← heq, hv]
    exact Decimal.toRat_of_exp_two _ hexp


/-! ## Properties of the scalar aggregation over no rows -/

theorem buildAnalyticsWhere_untyped (from_ to_ : Time) :
    buildAnalyticsWhere from_ to_ ""
      = ("WHERE date >= $1 AND date <= $2", [Arg.time from_, Arg.time to_]) := by
  simp [buildAnalyticsWhere]
  decide

theorem buildAnalyticsWhere_typed (from_ to_ : Time) (itemType : String) (h : itemType ≠ "") :
    buildAnalyticsWhere from_ to_ itemType
      = ("WHERE date >= $1 AND date <= $2 AND type = $3",
          [Arg.time from_, Arg.time to_, Arg.str itemType]) := by
  simp only [buildAnalyticsWhere, ne_eq, h, not_false_eq_true, if_true, List.length_cons,
    List.length_nil, List.cons_append, List.nil_append, Prod.mk.injEq, and_true]
  decide

theorem sqlParse_Aggregate_query_untyped :
    sqlParse (Aggregate_query "WHERE date >= $1 AND date <= $2")
      = some (parsedAggregateQuery false) := by
  decide

theorem sqlParse_Aggregate_query_typed :
    sqlParse (Aggregate_query "WHERE date >= $1 AND date <= $2 AND type = $3")
      = some (parsedAggregateQuery true) := by
  decide

theorem sqlStore_no_rows (agg : SqlAggregates) (entries : List Item) (text : String)
    (args : List Arg) (q : SqlSelect) (tests : List (Item → Bool))
    (hq : sqlParse text = some q) (ht : q.table = "items")
    (hc : allSome (q.conds.map (SqlCond.eval args)) = some tests)
    (hn : ∀ i ∈ entries, (tests.all fun test => test i) = false) :
    sqlStore agg entries text args
      = match allSome (q.columns.map (SqlExpr.eval agg [])) with
        | none => Except.error (GoError.errorf "function does not exist" [])
        | some values => Except.ok (scanScalarRow values) := by
  have hf : (entries.filter fun i => tests.all fun test => test i) = [] := by
    rw [List.filter_eq_nil_iff]
    intro i hi
    rw [hn i hi]
    decide
  unfold sqlStore
  rw [hq]
  simp only [ht, ne_eq, not_true_eq_false, if_false, hc, hf]

theorem sqlStore_Aggregate_no_match (agg : SqlAggregates) (entries : List Item)
    (from_ to_ : Time) (itemType : String)
    (h : ∀ i ∈ entries,
      ¬ (from_.After i.Date = false ∧ i.Date.After to_ = false ∧
          (itemType = "" ∨ i.Type_ = itemType))) :
    sqlStore agg entries (Aggregate_query (buildAnalyticsWhere from_ to_ itemType).1)
        (buildAnalyticsWhere from_ to_ itemType).2
      = Except.ok (Except.ok
          { Count := 0, TotalSum := ⟨0, 0⟩, Avg := ⟨0, 0⟩, Median := ⟨0, 0⟩, P90 := ⟨0, 0⟩ }) := by
  by_cases ht : itemType = ""
  · subst ht
    rw [buildAnalyticsWhere_untyped]
    rw [sqlStore_no_rows agg entries _ [Arg.time from_, Arg.time to_]
      (parsedAggregateQuery false)
      [fun i => !from_.After i.Date, fun i => !i.Date.After to_]
      sqlParse_Aggregate_query_untyped rfl rfl]
    · rfl
    · intro i hi
      have := h i hi
      simp only [List.all_cons, List.all_nil, Bool.and_true]
      by_cases h1 : from_.After i.Date = false
      · by_cases h2 : i.Date.After to_ = false
        · exact absurd ⟨h1, h2, Or.inl rfl⟩ this
        · simp [h2]
      · simp [h1]
  · rw [buildAnalyticsWhere_typed from_ to_ itemType ht]
    rw [sqlStore_no_rows agg entries _ [Arg.time from_, Arg.time to_, Arg.str itemType]
      (parsedAggregateQuery true)
      [fun i => !from_.After i.Date, fun i => !i.Date.After to_,
        fun i => decide (i.Type_ = itemType)]
      sqlParse_Aggregate_query_typed rfl rfl]
    · rfl
    · intro i hi
      have := h i hi
      simp only [List.all_cons, List.all_nil, Bool.and_true]
      by_cases h1 : from_.After i.Date = false
      · by_cases h2 : i.Date.After to_ = false
        · by_cases h3 : i.Type_ = itemType
          · exact absurd ⟨h1, h2, Or.inr h3⟩ this
          · simp [h3]
        · simp [h2]
      · simp [h1]

/-- C27: over a database in which no entry of the table passes the WHERE
clause built for `from`, `to` and `type` (an entry passes when its date is
within the bounds and, for a non-empty type, its type is that one),
`Aggregate` sends its query once and returns no error and the result with
Count 0 and total sum, average, median and 90th percentile all 0: the count
is `COUNT(*)` of no rows and each of the four aggregates is null and replaced
by the 0 that the `COALESCE` of the query text names. -/
theorem Aggregate_empty_range (agg : SqlAggregates) (entries : List Item) (from_ to_ : Time)
    (itemType : String)
    (h : ∀ i ∈ entries,
      ¬ (from_.After i.Date = false ∧ i.Date.After to_ = false ∧
          (itemType = "" ∨ i.Type_ = itemType))) :
    AnalyticsRepo.Aggregate (sqlStore agg entries) from_ to_ itemType
      = (({ TotalSum := ⟨0, 0⟩, Avg := ⟨0, 0⟩, Count := 0, Median := ⟨0, 0⟩, P90 := ⟨0, 0⟩,
            Groups := none }, none),
          [(Aggregate_query (buildAnalyticsWhere from_ to_ itemType).1,
            (buildAnalyticsWhere from_ to_ itemType).2)]) := by
  have hs := sqlStore_Aggregate_no_match agg entries from_ to_ itemType h
  unfold AnalyticsRepo.Aggregate
  simp only [hs]
  rfl

/-- Witness for C27: a database with one entry dated 2024-06-15, asked for
January 2024. -/
theorem Aggregate_empty_range_witness :
    (AnalyticsRepo.Aggregate (sqlStore sampleAggregates [sampleItem])
        ⟨daysSinceYearOne 2024 1 1 * 86400, 0⟩ ⟨daysSinceYearOne 2024 1 31 * 86400, 0⟩ "").1
      = (AnalyticsResult.zero, none) :=
  congrArg Prod.fst (Aggregate_empty_range sampleAggregates [sampleItem]
    ⟨daysSinceYearOne 2024 1 1 * 86400, 0⟩ ⟨daysSinceYearOne 2024 1 31 * 86400, 0⟩ ""
    (by decide))

/-! ## Properties of `WriteCSV` -/

theorem WriteCSV_loop_ok {τ : Type} (Format : String → Time → String) (cw : csvWriter τ)
    (hw : ∀ w r, (cw.Write w r).1 = none) (he : ∀ w, cw.Error w = none)
    (items : List Item) (w : τ) (written : List (List String)) :
    (WriteCSV_loop Format cw items w written).result = none ∧
    (WriteCSV_loop Format cw items w written).calls
      = written ++ items.map (WriteCSV_record Format) := by
  induction items generalizing w written with
  | nil =>
    unfold WriteCSV_loop
    exact ⟨he _, by simp⟩
  | cons item rest ih =>
    unfold WriteCSV_loop
    simp only [hw w (WriteCSV_record Format item)]
    have := ih (cw.Write w (WriteCSV_record Format item)).2
      (written ++ [WriteCSV_record Format item])
    refine ⟨this.1, ?_⟩
    rw [this.2]
    simp

theorem csvBufferedWriter_Write (size : Nat) (w : BufferedWriter) (record : List String) :
    ((csvBufferedWriter size).Write w record).1 = none ∧
    ((csvBufferedWriter size).Write w record).2.emitted
        ++ ((csvBufferedWriter size).Write w record).2.buffered
      = w.emitted ++ w.buffered ++ (csvEncodeRecord record ++ ['\n']) := by
  refine ⟨rfl, ?_⟩
  simp only [csvBufferedWriter, List.append_assoc, List.take_append_drop]

theorem WriteCSV_loop_buffered (Format : String → Time → String) (size : Nat)
    (items : List Item) (w : BufferedWriter) (written : List (List String)) :
    (WriteCSV_loop Format (csvBufferedWriter size) items w written).state
      = { buffered := [],
          emitted := w.emitted ++ w.buffered ++ csvText (items.map (WriteCSV_record Format)) } := by
  induction items generalizing w written with
  | nil =>
    unfold WriteCSV_loop
    simp [csvBufferedWriter, csvText]
  | cons item rest ih =>
    unfold WriteCSV_loop
    have hw := csvBufferedWriter_Write size w (WriteCSV_record Format item)
    simp only [hw.1]
    rw [ih, hw.2]
    simp [csvText]

/-- C25: `WriteCSV` over a csv writer whose `Write` and `Error` never report
an error returns nil and hands over len(items)+1 records: the header
`id,type,amount,category,description,date,created_at,updated_at`, then for
each item in input order the eight fields ID, Type, amount, Category,
Description, Date in the layout `2006-01-02`, CreatedAt and UpdatedAt in the
RFC 3339 layout. Over the buffered csv writer on a writer that does not fail,
whatever the buffer size, it returns nil, leaves nothing in the buffer and the
underlying writer has received, after what was there before, exactly the text
of those records, one line each. A nil list is written like the empty one. -/
theorem WriteCSV_records {τ : Type} (Format : String → Time → String) (cw : csvWriter τ)
    (w : τ) (size : Nat) (wb : BufferedWriter) (items : Option (List Item))
    (hw : ∀ w r, (cw.Write w r).1 = none) (he : ∀ w, cw.Error w = none) :
    (WriteCSV Format cw w items).result = none ∧
    (WriteCSV Format cw w items).calls
      = ["id", "type", "amount", "category", "description", "date", "created_at", "updated_at"]
        :: ((items.getD []).map fun item =>
          [ item.ID, item.Type_, item.Amount.StringFixed 2, item.Category, item.Description,
            Format "2006-01-02" item.Date, Format "2006-01-02T15:04:05Z07:00" item.CreatedAt,
            Format "2006-01-02T15:04:05Z07:00" item.UpdatedAt ]) ∧
    (WriteCSV Format cw w items).calls.length = (items.getD []).length + 1 ∧
    (∀ r ∈ (WriteCSV Format cw w items).calls, r.length = 8) ∧
    (WriteCSV Format (csvBufferedWriter size) wb items).result = none ∧
    (WriteCSV Format (csvBufferedWriter size) wb items).state
      = { buffered := [],
          emitted := wb.emitted ++ wb.buffered
            ++ csvText (["id", "type", "amount", "category", "description", "date",
                "created_at", "updated_at"]
              :: ((items.getD []).map fun item =>
                [ item.ID, item.Type_, item.Amount.StringFixed 2, item.Category,
                  item.Description, Format "2006-01-02" item.Date,
                  Format "2006-01-02T15:04:05Z07:00" item.CreatedAt,
                  Format "2006-01-02T15:04:05Z07:00" item.UpdatedAt ])) } := by
  have hl := WriteCSV_loop_ok Format cw hw he (items.getD []) (cw.Write w WriteCSV_header).2
    [WriteCSV_header]
  have hc : (WriteCSV Format cw w items).calls
      = WriteCSV_header :: (items.getD []).map (WriteCSV_record Format) := by
    unfold WriteCSV
    simp only [hw w WriteCSV_header]
    rw [hl.2]
    rfl
  have hb := csvBufferedWriter_Write size wb WriteCSV_header
  refine ⟨?_, hc, ?_, ?_, ?_, ?_⟩
  · unfold WriteCSV
    simp only [hw w WriteCSV_header]
    exact hl.1
  · rw [hc]
    simp
  · intro r hr
    rw [hc] at hr
    rcases List.mem_cons.mp hr with h | h
    · rw [h]
      rfl
    · obtain ⟨item, _, hi⟩ := List.mem_map.mp h
      rw [← hi]
      rfl
  · unfold WriteCSV
    simp only [hb.1]
    exact (WriteCSV_loop_ok Format (csvBufferedWriter size) (fun _ _ => rfl) (fun _ => rfl)
      (items.getD []) _ _).1
  · unfold WriteCSV
    simp only [hb.1]
    rw [WriteCSV_loop_buffered, hb.2]
    have e : csvText (WriteCSV_header :: (items.getD []).map (WriteCSV_record Format))
        = csvEncodeRecord WriteCSV_header
          ++ '\n' :: csvText ((items.getD []).map (WriteCSV_record Format)) := rfl
    have e2 : (["id", "type", "amount", "category", "description", "date", "created_at",
          "updated_at"]
        :: ((items.getD []).map fun item =>
          [ item.ID, item.Type_, item.Amount.StringFixed 2, item.Category, item.Description,
            Format "2006-01-02" item.Date, Format "2006-01-02T15:04:05Z07:00" item.CreatedAt,
            Format "2006-01-02T15:04:05Z07:00" item.UpdatedAt ]))
        = WriteCSV_header :: (items.getD []).map (WriteCSV_record Format) := rfl
    rw [e2, e]
    simp

/-- Witness for C25: one sample item written through a buffer of 4096
characters to an empty writer gives the header line and one line of eight
fields, and nothing stays in the buffer. -/
theorem WriteCSV_records_witness :
    (WriteCSV (fun layout _ => layout) (csvBufferedWriter 4096) ⟨[], []⟩
        (some [sampleItem])).calls.length = 2 ∧
    (WriteCSV (fun layout _ => layout) (csvBufferedWriter 4096) ⟨[], []⟩
        (some [sampleItem])).state.buffered = [] ∧
    String.mk (WriteCSV (fun layout _ => layout) (csvBufferedWriter 4096) ⟨[], []⟩
        (some [sampleItem])).state.emitted
      = "id,type,amount,category,description,date,created_at,updated_at\nid-1,expense,55.50,food,lunch,2006-01-02,2006-01-02T15:04:05Z07:00,2006-01-02T15:04:05Z07:00\n" :=
  ⟨(WriteCSV_records (fun layout _ => layout) (csvBufferedWriter 4096) ⟨[], []⟩ 4096 ⟨[], []⟩
      (some [sampleItem]) (fun _ _ => rfl) (fun _ => rfl)).2.2.1,
    congrArg BufferedWriter.buffered
      (WriteCSV_records (fun layout _ => layout) (csvBufferedWriter 4096) ⟨[], []⟩ 4096 ⟨[], []⟩
        (some [sampleItem]) (fun _ _ => rfl) (fun _ => rfl)).2.2.2.2.2,
    (congrArg (fun s => String.mk (BufferedWriter.emitted s))
      (WriteCSV_records (fun layout _ => layout) (csvBufferedWriter 4096) ⟨[], []⟩ 4096 ⟨[], []⟩
        (some [sampleItem]) (fun _ _ => rfl) (fun _ => rfl)).2.2.2.2.2).trans (by decide)⟩


end SalesTracker
